import Mathlib

/-! kv_engine: the command-execution core of the daemon

A shallow embedding of `daemon/mcbp_executors.cc`: packet framing
(`try_read_mcbp_command`), the privilege gate and request dispatch
(`execute_client_request_packet`), the two opcode tables
(`initialize_mbcp_lookup_map`) and the default handler
(`process_bin_unknown_packet`).

Conventions of the embedding.

* A C++ function `void f(Cookie& cookie)` becomes a Lean function from the
  cookie before the call to the cookie after it.  The connection is reached
  through the cookie, as in the source (`cookie.getConnection()`).
* Every call into a collaborator that is outside the file (audit, response
  queueing, buffer growth, ...) appends one `Effect` to the connection's
  `log`, in program order.  The log is only ever appended to.
* A function that can throw returns an `Outcome`: the cookie as it is when
  control leaves the function and the exception in flight, if any.
* Bytes are natural numbers; every accessor reduces them modulo 256.
  `size_t` arithmetic is reduced modulo `2 ^ 64`.
* `LOG_WARNING` / `LOG_TRACE` / `LOG_INFO` / `LOG_DEBUG` calls write to the
  log file only and are left out.
-/

namespace KvEngine

/-! ## Data model -/

/-- The connection states of `StateMachine::State`.  The five named
constructors are the ones `mcbp_executors.cc` sets; `other` stands for every
remaining enumerator. -/
inductive State where
  | new_cmd
  | validate
  | read_packet_body
  | ship_log
  | closing
  | other (tag : Nat)
  deriving DecidableEq, Repr

/-- The engine status codes of `ENGINE_ERROR_CODE` / `cb::engine_errc`.  The
named constructors are the ones the daemon code mentions; `other` stands for
every remaining enumerator.  The two C++ types spell the same codes in two
ways and are cast into each other: `cb::engine_errc::success`, `would_block`,
`disconnect` and `failed` are `ENGINE_SUCCESS`, `ENGINE_EWOULDBLOCK`,
`ENGINE_DISCONNECT` and `ENGINE_FAILED`; the three codes the sources only
spell the scoped way keep that spelling. -/
inductive ENGINE_ERROR_CODE where
  | ENGINE_SUCCESS
  | ENGINE_EWOULDBLOCK
  | ENGINE_DISCONNECT
  | ENGINE_EACCESS
  | ENGINE_AUTH_STALE
  | ENGINE_FAILED
  | temporary_failure
  | no_memory
  | cannot_apply_collections_manifest
  | other (raw : Nat)
  deriving DecidableEq, Repr

/-- The wire status codes of `cb::mcbp::Status` that the file sends. -/
inductive Status where
  | Success
  | Eaccess
  | AuthStale
  | NotSupported
  | Einval
  | Ebusy
  | KeyEnoent
  | KeyEexists
  | other (raw : Nat)
  deriving DecidableEq, Repr

/-- The verdict of `cb::rbac::PrivilegeAccess`.  A C++ enum object can hold a
value that is none of its enumerators; `invalid` stands for those. -/
inductive PrivilegeAccess where
  | Ok
  | Fail
  | Stale
  | invalid (raw : Nat)
  deriving DecidableEq, Repr

/-- The two kinds of packet view of `Cookie::PacketContent`. -/
inductive PacketContent where
  | Header
  | Full
  deriving DecidableEq, Repr

/-- A `cb::const_byte_buffer`: the address of the first byte and a length. -/
structure View where
  data : Nat
  size : Nat
  deriving DecidableEq, Repr

/-- The exceptions the file throws or catches. -/
inductive Exception where
  | logic_error (what : String)
  | runtime_error (what : String)
  | bad_alloc
  | bad_function_call
  deriving DecidableEq, Repr

/-- The datatypes of `cb::mcbp::Datatype` the file names. -/
inductive Datatype where
  | Raw
  | JSON
  deriving DecidableEq, Repr

/-- The packet classes of `cb::mcbp::Magic`.  `invalid` stands for a magic
byte that is none of the six enumerators. -/
inductive Magic where
  | ClientRequest
  | AltClientRequest
  | ClientResponse
  | AltClientResponse
  | ServerRequest
  | ServerResponse
  | invalid (raw : Nat)
  deriving DecidableEq, Repr

/-- The opcodes of `cb::mcbp::ServerOpcode` the file names; `other` stands for
every other opcode byte. -/
inductive ServerOpcode where
  | ClustermapChangeNotification
  | Authenticate
  | ActiveExternalUsers
  | other (raw : Nat)
  deriving DecidableEq, Repr

/-- One call into a collaborator, as recorded in the connection's log. -/
inductive Effect where
  | cookieInitialize (header : View)
  | audit_invalid_packet (input : View)
  | audit_command_access_failed
  | setState (s : State)
  | addMsgHdr (reset : Bool)
  | setPacket (content : PacketContent) (buffer : View)
  | ensureCapacity (nbytes : Nat)
  | sendResponse (status : Status)
  | sendDynamicBuffer
  | clearDynamicBuffer
  | responseCounter (status : Status)
  | update_topkeys
  | setEwouldblock (value : Bool)
  | bucket_unknown_command
  | sendResponseWith (status : Status) (extras key value : List Nat)
      (datatype : Datatype) (cas : Nat)
  | setWriteAndGo (s : State)
  | setErrorContext (message : String)
  | setCas (value : Nat)
  | setVerbose (level : Int)
  | session_cas_cas
  | reload_config_file
  | audit_set_privilege_debug_mode (enable : Bool)
  | mc_audit_event
  | increment_session_counter
  | shutdown_server
  | decrement_session_counter
  | updateExternalUser
  | externalAuthManager_add
  | externalAuthManager_responseReceived
  | ioctl_get_property
  | ioctl_set_property
  | enableDatatype (feature : Datatype)
  | dcp_response_handler
  | dcpGetFailoverLog
  | handle_executor_status (status : ENGINE_ERROR_CODE)
  | cb_create_named_thread
  | set_default_bucket_enabled (value : Bool)
  | notifyIoComplete (status : ENGINE_ERROR_CODE)
  deriving DecidableEq, Repr

/-- The read buffer `c.read` (a `cb::Pipe`): the address of the first readable
byte, the readable bytes themselves and the size of the writable tail. -/
structure Pipe where
  addr : Nat
  bytes : List Nat
  wsize : Nat
  deriving DecidableEq, Repr

/-- The value of `rsize()`: the number of readable bytes. -/
def Pipe.rsize (p : Pipe) : Nat := p.bytes.length

/-- The value of `rdata()`: a view of the readable bytes. -/
def Pipe.rdata (p : Pipe) : View := { data := p.addr, size := p.rsize }

/-- The part of `Connection` the execution core reads and writes. -/
structure Connection where
  state : State
  read : Pipe
  log : List Effect
  deriving DecidableEq, Repr

/-- The part of `Cookie` the execution core reads and writes.  `dynamicBuffer`
is `none` when `getDynamicBuffer().getRoot()` is `nullptr`. -/
structure Cookie where
  connection : Connection
  packet : Option (PacketContent × View)
  aiostat : ENGINE_ERROR_CODE
  ewouldblock : Bool
  dynamicBuffer : Option (List Nat)
  deriving DecidableEq, Repr

/-! ## Opcodes, handlers and calls -/

/-- The enumerators of `cb::mcbp::ClientOpcode` that `initialize_mbcp_lookup_map`
registers.  Their one-byte values are declared outside the file, so every
definition that needs them takes the numbering as a parameter. -/
inductive ClientOpcode where
  | Noop
  | DcpOpen
  | DcpAddStream
  | DcpCloseStream
  | DcpStreamReq
  | DcpGetFailoverLog
  | DcpStreamEnd
  | DcpSnapshotMarker
  | DcpMutation
  | DcpDeletion
  | DcpExpiration
  | DcpSetVbucketState
  | DcpNoop
  | DcpBufferAcknowledgement
  | DcpControl
  | DcpSystemEvent
  | GetErrorMap
  | DcpPrepare
  | DcpSeqnoAcknowledged
  | DcpCommit
  | DcpAbort
  | CollectionsSetManifest
  | CollectionsGetManifest
  | CollectionsGetID
  | CollectionsGetScopeID
  | IsaslRefresh
  | SslCertsRefresh
  | Verbosity
  | Hello
  | Version
  | Quit
  | Quitq
  | SaslListMechs
  | SaslAuth
  | SaslStep
  | Flush
  | Flushq
  | Setq
  | Set
  | Addq
  | Add
  | Replaceq
  | Replace
  | Appendq
  | Append
  | Prependq
  | Prepend
  | Get
  | Getq
  | Getk
  | Getkq
  | GetMeta
  | GetqMeta
  | Gat
  | Gatq
  | Touch
  | Delete
  | Deleteq
  | Stat
  | Increment
  | Incrementq
  | Decrement
  | Decrementq
  | GetCmdTimer
  | SetCtrlToken
  | GetCtrlToken
  | IoctlGet
  | IoctlSet
  | ConfigValidate
  | ConfigReload
  | AuditPut
  | AuditConfigReload
  | Shutdown
  | CreateBucket
  | ListBuckets
  | DeleteBucket
  | SelectBucket
  | GetLocked
  | UnlockKey
  | GetFailoverLog
  | DropPrivilege
  | UpdateExternalUserPermissions
  | RbacRefresh
  | AuthProvider
  | GetClusterConfig
  | SetClusterConfig
  | SubdocGet
  | SubdocExists
  | SubdocDictAdd
  | SubdocDictUpsert
  | SubdocDelete
  | SubdocReplace
  | SubdocArrayPushLast
  | SubdocArrayPushFirst
  | SubdocArrayInsert
  | SubdocArrayAddUnique
  | SubdocCounter
  | SubdocMultiLookup
  | SubdocMultiMutation
  | SubdocGetCount
  | TapConnect
  | TapMutation
  | TapDelete
  | TapFlush
  | TapOpaque
  | TapVbucketSet
  | TapCheckpointStart
  | TapCheckpointEnd
  | AdjustTimeofday
  | GetAdjustedTime
  | SetDriftCounterState
  deriving DecidableEq, Repr

/-- The handler functions that can sit in a dispatch table: the default
handler and every function `initialize_mbcp_lookup_map` registers. -/
inductive Handler where
  | process_bin_unknown_packet
  | process_bin_noop_response
  | process_bin_dcp_response
  | dcp_open_executor
  | dcp_add_stream_executor
  | dcp_close_stream_executor
  | dcp_snapshot_marker_executor
  | dcp_deletion_executor
  | dcp_expiration_executor
  | dcp_get_failover_log_executor
  | dcp_mutation_executor
  | dcp_set_vbucket_state_executor
  | dcp_noop_executor
  | dcp_buffer_acknowledgement_executor
  | dcp_control_executor
  | dcp_stream_end_executor
  | dcp_stream_req_executor
  | dcp_system_event_executor
  | dcp_prepare_executor
  | dcp_seqno_acknowledged_executor
  | dcp_commit_executor
  | dcp_abort_executor
  | collections_set_manifest_executor
  | collections_get_manifest_executor
  | collections_get_collection_id_executor
  | collections_get_scope_id_executor
  | isasl_refresh_executor
  | ssl_certs_refresh_executor
  | verbosity_executor
  | process_hello_packet_executor
  | version_executor
  | quit_executor
  | quitq_executor
  | sasl_list_mech_executor
  | sasl_auth_executor
  | noop_executor
  | flush_executor
  | set_executor
  | add_executor
  | replace_executor
  | append_prepend_executor
  | get_executor
  | get_meta_executor
  | gat_executor
  | delete_executor
  | stat_executor
  | arithmetic_executor
  | get_cmd_timer_executor
  | set_ctrl_token_executor
  | get_ctrl_token_executor
  | ioctl_get_executor
  | ioctl_set_executor
  | config_validate_executor
  | config_reload_executor
  | audit_put_executor
  | audit_config_reload_executor
  | shutdown_executor
  | create_remove_bucket_executor
  | list_bucket_executor
  | select_bucket_executor
  | get_errmap_executor
  | get_locked_executor
  | unlock_executor
  | drop_privilege_executor
  | update_user_permissions_executor
  | rbac_refresh_executor
  | auth_provider_executor
  | get_cluster_config_executor
  | set_cluster_config_executor
  | subdoc_get_executor
  | subdoc_exists_executor
  | subdoc_dict_add_executor
  | subdoc_dict_upsert_executor
  | subdoc_delete_executor
  | subdoc_replace_executor
  | subdoc_array_push_last_executor
  | subdoc_array_push_first_executor
  | subdoc_array_insert_executor
  | subdoc_array_add_unique_executor
  | subdoc_counter_executor
  | subdoc_multi_lookup_executor
  | subdoc_multi_mutation_executor
  | subdoc_get_count_executor
  | no_support_executor
  | adjust_timeofday_executor
  deriving DecidableEq, Repr

/-- A dispatch table, `std::array<HandlerFunction, 0x100>`.  An entry is
`none` when the `std::function` is empty. -/
abbrev HandlerTable := Fin 256 → Option Handler

/-- The two global tables `handlers` and `response_handlers`. -/
structure Tables where
  handlers : HandlerTable
  response_handlers : HandlerTable

/-- The calls a router makes on its own account: the privilege check and the
call through a table slot. -/
inductive Call where
  | privilegeCheck (opcode : Fin 256)
  | handlers (opcode : Fin 256)
  | response_handlers (opcode : Fin 256)
  deriving DecidableEq, Repr

/-- The cookie when control leaves a function that may throw, the router-level
calls the function made, and the exception in flight, if any. -/
structure Outcome where
  cookie : Cookie
  calls : List Call
  thrown : Option Exception
  deriving DecidableEq, Repr

/-- The size of the fixed header, `sizeof(cb::mcbp::Request)`. -/
def sizeofRequest : Nat := 24

/-- The number of values of `size_t`. -/
def SIZE_MAX1 : Nat := 2 ^ 64

/-- Subtraction of two `size_t` values: it wraps around below zero. -/
def size_t_sub (a b : Nat) : Nat := (a % SIZE_MAX1 + SIZE_MAX1 - b % SIZE_MAX1) % SIZE_MAX1

/-! ## Header accessors

The layout is the one spelled out in `testapp_lock.cc` (`MB_22778`): magic,
opcode, keylen (2), extlen, datatype, vbucket (2), bodylen (4, network byte
order), opaque (4), cas (8). -/

/-- The byte at offset `i` of a packet. -/
def byteAt (packet : List Nat) (i : Nat) : Nat := packet.getD i 0 % 256

/-- The value of `getMagic()`, as the raw byte. -/
def getMagic (header : List Nat) : Nat := byteAt header 0

/-- The value of `getOpcode()`, as the raw byte. -/
def getOpcode (header : List Nat) : Fin 256 := Fin.ofNat (byteAt header 1)

/-- The value of `getBodylen()`: bytes 8..11 in network byte order. -/
def getBodylen (header : List Nat) : Nat :=
  byteAt header 8 * 2 ^ 24 + byteAt header 9 * 2 ^ 16 +
    byteAt header 10 * 2 ^ 8 + byteAt header 11

/-! ## Connection and cookie primitives -/

/-- Append one effect to the connection's log. -/
def Connection.record (c : Connection) (e : Effect) : Connection :=
  { c with log := c.log ++ [e] }

/-- The body of `Connection::setState`. -/
def Connection.setState (c : Connection) (s : State) : Connection :=
  { c with state := s, log := c.log ++ [Effect.setState s] }

/-- The call `c.addMsgHdr(reset)`: bookkeeping of the output vector. -/
def Connection.addMsgHdr (c : Connection) (reset : Bool) : Connection :=
  c.record (Effect.addMsgHdr reset)

/-- Modelled from the spec: `Connection::isPacketAvailable` is not in the
file.  The spec's "the full body is already available": the read buffer holds
the header and the whole body the header declares. -/
def Connection.isPacketAvailable (c : Connection) : Bool :=
  decide (sizeofRequest + getBodylen (c.read.bytes.take sizeofRequest) ≤ c.read.rsize)

/-- Record an effect on the cookie's connection. -/
def Cookie.record (k : Cookie) (e : Effect) : Cookie :=
  { k with connection := k.connection.record e }

/-- The call `cookie.getConnection().setState(s)`. -/
def Cookie.setState (k : Cookie) (s : State) : Cookie :=
  { k with connection := k.connection.setState s }

/-- The body of `Cookie::setPacket`: install a packet view. -/
def Cookie.setPacket (k : Cookie) (content : PacketContent) (buffer : View) : Cookie :=
  { k with packet := some (content, buffer),
           connection := k.connection.record (Effect.setPacket content buffer) }

/-- Modelled from the spec: `Cookie::initialize` is not in the file.  It
starts a new command with a header-only packet view. -/
def Cookie.initialize (k : Cookie) (header : View) : Cookie :=
  { k with packet := some (PacketContent.Header, header),
           connection := k.connection.record (Effect.cookieInitialize header) }

/-- The value of `cookie.getHeader()`: the header bytes the view points at,
which are the first bytes of the read buffer. -/
def Cookie.getHeader (k : Cookie) : List Nat :=
  k.connection.read.bytes.take sizeofRequest

/-- The call `audit_invalid_packet(c, input)`. -/
def audit_invalid_packet (k : Cookie) (input : View) : Cookie :=
  k.record (Effect.audit_invalid_packet input)

/-- The call `audit_command_access_failed(cookie)`. -/
def audit_command_access_failed (k : Cookie) : Cookie :=
  k.record Effect.audit_command_access_failed

/-- Modelled from the spec: `Cookie::sendResponse` is not in the file.  It
queues one response packet carrying the status. -/
def Cookie.sendResponse (k : Cookie) (status : Status) : Cookie :=
  k.record (Effect.sendResponse status)

/-- Modelled from the spec: `Cookie::sendDynamicBuffer` is not in the file.
It queues the response the engine has built in the dynamic buffer. -/
def Cookie.sendDynamicBuffer (k : Cookie) : Cookie :=
  k.record Effect.sendDynamicBuffer

/-- The body of `Cookie::clearDynamicBuffer`: release the dynamic buffer. -/
def Cookie.clearDynamicBuffer (k : Cookie) : Cookie :=
  { (k.record Effect.clearDynamicBuffer) with dynamicBuffer := none }

/-- The body of `Cookie::setEwouldblock`. -/
def Cookie.setEwouldblock (k : Cookie) (value : Bool) : Cookie :=
  { (k.record (Effect.setEwouldblock value)) with ewouldblock := value }

/-- The body of `Cookie::swapAiostat`: store the new value, return the old. -/
def Cookie.swapAiostat (k : Cookie) (value : ENGINE_ERROR_CODE) :
    ENGINE_ERROR_CODE × Cookie :=
  (k.aiostat, { k with aiostat := value })

/-! ## Collaborators outside the file -/

/-- What `cb::rbac::updateExternalUser` can do in `update_user_permissions_executor`:
return, or throw one of the two exceptions the executor catches. -/
inductive UpdateUserResult where
  | updated
  | json_exception (what : String)
  | runtime_error (what : String)
  deriving DecidableEq, Repr

/-- The return codes of `cb::sasl::server::refresh()`: the enumerators of
`cb::sasl::Error` that the `switch` of `cbsasl_refresh_main` lists. -/
inductive SaslError where
  | OK
  | CONTINUE
  | FAIL
  | BAD_PARAM
  | NO_MEM
  | NO_MECH
  | NO_USER
  | PASSWORD_ERROR
  | NO_RBAC_PROFILE
  | AUTH_PROVIDER_DIED
  deriving DecidableEq, Repr

/-- What a call made inside the `try` block of `cbsasl_refresh_main` can do:
return a value, throw a `std::exception` with a message, or throw anything
else. -/
inductive Attempt (α : Type) where
  | returned (value : α)
  | threw (what : String)
  | threwUnknown
  deriving DecidableEq, Repr

/-- The process-wide services the handlers consult: settings, the session
CAS, audit, RBAC, the external authentication manager, the ioctl and DCP
interfaces of the engine, the SASL server and the thread library.  Each field
is an arbitrary function of the cookie the handler runs on. -/
structure Daemon where
  /-- The magic of a packet, `getMagic()`, from the raw byte. -/
  magicOf : Nat → Magic
  /-- The server opcode of a packet, `getServerOpcode()`, from the raw byte. -/
  serverOpcodeOf : Fin 256 → ServerOpcode
  /-- The constant `MAX_VERBOSITY_LEVEL`. -/
  MAX_VERBOSITY_LEVEL : Int
  /-- The value of `payload->getLevel()` for the request's extras. -/
  getLevel : Cookie → Int
  /-- The value of `get_server_version()`. -/
  get_server_version : List Nat
  /-- The value of `connection.isSaslAuthEnabled()`. -/
  isSaslAuthEnabled : Connection → Bool
  /-- The value of `connection.isSslEnabled()`. -/
  isSslEnabled : Connection → Bool
  /-- The flag `settings.has.ssl_sasl_mechanisms`. -/
  has_ssl_sasl_mechanisms : Bool
  /-- The flag `settings.has.sasl_mechanisms`. -/
  has_sasl_mechanisms : Bool
  /-- The value of `settings.getSslSaslMechanisms()`. -/
  getSslSaslMechanisms : List Nat
  /-- The value of `settings.getSaslMechanisms()`. -/
  getSaslMechanisms : List Nat
  /-- The value of `cb::sasl::server::listmech()`. -/
  listmech : List Nat
  /-- The call `session_cas.cas(newval, casval, value)` for the request: its
  status and the value it stores in `value`. -/
  session_cas_cas : Cookie → ENGINE_ERROR_CODE × Nat
  /-- The value of `session_cas.getCasValue()`. -/
  getCasValue : Nat
  /-- The result of `validate_proposed_config_changes`: the dump of the
  errors, or `none` when there are none. -/
  validate_proposed_config_changes : Cookie → Option String
  /-- The value of `settings.isPrivilegeDebug()` before `reload_config_file()`. -/
  isPrivilegeDebug : Bool
  /-- The value of `settings.isPrivilegeDebug()` after `reload_config_file()`. -/
  isPrivilegeDebugReloaded : Bool
  /-- The result of `mc_audit_event(ntohl(id), request.getValue())`. -/
  mc_audit_event : Cookie → Bool
  /-- The value of `settings.getErrorMap(req->getVersion())`. -/
  getErrorMap : Cookie → List Nat
  /-- The result of `session_cas.increment_session_counter(cas)`. -/
  increment_session_counter : Cookie → Bool
  /-- The outcome of `cb::rbac::updateExternalUser` on the request's value. -/
  updateExternalUser : Cookie → UpdateUserResult
  /-- The value of `settings.isExternalAuthServiceEnabled()`. -/
  isExternalAuthServiceEnabled : Bool
  /-- The value of `connection.isDuplexSupported()`. -/
  isDuplexSupported : Connection → Bool
  /-- The call `ioctl_get_property(cookie, key, value)`: its status and the
  value it stores in `value`. -/
  ioctl_get_property : Cookie → ENGINE_ERROR_CODE × List Nat
  /-- The call `ioctl_set_property(cookie, key, value)`. -/
  ioctl_set_property : Cookie → ENGINE_ERROR_CODE
  /-- Is `c.getBucket().getDcpIface()` a non-null pointer? -/
  hasDcpIface : Connection → Bool
  /-- The call `dcp->response_handler(&cookie, header)`. -/
  dcp_response_handler : Cookie → ENGINE_ERROR_CODE
  /-- The call `dcpGetFailoverLog(cookie, opaque, vbucket, callback)`. -/
  dcpGetFailoverLog : Cookie → ENGINE_ERROR_CODE
  /-- The status `cb_create_named_thread` returns; 0 means the thread runs. -/
  cb_create_named_thread : Cookie → Nat
  /-- The outcome of `cb::sasl::server::refresh()`. -/
  server_refresh : Attempt SaslError
  /-- The outcome of `mechanism::plain::authenticate("default", "")`. -/
  authenticate_default : Attempt SaslError

/-- The collaborators the execution core calls but does not define.  Each
field is an arbitrary function: the theorems hold for every choice. -/
structure Env where
  /-- The value of `settings.getMaxPacketSize()`. -/
  maxPacketSize : Nat
  /-- The result of `header.isValid()` on the header bytes. -/
  isValid : List Nat → Bool
  /-- The outcome of growing the read buffer by the given number of bytes:
  the address of the readable bytes afterwards, or `none` for
  `std::bad_alloc`. -/
  allocate : Pipe → Nat → Option Nat
  /-- The verdict of `privilegeChains.invoke(opcode, cookie)`. -/
  invoke : Fin 256 → Cookie → PrivilegeAccess
  /-- The policy `Connection::remapErrorCode` of the connection at hand. -/
  remapErrorCode : ENGINE_ERROR_CODE → ENGINE_ERROR_CODE
  /-- The engine call `bucket_unknown_command(cookie, mcbpResponseHandlerFn)`:
  its status and the dynamic buffer it leaves behind. -/
  bucket_unknown_command : Cookie → ENGINE_ERROR_CODE × Option (List Nat)
  /-- The mapping `cb::mcbp::to_status` from engine codes to wire statuses. -/
  to_status : ENGINE_ERROR_CODE → Status
  /-- The handlers whose bodies are not embedded below. -/
  external : Handler → Cookie → Cookie
  /-- The process-wide services. -/
  daemon : Daemon

/-- Modelled from the spec: `cb::Pipe::ensureCapacity` is not in the file.  It
grows the buffer so that `nbytes` more bytes can be written, possibly moving
the readable bytes to a new address, and throws `std::bad_alloc` when the
memory cannot be had.  The result is the cookie after the call and the
exception thrown, if any. -/
def Cookie.ensureCapacity (env : Env) (k : Cookie) (nbytes : Nat) :
    Cookie × Option Exception :=
  let k := k.record (Effect.ensureCapacity nbytes)
  match env.allocate k.connection.read nbytes with
  | none => (k, some Exception.bad_alloc)
  | some a =>
    ({ k with connection :=
        { k.connection with read :=
          { k.connection.read with addr := a, wsize := max k.connection.read.wsize nbytes } } },
     none)

/-- The call `update_topkeys(cookie)`: statistics only. -/
def update_topkeys (k : Cookie) : Cookie :=
  k.record Effect.update_topkeys

/-! ## Framing: `try_read_mcbp_command` -/

/-- The body of `try_read_mcbp_command` (mcbp_executors.cc:936). -/
def try_read_mcbp_command (env : Env) (cookie : Cookie) : Outcome :=
  let input := cookie.connection.read.rdata
  if input.size < sizeofRequest then
    { cookie := cookie, calls := [],
      thrown := some (Exception.logic_error
        ("try_read_mcbp_command: header not present (got " ++
          toString cookie.connection.read.rsize ++ " of " ++ toString sizeofRequest ++ ")")) }
  else
    let cookie := cookie.initialize { data := input.data, size := sizeofRequest }
    let header := cookie.getHeader
    if !env.isValid header then
      let cookie := audit_invalid_packet cookie input
      { cookie := cookie.setState State.closing, calls := [], thrown := none }
    else if getBodylen header > env.maxPacketSize then
      { cookie := cookie.setState State.closing, calls := [], thrown := none }
    else
      let cookie := { cookie with connection := cookie.connection.addMsgHdr true }
      if cookie.connection.isPacketAvailable then
        let cookie := cookie.setPacket PacketContent.Full
          { data := input.data, size := sizeofRequest + getBodylen header }
        { cookie := cookie.setState State.validate, calls := [], thrown := none }
      else
        let needed := (sizeofRequest + getBodylen header) % SIZE_MAX1
        let nbytes := size_t_sub needed cookie.connection.read.rsize
        let grown := cookie.ensureCapacity env nbytes
        match grown.2 with
        | some Exception.bad_alloc =>
          { cookie := grown.1.setState State.closing, calls := [], thrown := none }
        | some e =>
          { cookie := grown.1, calls := [], thrown := some e }
        | none =>
          let cookie := grown.1.setPacket PacketContent.Header
            { data := grown.1.connection.read.rdata.data, size := sizeofRequest }
          { cookie := cookie.setState State.read_packet_body, calls := [], thrown := none }

/-! ## The default handler and the noop response handler -/

/-- The body of `process_bin_unknown_packet` (mcbp_executors.cc:120). -/
def process_bin_unknown_packet (env : Env) (cookie : Cookie) : Cookie :=
  let swapped := cookie.swapAiostat ENGINE_ERROR_CODE.ENGINE_SUCCESS
  let ret := swapped.1
  let cookie := swapped.2
  let called : ENGINE_ERROR_CODE × Cookie :=
    if ret = ENGINE_ERROR_CODE.ENGINE_SUCCESS then
      let r := env.bucket_unknown_command cookie
      (r.1, { cookie.record Effect.bucket_unknown_command with dynamicBuffer := r.2 })
    else
      (ret, cookie)
  let cookie := called.2
  let ret := env.remapErrorCode called.1
  match ret with
  | ENGINE_ERROR_CODE.ENGINE_SUCCESS =>
    let cookie :=
      if cookie.dynamicBuffer.isSome then
        (cookie.record (Effect.responseCounter Status.Success)).sendDynamicBuffer
      else
        cookie.setState State.new_cmd
    update_topkeys cookie
  | ENGINE_ERROR_CODE.ENGINE_EWOULDBLOCK => cookie.setEwouldblock true
  | ENGINE_ERROR_CODE.ENGINE_DISCONNECT => cookie.setState State.closing
  | _ => cookie.clearDynamicBuffer.sendResponse (env.to_status ret)

/-- The body of `process_bin_noop_response` (mcbp_executors.cc:160). -/
def process_bin_noop_response (cookie : Cookie) : Cookie :=
  cookie.setState State.new_cmd

/-! ## The one-shot handlers -/

/-- Modelled from the spec: the six-argument `Cookie::sendResponse` is not in
the file.  It queues one response packet with the status, extras, key, value,
datatype and CAS given. -/
def Cookie.sendResponseWith (k : Cookie) (status : Status) (extras key value : List Nat)
    (datatype : Datatype) (cas : Nat) : Cookie :=
  k.record (Effect.sendResponseWith status extras key value datatype cas)

/-- The call `connection.setWriteAndGo(s)`: the state the connection goes to
once the pending response has been written. -/
def Cookie.setWriteAndGo (k : Cookie) (s : State) : Cookie :=
  k.record (Effect.setWriteAndGo s)

/-- The call `cookie.setErrorContext(message)`. -/
def Cookie.setErrorContext (k : Cookie) (message : String) : Cookie :=
  k.record (Effect.setErrorContext message)

/-- The call `cookie.setCas(value)`. -/
def Cookie.setCas (k : Cookie) (value : Nat) : Cookie :=
  k.record (Effect.setCas value)

/-- The body of `ssl_certs_refresh_executor` (mcbp_executors.cc:206). -/
def ssl_certs_refresh_executor (cookie : Cookie) : Cookie :=
  cookie.sendResponse Status.Success

/-- The body of `verbosity_executor` (mcbp_executors.cc:211). -/
def verbosity_executor (env : Env) (cookie : Cookie) : Cookie :=
  let level := env.daemon.getLevel cookie
  let level :=
    if level < 0 ∨ level > env.daemon.MAX_VERBOSITY_LEVEL then env.daemon.MAX_VERBOSITY_LEVEL
    else level
  let cookie := cookie.record (Effect.setVerbose level)
  cookie.sendResponse Status.Success

/-- The body of `version_executor` (mcbp_executors.cc:223). -/
def version_executor (env : Env) (cookie : Cookie) : Cookie :=
  let version := env.daemon.get_server_version
  cookie.sendResponseWith Status.Success [] [] version Datatype.Raw 0

/-- The body of `quit_executor` (mcbp_executors.cc:233). -/
def quit_executor (cookie : Cookie) : Cookie :=
  let cookie := cookie.sendResponse Status.Success
  cookie.setWriteAndGo State.closing

/-- The body of `quitq_executor` (mcbp_executors.cc:242). -/
def quitq_executor (cookie : Cookie) : Cookie :=
  cookie.setState State.closing

/-- The body of `sasl_list_mech_executor` (mcbp_executors.cc:250). -/
def sasl_list_mech_executor (env : Env) (cookie : Cookie) : Cookie :=
  let connection := cookie.connection
  if !env.daemon.isSaslAuthEnabled connection then
    cookie.sendResponse Status.NotSupported
  else if env.daemon.isSslEnabled connection && env.daemon.has_ssl_sasl_mechanisms then
    let mechs := env.daemon.getSslSaslMechanisms
    cookie.sendResponseWith Status.Success [] [] mechs Datatype.Raw 0
  else if !env.daemon.isSslEnabled connection && env.daemon.has_sasl_mechanisms then
    let mechs := env.daemon.getSaslMechanisms
    cookie.sendResponseWith Status.Success [] [] mechs Datatype.Raw 0
  else
    let mechs := env.daemon.listmech
    cookie.sendResponseWith Status.Success [] [] mechs Datatype.Raw 0

/-- The body of `noop_executor` (mcbp_executors.cc:292). -/
def noop_executor (cookie : Cookie) : Cookie :=
  cookie.sendResponse Status.Success

/-- The body of `set_ctrl_token_executor` (mcbp_executors.cc:311). -/
def set_ctrl_token_executor (env : Env) (cookie : Cookie) : Cookie :=
  let r := env.daemon.session_cas_cas cookie
  let ret := r.1
  let value := r.2
  let cookie := cookie.record Effect.session_cas_cas
  let cookie := cookie.setCas value
  cookie.sendResponseWith (env.to_status ret) [] [] [] Datatype.Raw value

/-- The body of `get_ctrl_token_executor` (mcbp_executors.cc:334). -/
def get_ctrl_token_executor (env : Env) (cookie : Cookie) : Cookie :=
  cookie.sendResponseWith Status.Success [] [] [] Datatype.Raw env.daemon.getCasValue

/-- The body of `config_validate_executor` (mcbp_executors.cc:420). -/
def config_validate_executor (env : Env) (cookie : Cookie) : Cookie :=
  match env.daemon.validate_proposed_config_changes cookie with
  | none => cookie.sendResponse Status.Success
  | some errors =>
    let cookie := cookie.setErrorContext errors
    cookie.sendResponse Status.Einval

/-- The body of `config_reload_executor` (mcbp_executors.cc:439). -/
def config_reload_executor (env : Env) (cookie : Cookie) : Cookie :=
  let old_priv_debug := env.daemon.isPrivilegeDebug
  let cookie := cookie.record Effect.reload_config_file
  let cookie :=
    if env.daemon.isPrivilegeDebugReloaded != old_priv_debug then
      cookie.record (Effect.audit_set_privilege_debug_mode env.daemon.isPrivilegeDebugReloaded)
    else cookie
  cookie.sendResponse Status.Success

/-- The body of `audit_put_executor` (mcbp_executors.cc:456). -/
def audit_put_executor (env : Env) (cookie : Cookie) : Cookie :=
  let accepted := env.daemon.mc_audit_event cookie
  let cookie := cookie.record Effect.mc_audit_event
  if accepted then cookie.sendResponse Status.Success
  else cookie.sendResponse Status.Ebusy

/-- The body of `get_errmap_executor` (mcbp_executors.cc:473). -/
def get_errmap_executor (env : Env) (cookie : Cookie) : Cookie :=
  let errormap := env.daemon.getErrorMap cookie
  if errormap.isEmpty then cookie.sendResponse Status.KeyEnoent
  else cookie.sendResponseWith Status.Success [] [] errormap Datatype.JSON 0

/-- The body of `shutdown_executor` (mcbp_executors.cc:490). -/
def shutdown_executor (env : Env) (cookie : Cookie) : Cookie :=
  let counted := env.daemon.increment_session_counter cookie
  let cookie := cookie.record Effect.increment_session_counter
  if counted then
    let cookie := cookie.record Effect.shutdown_server
    let cookie := cookie.record Effect.decrement_session_counter
    cookie.sendResponse Status.Success
  else
    cookie.sendResponse Status.KeyEexists

/-- The body of `update_user_permissions_executor` (mcbp_executors.cc:500). -/
def update_user_permissions_executor (env : Env) (cookie : Cookie) : Cookie :=
  let outcome := env.daemon.updateExternalUser cookie
  let cookie := cookie.record Effect.updateExternalUser
  let caught : Status × Cookie :=
    match outcome with
    | UpdateUserResult.updated => (Status.Success, cookie)
    | UpdateUserResult.json_exception what => (Status.Einval, cookie.setErrorContext what)
    | UpdateUserResult.runtime_error what => (Status.Einval, cookie.setErrorContext what)
  caught.2.sendResponse caught.1

/-- The body of `auth_provider_executor` (mcbp_executors.cc:532). -/
def auth_provider_executor (env : Env) (cookie : Cookie) : Cookie :=
  if !env.daemon.isExternalAuthServiceEnabled then
    let cookie := cookie.setErrorContext
      "Support for external authentication service is disabled"
    cookie.sendResponse Status.NotSupported
  else if env.daemon.isDuplexSupported cookie.connection then
    let cookie := cookie.record Effect.externalAuthManager_add
    cookie.sendResponse Status.Success
  else
    let cookie := cookie.setErrorContext "Connection is not in duplex mode"
    cookie.sendResponse Status.Einval

/-- The body of `no_support_executor` (mcbp_executors.cc:553). -/
def no_support_executor (cookie : Cookie) : Cookie :=
  cookie.sendResponse Status.NotSupported

/-! ## Handlers that act on an engine status -/

/-- The body of `ioctl_get_executor` (mcbp_executors.cc:343). -/
def ioctl_get_executor (env : Env) (cookie : Cookie) : Cookie :=
  let swapped := cookie.swapAiostat ENGINE_ERROR_CODE.ENGINE_SUCCESS
  let ret := swapped.1
  let cookie := swapped.2
  let called : ENGINE_ERROR_CODE × List Nat × Cookie :=
    if ret = ENGINE_ERROR_CODE.ENGINE_SUCCESS then
      let r := env.daemon.ioctl_get_property cookie
      (r.1, r.2, cookie.record Effect.ioctl_get_property)
    else
      (ret, [], cookie)
  let ret := called.1
  let value := called.2.1
  let cookie := called.2.2
  let remapErr := env.remapErrorCode ret
  match remapErr with
  | ENGINE_ERROR_CODE.ENGINE_SUCCESS =>
    cookie.sendResponseWith Status.Success [] [] value Datatype.Raw 0
  | ENGINE_ERROR_CODE.ENGINE_EWOULDBLOCK => cookie.setEwouldblock true
  | ENGINE_ERROR_CODE.ENGINE_DISCONNECT => cookie.setState State.closing
  | _ => cookie.sendResponse (env.to_status remapErr)

/-- The body of `ioctl_set_executor` (mcbp_executors.cc:384). -/
def ioctl_set_executor (env : Env) (cookie : Cookie) : Cookie :=
  let swapped := cookie.swapAiostat ENGINE_ERROR_CODE.ENGINE_SUCCESS
  let ret := swapped.1
  let cookie := swapped.2
  let called : ENGINE_ERROR_CODE × Cookie :=
    if ret = ENGINE_ERROR_CODE.ENGINE_SUCCESS then
      (env.daemon.ioctl_set_property cookie, cookie.record Effect.ioctl_set_property)
    else
      (ret, cookie)
  let ret := called.1
  let cookie := called.2
  let remapErr := env.remapErrorCode ret
  match remapErr with
  | ENGINE_ERROR_CODE.ENGINE_EWOULDBLOCK => cookie.setEwouldblock true
  | ENGINE_ERROR_CODE.ENGINE_DISCONNECT => cookie.setState State.closing
  | _ => cookie.sendResponse (env.to_status remapErr)

/-- The body of `process_bin_dcp_response` (mcbp_executors.cc:557). -/
def process_bin_dcp_response (env : Env) (cookie : Cookie) : Cookie :=
  let cookie := cookie.record (Effect.enableDatatype Datatype.JSON)
  if !env.daemon.hasDcpIface cookie.connection then
    cookie.setState State.closing
  else
    let ret := env.daemon.dcp_response_handler cookie
    let cookie := cookie.record Effect.dcp_response_handler
    let remapErr := env.remapErrorCode ret
    if remapErr = ENGINE_ERROR_CODE.ENGINE_DISCONNECT then
      cookie.setState State.closing
    else
      cookie.setState State.ship_log

/-- The call `handle_executor_status(cookie, status)`, defined in another
file: recorded with the status it is given. -/
def handle_executor_status (cookie : Cookie) (status : ENGINE_ERROR_CODE) : Cookie :=
  cookie.record (Effect.handle_executor_status status)

/-- The body of `dcp_get_failover_log_executor`
(dcp_get_failover_log_executor.cc:25). -/
def dcp_get_failover_log_executor (env : Env) (cookie : Cookie) : Cookie :=
  let swapped := cookie.swapAiostat ENGINE_ERROR_CODE.ENGINE_SUCCESS
  let ret := swapped.1
  let cookie := swapped.2
  let called : ENGINE_ERROR_CODE × Cookie :=
    if ret = ENGINE_ERROR_CODE.ENGINE_SUCCESS then
      (env.daemon.dcpGetFailoverLog cookie, cookie.record Effect.dcpGetFailoverLog)
    else
      (ret, cookie)
  let ret := called.1
  let cookie := called.2
  if ret ≠ ENGINE_ERROR_CODE.ENGINE_SUCCESS then
    handle_executor_status cookie ret
  else
    cookie

/-- Run the function a table slot holds.  A handler whose body is not embedded
above goes through `Env.external`. -/
def Handler.run (env : Env) (h : Handler) (cookie : Cookie) : Cookie :=
  match h with
  | Handler.process_bin_unknown_packet => KvEngine.process_bin_unknown_packet env cookie
  | Handler.process_bin_noop_response => KvEngine.process_bin_noop_response cookie
  | Handler.process_bin_dcp_response => KvEngine.process_bin_dcp_response env cookie
  | Handler.ssl_certs_refresh_executor => KvEngine.ssl_certs_refresh_executor cookie
  | Handler.verbosity_executor => KvEngine.verbosity_executor env cookie
  | Handler.version_executor => KvEngine.version_executor env cookie
  | Handler.quit_executor => KvEngine.quit_executor cookie
  | Handler.quitq_executor => KvEngine.quitq_executor cookie
  | Handler.sasl_list_mech_executor => KvEngine.sasl_list_mech_executor env cookie
  | Handler.noop_executor => KvEngine.noop_executor cookie
  | Handler.set_ctrl_token_executor => KvEngine.set_ctrl_token_executor env cookie
  | Handler.get_ctrl_token_executor => KvEngine.get_ctrl_token_executor env cookie
  | Handler.ioctl_get_executor => KvEngine.ioctl_get_executor env cookie
  | Handler.ioctl_set_executor => KvEngine.ioctl_set_executor env cookie
  | Handler.config_validate_executor => KvEngine.config_validate_executor env cookie
  | Handler.config_reload_executor => KvEngine.config_reload_executor env cookie
  | Handler.audit_put_executor => KvEngine.audit_put_executor env cookie
  | Handler.get_errmap_executor => KvEngine.get_errmap_executor env cookie
  | Handler.shutdown_executor => KvEngine.shutdown_executor env cookie
  | Handler.update_user_permissions_executor =>
    KvEngine.update_user_permissions_executor env cookie
  | Handler.auth_provider_executor => KvEngine.auth_provider_executor env cookie
  | Handler.no_support_executor => KvEngine.no_support_executor cookie
  | Handler.dcp_get_failover_log_executor => KvEngine.dcp_get_failover_log_executor env cookie
  | other => env.external other cookie

/-! ## The opcode tables -/

/-- The body of `setup_response_handler` (mcbp_executors.cc:595). -/
def setup_response_handler (opcodeValue : ClientOpcode → Fin 256) (t : Tables)
    (opcode : ClientOpcode) (function : Handler) : Tables :=
  { t with response_handlers :=
      fun i => if i = opcodeValue opcode then some function else t.response_handlers i }

/-- The body of `setup_handler` (mcbp_executors.cc:601). -/
def setup_handler (opcodeValue : ClientOpcode → Fin 256) (t : Tables)
    (opcode : ClientOpcode) (function : Handler) : Tables :=
  { t with handlers :=
      fun i => if i = opcodeValue opcode then some function else t.handlers i }

/-- The `setup_response_handler` calls of `initialize_mbcp_lookup_map`, in
source order (mcbp_executors.cc:608-641). -/
def responseRegistrations : List (ClientOpcode × Handler) :=
  [(ClientOpcode.Noop, Handler.process_bin_noop_response),
   (ClientOpcode.DcpOpen, Handler.process_bin_dcp_response),
   (ClientOpcode.DcpAddStream, Handler.process_bin_dcp_response),
   (ClientOpcode.DcpCloseStream, Handler.process_bin_dcp_response),
   (ClientOpcode.DcpStreamReq, Handler.process_bin_dcp_response),
   (ClientOpcode.DcpGetFailoverLog, Handler.process_bin_dcp_response),
   (ClientOpcode.DcpStreamEnd, Handler.process_bin_dcp_response),
   (ClientOpcode.DcpSnapshotMarker, Handler.process_bin_dcp_response),
   (ClientOpcode.DcpMutation, Handler.process_bin_dcp_response),
   (ClientOpcode.DcpDeletion, Handler.process_bin_dcp_response),
   (ClientOpcode.DcpExpiration, Handler.process_bin_dcp_response),
   (ClientOpcode.DcpSetVbucketState, Handler.process_bin_dcp_response),
   (ClientOpcode.DcpNoop, Handler.process_bin_dcp_response),
   (ClientOpcode.DcpBufferAcknowledgement, Handler.process_bin_dcp_response),
   (ClientOpcode.DcpControl, Handler.process_bin_dcp_response),
   (ClientOpcode.DcpSystemEvent, Handler.process_bin_dcp_response),
   (ClientOpcode.GetErrorMap, Handler.process_bin_dcp_response)]

/-- The `setup_handler` calls of `initialize_mbcp_lookup_map`, in source order
(mcbp_executors.cc:647-805). -/
def requestRegistrations : List (ClientOpcode × Handler) :=
  [(ClientOpcode.DcpOpen, Handler.dcp_open_executor),
   (ClientOpcode.DcpAddStream, Handler.dcp_add_stream_executor),
   (ClientOpcode.DcpCloseStream, Handler.dcp_close_stream_executor),
   (ClientOpcode.DcpSnapshotMarker, Handler.dcp_snapshot_marker_executor),
   (ClientOpcode.DcpDeletion, Handler.dcp_deletion_executor),
   (ClientOpcode.DcpExpiration, Handler.dcp_expiration_executor),
   (ClientOpcode.DcpGetFailoverLog, Handler.dcp_get_failover_log_executor),
   (ClientOpcode.DcpMutation, Handler.dcp_mutation_executor),
   (ClientOpcode.DcpSetVbucketState, Handler.dcp_set_vbucket_state_executor),
   (ClientOpcode.DcpNoop, Handler.dcp_noop_executor),
   (ClientOpcode.DcpBufferAcknowledgement, Handler.dcp_buffer_acknowledgement_executor),
   (ClientOpcode.DcpControl, Handler.dcp_control_executor),
   (ClientOpcode.DcpStreamEnd, Handler.dcp_stream_end_executor),
   (ClientOpcode.DcpStreamReq, Handler.dcp_stream_req_executor),
   (ClientOpcode.DcpSystemEvent, Handler.dcp_system_event_executor),
   (ClientOpcode.DcpPrepare, Handler.dcp_prepare_executor),
   (ClientOpcode.DcpSeqnoAcknowledged, Handler.dcp_seqno_acknowledged_executor),
   (ClientOpcode.DcpCommit, Handler.dcp_commit_executor),
   (ClientOpcode.DcpAbort, Handler.dcp_abort_executor),
   (ClientOpcode.CollectionsSetManifest, Handler.collections_set_manifest_executor),
   (ClientOpcode.CollectionsGetManifest, Handler.collections_get_manifest_executor),
   (ClientOpcode.CollectionsGetID, Handler.collections_get_collection_id_executor),
   (ClientOpcode.CollectionsGetScopeID, Handler.collections_get_scope_id_executor),
   (ClientOpcode.IsaslRefresh, Handler.isasl_refresh_executor),
   (ClientOpcode.SslCertsRefresh, Handler.ssl_certs_refresh_executor),
   (ClientOpcode.Verbosity, Handler.verbosity_executor),
   (ClientOpcode.Hello, Handler.process_hello_packet_executor),
   (ClientOpcode.Version, Handler.version_executor),
   (ClientOpcode.Quit, Handler.quit_executor),
   (ClientOpcode.Quitq, Handler.quitq_executor),
   (ClientOpcode.SaslListMechs, Handler.sasl_list_mech_executor),
   (ClientOpcode.SaslAuth, Handler.sasl_auth_executor),
   (ClientOpcode.SaslStep, Handler.sasl_auth_executor),
   (ClientOpcode.Noop, Handler.noop_executor),
   (ClientOpcode.Flush, Handler.flush_executor),
   (ClientOpcode.Flushq, Handler.flush_executor),
   (ClientOpcode.Setq, Handler.set_executor),
   (ClientOpcode.Set, Handler.set_executor),
   (ClientOpcode.Addq, Handler.add_executor),
   (ClientOpcode.Add, Handler.add_executor),
   (ClientOpcode.Replaceq, Handler.replace_executor),
   (ClientOpcode.Replace, Handler.replace_executor),
   (ClientOpcode.Appendq, Handler.append_prepend_executor),
   (ClientOpcode.Append, Handler.append_prepend_executor),
   (ClientOpcode.Prependq, Handler.append_prepend_executor),
   (ClientOpcode.Prepend, Handler.append_prepend_executor),
   (ClientOpcode.Get, Handler.get_executor),
   (ClientOpcode.Getq, Handler.get_executor),
   (ClientOpcode.Getk, Handler.get_executor),
   (ClientOpcode.Getkq, Handler.get_executor),
   (ClientOpcode.GetMeta, Handler.get_meta_executor),
   (ClientOpcode.GetqMeta, Handler.get_meta_executor),
   (ClientOpcode.Gat, Handler.gat_executor),
   (ClientOpcode.Gatq, Handler.gat_executor),
   (ClientOpcode.Touch, Handler.gat_executor),
   (ClientOpcode.Delete, Handler.delete_executor),
   (ClientOpcode.Deleteq, Handler.delete_executor),
   (ClientOpcode.Stat, Handler.stat_executor),
   (ClientOpcode.Increment, Handler.arithmetic_executor),
   (ClientOpcode.Incrementq, Handler.arithmetic_executor),
   (ClientOpcode.Decrement, Handler.arithmetic_executor),
   (ClientOpcode.Decrementq, Handler.arithmetic_executor),
   (ClientOpcode.GetCmdTimer, Handler.get_cmd_timer_executor),
   (ClientOpcode.SetCtrlToken, Handler.set_ctrl_token_executor),
   (ClientOpcode.GetCtrlToken, Handler.get_ctrl_token_executor),
   (ClientOpcode.IoctlGet, Handler.ioctl_get_executor),
   (ClientOpcode.IoctlSet, Handler.ioctl_set_executor),
   (ClientOpcode.ConfigValidate, Handler.config_validate_executor),
   (ClientOpcode.ConfigReload, Handler.config_reload_executor),
   (ClientOpcode.AuditPut, Handler.audit_put_executor),
   (ClientOpcode.AuditConfigReload, Handler.audit_config_reload_executor),
   (ClientOpcode.Shutdown, Handler.shutdown_executor),
   (ClientOpcode.CreateBucket, Handler.create_remove_bucket_executor),
   (ClientOpcode.ListBuckets, Handler.list_bucket_executor),
   (ClientOpcode.DeleteBucket, Handler.create_remove_bucket_executor),
   (ClientOpcode.SelectBucket, Handler.select_bucket_executor),
   (ClientOpcode.GetErrorMap, Handler.get_errmap_executor),
   (ClientOpcode.GetLocked, Handler.get_locked_executor),
   (ClientOpcode.UnlockKey, Handler.unlock_executor),
   (ClientOpcode.GetFailoverLog, Handler.dcp_get_failover_log_executor),
   (ClientOpcode.DropPrivilege, Handler.drop_privilege_executor),
   (ClientOpcode.UpdateExternalUserPermissions, Handler.update_user_permissions_executor),
   (ClientOpcode.RbacRefresh, Handler.rbac_refresh_executor),
   (ClientOpcode.AuthProvider, Handler.auth_provider_executor),
   (ClientOpcode.GetClusterConfig, Handler.get_cluster_config_executor),
   (ClientOpcode.SetClusterConfig, Handler.set_cluster_config_executor),
   (ClientOpcode.SubdocGet, Handler.subdoc_get_executor),
   (ClientOpcode.SubdocExists, Handler.subdoc_exists_executor),
   (ClientOpcode.SubdocDictAdd, Handler.subdoc_dict_add_executor),
   (ClientOpcode.SubdocDictUpsert, Handler.subdoc_dict_upsert_executor),
   (ClientOpcode.SubdocDelete, Handler.subdoc_delete_executor),
   (ClientOpcode.SubdocReplace, Handler.subdoc_replace_executor),
   (ClientOpcode.SubdocArrayPushLast, Handler.subdoc_array_push_last_executor),
   (ClientOpcode.SubdocArrayPushFirst, Handler.subdoc_array_push_first_executor),
   (ClientOpcode.SubdocArrayInsert, Handler.subdoc_array_insert_executor),
   (ClientOpcode.SubdocArrayAddUnique, Handler.subdoc_array_add_unique_executor),
   (ClientOpcode.SubdocCounter, Handler.subdoc_counter_executor),
   (ClientOpcode.SubdocMultiLookup, Handler.subdoc_multi_lookup_executor),
   (ClientOpcode.SubdocMultiMutation, Handler.subdoc_multi_mutation_executor),
   (ClientOpcode.SubdocGetCount, Handler.subdoc_get_count_executor),
   (ClientOpcode.TapConnect, Handler.no_support_executor),
   (ClientOpcode.TapMutation, Handler.no_support_executor),
   (ClientOpcode.TapDelete, Handler.no_support_executor),
   (ClientOpcode.TapFlush, Handler.no_support_executor),
   (ClientOpcode.TapOpaque, Handler.no_support_executor),
   (ClientOpcode.TapVbucketSet, Handler.no_support_executor),
   (ClientOpcode.TapCheckpointStart, Handler.no_support_executor),
   (ClientOpcode.TapCheckpointEnd, Handler.no_support_executor),
   (ClientOpcode.AdjustTimeofday, Handler.adjust_timeofday_executor),
   (ClientOpcode.GetAdjustedTime, Handler.no_support_executor),
   (ClientOpcode.SetDriftCounterState, Handler.no_support_executor)]

/-- The tables before `initialize_mbcp_lookup_map` runs: the two arrays have
static storage, so every `std::function` in them is empty. -/
def staticTables : Tables :=
  { handlers := fun _ => none, response_handlers := fun _ => none }

/-- The body of `initialize_mbcp_lookup_map` (mcbp_executors.cc:607): the
response registrations, the default fill of the request table, the request
registrations. -/
def initialize_mbcp_lookup_map (opcodeValue : ClientOpcode → Fin 256) (t : Tables) : Tables :=
  let t := responseRegistrations.foldl
    (fun t r => setup_response_handler opcodeValue t r.1 r.2) t
  let t := { t with handlers := fun _ => some Handler.process_bin_unknown_packet }
  requestRegistrations.foldl (fun t r => setup_handler opcodeValue t r.1 r.2) t

/-! ## Request and response routing -/

/-- The body of `execute_client_request_packet` (mcbp_executors.cc:808). -/
def execute_client_request_packet (env : Env) (handlers : HandlerTable)
    (cookie : Cookie) (request : List Nat) : Outcome :=
  let opcode := getOpcode request
  let res := env.invoke opcode cookie
  match res with
  | PrivilegeAccess.Fail =>
    let cookie := audit_command_access_failed cookie
    if env.remapErrorCode ENGINE_ERROR_CODE.ENGINE_EACCESS
        = ENGINE_ERROR_CODE.ENGINE_DISCONNECT then
      { cookie := cookie.setState State.closing,
        calls := [Call.privilegeCheck opcode], thrown := none }
    else
      { cookie := cookie.sendResponse Status.Eaccess,
        calls := [Call.privilegeCheck opcode], thrown := none }
  | PrivilegeAccess.Ok =>
    match handlers opcode with
    | some h =>
      { cookie := h.run env cookie,
        calls := [Call.privilegeCheck opcode, Call.handlers opcode], thrown := none }
    | none =>
      { cookie := cookie,
        calls := [Call.privilegeCheck opcode, Call.handlers opcode],
        thrown := some Exception.bad_function_call }
  | PrivilegeAccess.Stale =>
    if env.remapErrorCode ENGINE_ERROR_CODE.ENGINE_AUTH_STALE
        = ENGINE_ERROR_CODE.ENGINE_DISCONNECT then
      { cookie := cookie.setState State.closing,
        calls := [Call.privilegeCheck opcode], thrown := none }
    else
      { cookie := cookie.sendResponse Status.AuthStale,
        calls := [Call.privilegeCheck opcode], thrown := none }
  | PrivilegeAccess.invalid _ =>
    { cookie := cookie.setState State.closing,
      calls := [Call.privilegeCheck opcode], thrown := none }

/-- The body of `execute_client_response_packet` (mcbp_executors.cc:873). -/
def execute_client_response_packet (env : Env) (response_handlers : HandlerTable)
    (cookie : Cookie) (response : List Nat) : Outcome :=
  let opcode := getOpcode response
  match response_handlers opcode with
  | some handler =>
    { cookie := handler.run env cookie,
      calls := [Call.response_handlers opcode], thrown := none }
  | none =>
    { cookie := cookie.setState State.closing, calls := [], thrown := none }

/-- The body of `execute_request_packet` (mcbp_executors.cc:851). -/
def execute_request_packet (env : Env) (handlers : HandlerTable)
    (cookie : Cookie) (request : List Nat) : Outcome :=
  match env.daemon.magicOf (getMagic request) with
  | Magic.AltClientRequest => execute_client_request_packet env handlers cookie request
  | Magic.ClientRequest => execute_client_request_packet env handlers cookie request
  | Magic.ServerRequest =>
    { cookie := cookie, calls := [],
      thrown := some (Exception.runtime_error
        "execute_request_packet: processing server requests is not (yet) supported") }
  | Magic.AltClientResponse =>
    { cookie := cookie, calls := [],
      thrown := some (Exception.logic_error
        "execute_request_packet: provided packet is not a request") }
  | Magic.ClientResponse =>
    { cookie := cookie, calls := [],
      thrown := some (Exception.logic_error
        "execute_request_packet: provided packet is not a request") }
  | Magic.ServerResponse =>
    { cookie := cookie, calls := [],
      thrown := some (Exception.logic_error
        "execute_request_packet: provided packet is not a request") }
  | Magic.invalid _ =>
    { cookie := cookie, calls := [],
      thrown := some (Exception.logic_error
        "execute_request_packet: provided packet is not a request") }

/-- The body of `execute_server_response_packet` (mcbp_executors.cc:889). -/
def execute_server_response_packet (env : Env) (cookie : Cookie) (response : List Nat) :
    Cookie :=
  let cookie := cookie.setState State.new_cmd
  match env.daemon.serverOpcodeOf (getOpcode response) with
  | ServerOpcode.ClustermapChangeNotification => cookie
  | ServerOpcode.ActiveExternalUsers => cookie
  | ServerOpcode.Authenticate => cookie.record Effect.externalAuthManager_responseReceived
  | ServerOpcode.other _ => cookie

/-- The body of `execute_response_packet` (mcbp_executors.cc:917). -/
def execute_response_packet (env : Env) (response_handlers : HandlerTable)
    (cookie : Cookie) (response : List Nat) : Outcome :=
  match env.daemon.magicOf (getMagic response) with
  | Magic.ClientResponse => execute_client_response_packet env response_handlers cookie response
  | Magic.AltClientResponse =>
    execute_client_response_packet env response_handlers cookie response
  | Magic.ServerResponse =>
    { cookie := execute_server_response_packet env cookie response, calls := [],
      thrown := none }
  | Magic.ClientRequest =>
    { cookie := cookie, calls := [],
      thrown := some (Exception.logic_error
        "execute_response_packet: provided packet is not a response") }
  | Magic.AltClientRequest =>
    { cookie := cookie, calls := [],
      thrown := some (Exception.logic_error
        "execute_response_packet: provided packet is not a response") }
  | Magic.ServerRequest =>
    { cookie := cookie, calls := [],
      thrown := some (Exception.logic_error
        "execute_response_packet: provided packet is not a response") }
  | Magic.invalid _ =>
    { cookie := cookie, calls := [],
      thrown := some (Exception.logic_error
        "execute_response_packet: provided packet is not a response") }

/-! ## The SASL refresh command context -/

/-- The states of `SaslRefreshCommandContext::State`.  `Done` is the one
`refresh()` sets; the enum is declared in a header outside the sources, and
`Initial` is the spec's name for the state a context is constructed in. -/
inductive SaslRefreshState where
  | Initial
  | Done
  deriving DecidableEq, Repr

/-- A `SaslRefreshCommandContext`: the cookie it serves and its state. -/
structure SaslRefreshCommandContext where
  cookie : Cookie
  state : SaslRefreshState
  deriving DecidableEq, Repr

/-- The body of `SaslRefreshCommandContext::refresh`
(sasl_refresh_command_context.cc:80). -/
def SaslRefreshCommandContext.refresh (env : Env) (ctx : SaslRefreshCommandContext) :
    ENGINE_ERROR_CODE × SaslRefreshCommandContext :=
  let ctx := { ctx with state := SaslRefreshState.Done }
  let status := env.daemon.cb_create_named_thread ctx.cookie
  let ctx := { ctx with cookie := ctx.cookie.record Effect.cb_create_named_thread }
  if status ≠ 0 then
    (ENGINE_ERROR_CODE.temporary_failure,
      { ctx with cookie :=
          ctx.cookie.setErrorContext "Failed to create cbsasl db update thread" })
  else
    (ENGINE_ERROR_CODE.ENGINE_EWOULDBLOCK, ctx)

/-- The body of `SaslRefreshCommandContext::done`
(sasl_refresh_command_context.cc:101). -/
def SaslRefreshCommandContext.done (ctx : SaslRefreshCommandContext) :
    SaslRefreshCommandContext :=
  { ctx with cookie := ctx.cookie.sendResponse Status.Success }

/-- Modelled from the spec: `SaslRefreshCommandContext::step` is not in the
sources.  The context inspects its own state: in the state it was constructed
in it begins the operation (`refresh()`), in state `Done` it produces the
final response (`done()`) and reports success. -/
def SaslRefreshCommandContext.step (env : Env) (ctx : SaslRefreshCommandContext) :
    ENGINE_ERROR_CODE × SaslRefreshCommandContext :=
  match ctx.state with
  | SaslRefreshState.Initial => ctx.refresh env
  | SaslRefreshState.Done => (ENGINE_ERROR_CODE.ENGINE_SUCCESS, ctx.done)

/-- Modelled from the spec: the `drive()` of a command context is not in the
sources.  It reads and clears the cookie's status slot, steps the context when
the value read is success, and puts the resulting status, remapped, into one
of three buckets: success (nothing more to do), suspend (set the would-block
flag), fatal (close the connection or send the wire status). -/
def SaslRefreshCommandContext.drive (env : Env) (ctx : SaslRefreshCommandContext) :
    SaslRefreshCommandContext :=
  let swapped := ctx.cookie.swapAiostat ENGINE_ERROR_CODE.ENGINE_SUCCESS
  let ret := swapped.1
  let ctx := { ctx with cookie := swapped.2 }
  let stepped : ENGINE_ERROR_CODE × SaslRefreshCommandContext :=
    if ret = ENGINE_ERROR_CODE.ENGINE_SUCCESS then ctx.step env else (ret, ctx)
  let ret := env.remapErrorCode stepped.1
  let ctx := stepped.2
  match ret with
  | ENGINE_ERROR_CODE.ENGINE_SUCCESS => ctx
  | ENGINE_ERROR_CODE.ENGINE_EWOULDBLOCK =>
    { ctx with cookie := ctx.cookie.setEwouldblock true }
  | ENGINE_ERROR_CODE.ENGINE_DISCONNECT =>
    { ctx with cookie := ctx.cookie.setState State.closing }
  | _ => { ctx with cookie := ctx.cookie.sendResponse (env.to_status ret) }

/-- A run of passes over one context.  Before each pass the scheduler may
place a completion status in the cookie's status slot (`some status`) or
leave the slot as the previous pass left it (`none`). -/
def SaslRefreshCommandContext.drivePasses (env : Env) :
    List (Option ENGINE_ERROR_CODE) → SaslRefreshCommandContext → SaslRefreshCommandContext
  | [], ctx => ctx
  | none :: rest, ctx => SaslRefreshCommandContext.drivePasses env rest (ctx.drive env)
  | some status :: rest, ctx =>
    SaslRefreshCommandContext.drivePasses env rest
      (SaslRefreshCommandContext.drive env
        { ctx with cookie := { ctx.cookie with aiostat := status } })

/-- The call `::notifyIoComplete(cookie, status)`. -/
def notifyIoComplete (cookie : Cookie) (status : ENGINE_ERROR_CODE) : Cookie :=
  cookie.record (Effect.notifyIoComplete status)

/-- The body of `cbsasl_refresh_main` (sasl_refresh_command_context.cc:27).
The pair is `rv` and the cookie at the end of the `try` statement. -/
def cbsasl_refresh_main (env : Env) (cookie : Cookie) : Cookie :=
  let tried : ENGINE_ERROR_CODE × Cookie :=
    match env.daemon.server_refresh with
    | Attempt.returned SaslError.OK =>
      match env.daemon.authenticate_default with
      | Attempt.returned e =>
        (ENGINE_ERROR_CODE.ENGINE_SUCCESS,
          cookie.record (Effect.set_default_bucket_enabled (decide (e = SaslError.OK))))
      | Attempt.threw what => (ENGINE_ERROR_CODE.ENGINE_FAILED, cookie.setErrorContext what)
      | Attempt.threwUnknown =>
        (ENGINE_ERROR_CODE.ENGINE_FAILED, cookie.setErrorContext "Unknown error")
    | Attempt.returned SaslError.NO_MEM => (ENGINE_ERROR_CODE.no_memory, cookie)
    | Attempt.returned SaslError.FAIL => (ENGINE_ERROR_CODE.ENGINE_FAILED, cookie)
    | Attempt.returned SaslError.CONTINUE =>
      (ENGINE_ERROR_CODE.ENGINE_FAILED, cookie.setErrorContext "Internal error")
    | Attempt.returned SaslError.BAD_PARAM =>
      (ENGINE_ERROR_CODE.ENGINE_FAILED, cookie.setErrorContext "Internal error")
    | Attempt.returned SaslError.NO_MECH =>
      (ENGINE_ERROR_CODE.ENGINE_FAILED, cookie.setErrorContext "Internal error")
    | Attempt.returned SaslError.NO_USER =>
      (ENGINE_ERROR_CODE.ENGINE_FAILED, cookie.setErrorContext "Internal error")
    | Attempt.returned SaslError.PASSWORD_ERROR =>
      (ENGINE_ERROR_CODE.ENGINE_FAILED, cookie.setErrorContext "Internal error")
    | Attempt.returned SaslError.NO_RBAC_PROFILE =>
      (ENGINE_ERROR_CODE.ENGINE_FAILED, cookie.setErrorContext "Internal error")
    | Attempt.returned SaslError.AUTH_PROVIDER_DIED =>
      (ENGINE_ERROR_CODE.ENGINE_FAILED, cookie.setErrorContext "Internal error")
    | Attempt.threw what => (ENGINE_ERROR_CODE.ENGINE_FAILED, cookie.setErrorContext what)
    | Attempt.threwUnknown =>
      (ENGINE_ERROR_CODE.ENGINE_FAILED, cookie.setErrorContext "Unknown error")
  notifyIoComplete tried.2 tried.1

/-! ## `PersistManifestTask` -/

/-- What the file system answers during one run of `PersistManifestTask::run`. -/
structure FileSystem where
  /-- The result of `cb::io::isDirectory(finalFile)`. -/
  isDirectory : Bool
  /-- The value of `writer.good()` after the write and the close. -/
  writerGood : Bool
  /-- The result of `renameFile(tmpFile, finalFile)`. -/
  renameFile : Bool
  deriving DecidableEq, Repr

/-- The calls `PersistManifestTask::run` makes that leave a trace outside the
task. -/
inductive TaskEffect where
  | write
  | renameFile
  | remove
  | manifest_release
  | notifyIOComplete (status : ENGINE_ERROR_CODE)
  deriving DecidableEq, Repr

/-- The body of `PersistManifestTask::run` (persist_manifest_task.cc:52): the
value returned and the calls made, in order. -/
def PersistManifestTask.run (fs : FileSystem) : Bool × List TaskEffect :=
  if !fs.isDirectory then
    (false,
      [TaskEffect.notifyIOComplete ENGINE_ERROR_CODE.cannot_apply_collections_manifest])
  else
    let effects := [TaskEffect.write]
    let status := ENGINE_ERROR_CODE.ENGINE_SUCCESS
    let written : ENGINE_ERROR_CODE × List TaskEffect :=
      if !fs.writerGood then
        (ENGINE_ERROR_CODE.cannot_apply_collections_manifest, effects)
      else if !fs.renameFile then
        (ENGINE_ERROR_CODE.ENGINE_FAILED, effects ++ [TaskEffect.renameFile])
      else
        (status, effects ++ [TaskEffect.renameFile, TaskEffect.manifest_release])
    let status := written.1
    let effects := written.2 ++ [TaskEffect.remove]
    (false, effects ++ [TaskEffect.notifyIOComplete status])

/-! ## Observations on the log -/

/-- Is the effect a response packet handed to the client? -/
def Effect.isResponse : Effect → Bool
  | Effect.sendResponse _ => true
  | Effect.sendResponseWith _ _ _ _ _ _ => true
  | Effect.sendDynamicBuffer => true
  | _ => false

/-- The effects a function appended: the log after it, without the log before. -/
def effectsSince (before after : Cookie) : List Effect :=
  after.connection.log.drop before.connection.log.length

/-- The number of response packets among the effects. -/
def responseCount (delta : List Effect) : Nat :=
  (delta.filter Effect.isResponse).length

/-- Does the effect close the connection, at once (`setState(closing)`) or
after the pending response has been written (`setWriteAndGo(closing)`)? -/
def Effect.isClose : Effect → Bool
  | Effect.setState State.closing => true
  | Effect.setWriteAndGo State.closing => true
  | _ => false

/-- The number of closes among the effects. -/
def closeCount (delta : List Effect) : Nat :=
  (delta.filter Effect.isClose).length

/-- The one-shot handlers of `mcbp_executors.cc` that make no engine call. -/
def oneShotHandlers : List Handler :=
  [Handler.ssl_certs_refresh_executor, Handler.verbosity_executor, Handler.version_executor,
   Handler.quit_executor, Handler.quitq_executor, Handler.sasl_list_mech_executor,
   Handler.noop_executor, Handler.set_ctrl_token_executor, Handler.get_ctrl_token_executor,
   Handler.config_validate_executor, Handler.config_reload_executor,
   Handler.audit_put_executor, Handler.get_errmap_executor, Handler.shutdown_executor,
   Handler.update_user_permissions_executor, Handler.auth_provider_executor,
   Handler.no_support_executor]

/-- The number of refresh worker threads `cb_create_named_thread` was asked
for on the connection of a context. -/
def threadStarts (ctx : SaslRefreshCommandContext) : Nat :=
  ctx.cookie.connection.log.count Effect.cb_create_named_thread

/-- Is the effect a completion signal to the front end? -/
def Effect.isNotify : Effect → Bool
  | Effect.notifyIoComplete _ => true
  | _ => false

/-- Is the call of the task a completion signal to the front end? -/
def TaskEffect.isNotify : TaskEffect → Bool
  | TaskEffect.notifyIOComplete _ => true
  | _ => false

/-- Is the effect a request to grow the read buffer? -/
def Effect.isEnsureCapacity : Effect → Bool
  | Effect.ensureCapacity _ => true
  | _ => false

/-- Is the effect the installation of a full packet view? -/
def Effect.isFullPacket : Effect → Bool
  | Effect.setPacket PacketContent.Full _ => true
  | _ => false

/-- Is the effect an audit event? -/
def Effect.isAudit : Effect → Bool
  | Effect.audit_invalid_packet _ => true
  | Effect.audit_command_access_failed => true
  | _ => false

/-! ## Intermediate cookies of `try_read_mcbp_command` -/

/-- The view of the header at the start of the read buffer. -/
def headerView (cookie : Cookie) : View :=
  { data := cookie.connection.read.addr, size := sizeofRequest }

/-- The cookie after `initialize` and `addMsgHdr(true)`: the point the two
branches of the packet-available test start from. -/
def afterHeader (cookie : Cookie) : Cookie :=
  let cookie := cookie.initialize { data := cookie.connection.read.addr, size := sizeofRequest }
  { cookie with connection := cookie.connection.addMsgHdr true }

/-- The read buffer after a successful `ensureCapacity(nbytes)` that left the
readable bytes at address `a`. -/
def Cookie.grown (k : Cookie) (nbytes a : Nat) : Cookie :=
  { k.record (Effect.ensureCapacity nbytes) with connection :=
      { (k.record (Effect.ensureCapacity nbytes)).connection with read :=
        { k.connection.read with addr := a, wsize := max k.connection.read.wsize nbytes } } }

/-! ## Sample inputs -/

/-- The `lock` packet of `TEST_P(LockTest, MB_22778)`: a 24-byte header that
declares a 3-byte body, followed by the 3-byte key. -/
def lockPacket : List Nat :=
  [0x80, 0x94, 0x00, 0x03, 0x00, 0x00, 0x00, 0x00, 0x00, 0x00, 0x00, 0x03,
   0x00, 0x00, 0x00, 0x06, 0x00, 0x00, 0x00, 0x00, 0x00, 0x00, 0x00, 0x00,
   0x4e, 0x45, 0x54]

/-- A header-only packet with the given magic and opcode bytes. -/
def headerOnly (magic opcode : Nat) : List Nat :=
  [magic, opcode, 0, 0, 0, 0, 0, 0, 0, 0, 0, 0, 0, 0, 0, 0, 0, 0, 0, 0, 0, 0, 0, 0]

/-- A fresh cookie on a connection whose read buffer holds the given bytes. -/
def freshCookie (bytes : List Nat) : Cookie :=
  { connection := { state := State.new_cmd,
                    read := { addr := 4096, bytes := bytes, wsize := 0 },
                    log := [] },
    packet := none,
    aiostat := ENGINE_ERROR_CODE.ENGINE_SUCCESS,
    ewouldblock := false,
    dynamicBuffer := none }

/-- Process-wide services for the sample runs: the magic bytes `0x80` and
`0x81` are the client request and the client response (the value `0x80` is the
one `testapp_lock.cc` sends), every server opcode is unknown, SASL is on, no
mechanism list is configured, and every call succeeds. -/
def sampleDaemon : Daemon :=
  { magicOf := fun b =>
      if b = 0x80 then Magic.ClientRequest
      else if b = 0x81 then Magic.ClientResponse
      else Magic.invalid b,
    serverOpcodeOf := fun b => ServerOpcode.other b.val,
    MAX_VERBOSITY_LEVEL := 2,
    getLevel := fun _ => 1,
    get_server_version := [0x36, 0x2e, 0x35],
    isSaslAuthEnabled := fun _ => true,
    isSslEnabled := fun _ => false,
    has_ssl_sasl_mechanisms := false,
    has_sasl_mechanisms := false,
    getSslSaslMechanisms := [],
    getSaslMechanisms := [],
    listmech := [0x50, 0x4c, 0x41, 0x49, 0x4e],
    session_cas_cas := fun _ => (ENGINE_ERROR_CODE.ENGINE_SUCCESS, 7),
    getCasValue := 7,
    validate_proposed_config_changes := fun _ => none,
    isPrivilegeDebug := false,
    isPrivilegeDebugReloaded := false,
    mc_audit_event := fun _ => true,
    getErrorMap := fun _ => [0x7b, 0x7d],
    increment_session_counter := fun _ => true,
    updateExternalUser := fun _ => UpdateUserResult.updated,
    isExternalAuthServiceEnabled := true,
    isDuplexSupported := fun _ => true,
    ioctl_get_property := fun _ => (ENGINE_ERROR_CODE.ENGINE_SUCCESS, [0x31]),
    ioctl_set_property := fun _ => ENGINE_ERROR_CODE.ENGINE_SUCCESS,
    hasDcpIface := fun _ => true,
    dcp_response_handler := fun _ => ENGINE_ERROR_CODE.ENGINE_SUCCESS,
    dcpGetFailoverLog := fun _ => ENGINE_ERROR_CODE.ENGINE_SUCCESS,
    cb_create_named_thread := fun _ => 0,
    server_refresh := Attempt.returned SaslError.OK,
    authenticate_default := Attempt.returned SaslError.OK }

/-- A set of collaborators for the sample runs: the given packet limit, a
header check that accepts the client-request magic `0x80` only, the given
allocation outcome, privilege verdict, remap policy and engine answer. -/
def sampleEnv (maxPacketSize : Nat) (allocate : Option Nat) (verdict : PrivilegeAccess)
    (remap : ENGINE_ERROR_CODE → ENGINE_ERROR_CODE)
    (engine : ENGINE_ERROR_CODE × Option (List Nat)) : Env :=
  { maxPacketSize := maxPacketSize,
    isValid := fun header => getMagic header == 0x80,
    allocate := fun _ _ => allocate,
    invoke := fun _ _ => verdict,
    remapErrorCode := remap,
    bucket_unknown_command := fun _ => engine,
    to_status := fun _ => Status.other 0,
    external := fun _ k => k,
    daemon := sampleDaemon }

/-- Collaborators whose privilege check answers with the given verdict and
whose remap policy is the given one. -/
def gateEnv (verdict : PrivilegeAccess) (remap : ENGINE_ERROR_CODE → ENGINE_ERROR_CODE) : Env :=
  sampleEnv 1024 none verdict remap (ENGINE_ERROR_CODE.ENGINE_SUCCESS, none)

/-- A remap policy that escalates every error to a disconnect. -/
def remapAllToDisconnect : ENGINE_ERROR_CODE → ENGINE_ERROR_CODE
  | ENGINE_ERROR_CODE.ENGINE_SUCCESS => ENGINE_ERROR_CODE.ENGINE_SUCCESS
  | ENGINE_ERROR_CODE.ENGINE_EWOULDBLOCK => ENGINE_ERROR_CODE.ENGINE_EWOULDBLOCK
  | _ => ENGINE_ERROR_CODE.ENGINE_DISCONNECT

/-- A numbering of the opcodes for the sample runs: each enumerator gets its
position in the declaration above. -/
def sampleOpcodeValue (opcode : ClientOpcode) : Fin 256 := Fin.ofNat opcode.toCtorIdx

/-- The status the `switch` of `process_bin_unknown_packet` acts on: the
remapped value of the consumed `aiostat`, or of the engine's answer when the
consumed value is success. -/
def unknownPacketStatus (env : Env) (cookie : Cookie) : ENGINE_ERROR_CODE :=
  env.remapErrorCode
    (if cookie.aiostat = ENGINE_ERROR_CODE.ENGINE_SUCCESS then
      (env.bucket_unknown_command (cookie.swapAiostat ENGINE_ERROR_CODE.ENGINE_SUCCESS).2).1
    else cookie.aiostat)

/-- The dynamic buffer when the `switch` of `process_bin_unknown_packet` is
reached: what the engine left, or what the cookie held when the engine was not
called. -/
def unknownPacketBuffer (env : Env) (cookie : Cookie) : Option (List Nat) :=
  if cookie.aiostat = ENGINE_ERROR_CODE.ENGINE_SUCCESS then
    (env.bucket_unknown_command (cookie.swapAiostat ENGINE_ERROR_CODE.ENGINE_SUCCESS).2).2
  else cookie.dynamicBuffer

/-- The record of the engine call of a pass: the call is made when the consumed
`aiostat` is success and not otherwise. -/
def engineCallLog (cookie : Cookie) (call : Effect) : List Effect :=
  if cookie.aiostat = ENGINE_ERROR_CODE.ENGINE_SUCCESS then [call] else []

/-- The raw status of a pass of `process_bin_unknown_packet`: the consumed
`aiostat`, or the engine's answer when the consumed value is success. -/
def unknownPacketRaw (env : Env) (cookie : Cookie) : ENGINE_ERROR_CODE :=
  if cookie.aiostat = ENGINE_ERROR_CODE.ENGINE_SUCCESS then
    (env.bucket_unknown_command (cookie.swapAiostat ENGINE_ERROR_CODE.ENGINE_SUCCESS).2).1
  else cookie.aiostat

/-- The raw status of a pass of `ioctl_get_executor`: the consumed `aiostat`,
or the answer of `ioctl_get_property` when the consumed value is success. -/
def ioctlGetRaw (env : Env) (cookie : Cookie) : ENGINE_ERROR_CODE :=
  if cookie.aiostat = ENGINE_ERROR_CODE.ENGINE_SUCCESS then
    (env.daemon.ioctl_get_property (cookie.swapAiostat ENGINE_ERROR_CODE.ENGINE_SUCCESS).2).1
  else cookie.aiostat

/-- The content of `value` when `ioctl_get_executor` reaches its `switch`:
what `ioctl_get_property` stored, or the empty string when it was not called. -/
def ioctlGetValue (env : Env) (cookie : Cookie) : List Nat :=
  if cookie.aiostat = ENGINE_ERROR_CODE.ENGINE_SUCCESS then
    (env.daemon.ioctl_get_property (cookie.swapAiostat ENGINE_ERROR_CODE.ENGINE_SUCCESS).2).2
  else []

/-- The raw status of a pass of `ioctl_set_executor`: the consumed `aiostat`,
or the answer of `ioctl_set_property` when the consumed value is success. -/
def ioctlSetRaw (env : Env) (cookie : Cookie) : ENGINE_ERROR_CODE :=
  if cookie.aiostat = ENGINE_ERROR_CODE.ENGINE_SUCCESS then
    env.daemon.ioctl_set_property (cookie.swapAiostat ENGINE_ERROR_CODE.ENGINE_SUCCESS).2
  else cookie.aiostat

/-- The cookie `process_bin_dcp_response` looks at after `enableDatatype`. -/
def dcpCookie (cookie : Cookie) : Cookie :=
  cookie.record (Effect.enableDatatype Datatype.JSON)

/-- The raw status of `process_bin_dcp_response`: the answer of the DCP
`response_handler`. -/
def dcpResponseRaw (env : Env) (cookie : Cookie) : ENGINE_ERROR_CODE :=
  env.daemon.dcp_response_handler (dcpCookie cookie)

/-- The raw status of a pass of `dcp_get_failover_log_executor`: the consumed
`aiostat`, or the answer of `dcpGetFailoverLog` when the consumed value is
success. -/
def failoverLogRaw (env : Env) (cookie : Cookie) : ENGINE_ERROR_CODE :=
  if cookie.aiostat = ENGINE_ERROR_CODE.ENGINE_SUCCESS then
    env.daemon.dcpGetFailoverLog (cookie.swapAiostat ENGINE_ERROR_CODE.ENGINE_SUCCESS).2
  else cookie.aiostat

/-- A wire mapping for the sample runs: success is `Success`, access and
stale-authentication errors have their own statuses, everything else is one
error status. -/
def sampleToStatus : ENGINE_ERROR_CODE → Status
  | ENGINE_ERROR_CODE.ENGINE_SUCCESS => Status.Success
  | ENGINE_ERROR_CODE.ENGINE_EACCESS => Status.Eaccess
  | ENGINE_ERROR_CODE.ENGINE_AUTH_STALE => Status.AuthStale
  | _ => Status.other 0x84

/-- Collaborators whose every engine call answers with the given status,
under the given remap policy and the sample wire mapping. -/
def statusEnv (remap : ENGINE_ERROR_CODE → ENGINE_ERROR_CODE) (status : ENGINE_ERROR_CODE) :
    Env :=
  { gateEnv PrivilegeAccess.Ok remap with
    bucket_unknown_command := fun _ => (status, none),
    to_status := sampleToStatus,
    daemon :=
      { sampleDaemon with
        ioctl_get_property := fun _ => (status, [0x31]),
        ioctl_set_property := fun _ => status,
        dcp_response_handler := fun _ => status,
        dcpGetFailoverLog := fun _ => status } }

/-- A remap policy that downgrades a disconnect to a plain failure. -/
def remapDisconnectToFailed : ENGINE_ERROR_CODE → ENGINE_ERROR_CODE
  | ENGINE_ERROR_CODE.ENGINE_DISCONNECT => ENGINE_ERROR_CODE.ENGINE_FAILED
  | e => e

/-- Collaborators whose engine answers an unknown command with the given
status and dynamic buffer, under the given remap policy. -/
def engineEnv (remap : ENGINE_ERROR_CODE → ENGINE_ERROR_CODE)
    (engine : ENGINE_ERROR_CODE × Option (List Nat)) : Env :=
  sampleEnv 1024 none PrivilegeAccess.Ok remap engine

/-- Process-wide services that decode all six magic bytes (`0x80` .. `0x83`,
`0x08`, `0x18`) and the server opcode bytes 1, 2 and 3. -/
def routingDaemon : Daemon :=
  { sampleDaemon with
    magicOf := fun b =>
      if b = 0x80 then Magic.ClientRequest
      else if b = 0x81 then Magic.ClientResponse
      else if b = 0x82 then Magic.ServerRequest
      else if b = 0x83 then Magic.ServerResponse
      else if b = 0x08 then Magic.AltClientRequest
      else if b = 0x18 then Magic.AltClientResponse
      else Magic.invalid b,
    serverOpcodeOf := fun b =>
      if b.val = 1 then ServerOpcode.ClustermapChangeNotification
      else if b.val = 2 then ServerOpcode.Authenticate
      else if b.val = 3 then ServerOpcode.ActiveExternalUsers
      else ServerOpcode.other b.val }

/-- Collaborators for the routing samples. -/
def routingEnv : Env :=
  { gateEnv PrivilegeAccess.Ok id with daemon := routingDaemon }

/-- A fresh SASL refresh context on a fresh cookie. -/
def freshRefresh : SaslRefreshCommandContext :=
  { cookie := freshCookie (headerOnly 0x80 0), state := SaslRefreshState.Initial }

/-- Collaborators whose SASL server refresh and default-bucket authentication
end as given. -/
def saslEnv (refresh authenticate : Attempt SaslError) : Env :=
  { statusEnv id ENGINE_ERROR_CODE.ENGINE_SUCCESS with
    daemon := { sampleDaemon with server_refresh := refresh,
                                  authenticate_default := authenticate } }

/-- Collaborators with a packet limit of 2 bytes (the lock packet is oversize)
and no memory to grow the read buffer. -/
def tightEnv : Env :=
  sampleEnv 2 none PrivilegeAccess.Ok id (ENGINE_ERROR_CODE.ENGINE_SUCCESS, none)

/-- Collaborators with a packet limit of 1024 bytes; growing the read buffer
succeeds and moves the readable bytes to address 8192. -/
def roomyEnv : Env :=
  sampleEnv 1024 (some 8192) PrivilegeAccess.Ok id (ENGINE_ERROR_CODE.ENGINE_SUCCESS, none)

/-! ## Reordered table population -/

/-- One registration call of `initialize_mbcp_lookup_map`: a call of
`setup_response_handler` or a call of `setup_handler`. -/
inductive Registration where
  | response (opcode : ClientOpcode) (function : Handler)
  | request (opcode : ClientOpcode) (function : Handler)
  deriving DecidableEq, Repr

/-- Make one registration call. -/
def Registration.apply (opcodeValue : ClientOpcode → Fin 256) (t : Tables) :
    Registration → Tables
  | Registration.response opcode function => setup_response_handler opcodeValue t opcode function
  | Registration.request opcode function => setup_handler opcodeValue t opcode function

/-- The registration calls of `initialize_mbcp_lookup_map`, in source order
(mcbp_executors.cc:608-805). -/
def registrationCalls : List Registration :=
  responseRegistrations.map (fun r => Registration.response r.1 r.2) ++
  requestRegistrations.map (fun r => Registration.request r.1 r.2)

/-- The default fill of the request table, the loop
`for (auto& handler : handlers) handler = process_bin_unknown_packet;`
(mcbp_executors.cc:643). -/
def defaultFill (t : Tables) : Tables :=
  { t with handlers := fun _ => some Handler.process_bin_unknown_packet }

/-! ## The collections manager (engines/ep/src/collections/manager.cc) -/

/-- The values of `cb::engine_errc` that the manager returns, and any other. -/
inductive engine_errc where
  | success
  | too_busy
  | failed
  | invalid_arguments
  | would_block
  | not_my_vbucket
  | cannot_apply_collections_manifest
  | other (raw : Nat)
  deriving DecidableEq, Repr

/-- The states of a vbucket. -/
inductive vbucket_state_t where
  | vbucket_state_active
  | vbucket_state_replica
  | vbucket_state_pending
  | vbucket_state_dead
  deriving DecidableEq, Repr

/-- The result of `VBucket::updateFromManifest`. -/
inductive ManifestUpdateStatus where
  | Success
  | Behind
  | EqualUidWithDifferences
  deriving DecidableEq, Repr

/-- A collections manifest, as far as the manager looks at it. -/
structure Manifest where
  uid : Nat
  isForcedUpdate : Bool
  deriving DecidableEq, Repr

/-- A vbucket, as far as the manager looks at it. -/
structure VBucket where
  getId : Nat
  getState : vbucket_state_t
  deriving DecidableEq, Repr

/-- The bucket: the vbucket map (`getBucket` yields no vbucket for an empty
slot), its size (a `size_t`), and the engine-specific slot of each cookie (a
cookie is its address, the slot holds a manifest or `nullptr`). -/
structure KVBucket where
  getSize : Nat
  getBucket : Nat → Option VBucket
  getEngineSpecific : Nat → Option Manifest

/-- The members of `Collections::Manager` the update path uses:
`updateInProgress` is a cookie address, 0 for `nullptr`. -/
structure Manager where
  updateInProgress : Nat
  currentManifest : Manifest
  deriving DecidableEq, Repr

/-- The code the manager calls into but that is not part of this file: the
`Manifest` constructor (`none` when it throws), `Manifest::isSuccessor`,
`KVBucket::maybeScheduleManifestPersistence` (its result and the
engine-specific slots it leaves), `VBucket::updateFromManifest`, the two per-vbucket statistics calls,
the vbuckets `KVBucket::visit` walks, and `std::stoi` (`none` when it throws). -/
structure ManagerEnv where
  makeManifest : String → Option Manifest
  isSuccessor : Manifest → Manifest → engine_errc
  maybeScheduleManifestPersistence : KVBucket → Nat → Manifest → Bool × (Nat → Option Manifest)
  updateFromManifest : VBucket → Manifest → ManifestUpdateStatus
  addCollectionStats : VBucket → Bool
  addScopeStats : VBucket → Bool
  visit : KVBucket → List VBucket
  stoi : String → Option Int

/-- What the manager writes. -/
inductive ManagerEffect where
  | setUpdateInProgress (cookie : Nat)
  | storeEngineSpecific (cookie : Nat) (manifest : Option Manifest)
  | updateFromManifest (vbid : Nat)
  | setCurrentManifest (manifest : Manifest)
  deriving DecidableEq, Repr

/-- The outcome of a call of the update path. -/
structure UpdateOutcome where
  manager : Manager
  bucket : KVBucket
  code : engine_errc
  effects : List ManagerEffect

/-- The loop of `updateAllVBuckets` (manager.cc:156) from counter `i`, with
the positions already updated in `updated`.  The counter is a
`Vbid::id_type`, 16 bits wide, and is compared with a `size_t`; `none` when
the fuel runs out. -/
def updateAllVBuckets_loop (env : ManagerEnv) (bucket : KVBucket) (newManifest : Manifest) :
    Nat → Nat → List Nat → Option (Option Nat × List Nat)
  | 0, _, _ => none
  | fuel + 1, i, updated =>
    if i < bucket.getSize then
      match bucket.getBucket i with
      | some vb =>
        if vb.getState = vbucket_state_t.vbucket_state_active then
          let status := env.updateFromManifest vb newManifest
          let updated := updated ++ [i]
          let abort :=
            match status with
            | ManifestUpdateStatus.EqualUidWithDifferences => true
            | ManifestUpdateStatus.Behind => false
            | ManifestUpdateStatus.Success => false
          if abort then some (some vb.getId, updated)
          else updateAllVBuckets_loop env bucket newManifest fuel ((i + 1) % 65536) updated
        else updateAllVBuckets_loop env bucket newManifest fuel ((i + 1) % 65536) updated
      | none => updateAllVBuckets_loop env bucket newManifest fuel ((i + 1) % 65536) updated
    else some (none, updated)

/-- The body of `Collections::Manager::updateAllVBuckets` (manager.cc:154):
the id it returns, if any, and the positions it updated, in order. -/
def updateAllVBuckets (env : ManagerEnv) (fuel : Nat) (bucket : KVBucket)
    (newManifest : Manifest) : Option (Option Nat × List Nat) :=
  updateAllVBuckets_loop env bucket newManifest fuel 0 []

/-- The body of `Collections::Manager::applyNewManifest` (manager.cc:130);
`current` is the lock on `currentManifest` of `self`. -/
def applyNewManifest (env : ManagerEnv) (fuel : Nat) (self : Manager) (bucket : KVBucket)
    (newManifest : Manifest) : Option UpdateOutcome :=
  match updateAllVBuckets env fuel bucket newManifest with
  | none => none
  | some (some _, updated) =>
    some { manager := self, bucket := bucket,
           code := engine_errc.cannot_apply_collections_manifest,
           effects := updated.map ManagerEffect.updateFromManifest }
  | some (none, updated) =>
    some { manager := { self with currentManifest := newManifest }, bucket := bucket,
           code := engine_errc.success,
           effects := updated.map ManagerEffect.updateFromManifest
             ++ [ManagerEffect.setCurrentManifest newManifest] }

/-- The body of `Collections::Manager::updateFromIOComplete` (manager.cc:121). -/
def updateFromIOComplete (env : ManagerEnv) (fuel : Nat) (self : Manager) (bucket : KVBucket)
    (newManifest : Manifest) (_cookie : Nat) : Option UpdateOutcome :=
  applyNewManifest env fuel self bucket newManifest

/-- Put effects in front of those of an outcome. -/
def UpdateOutcome.after (effects : List ManagerEffect) (out : UpdateOutcome) : UpdateOutcome :=
  { out with effects := effects ++ out.effects }

/-- The body of `Collections::Manager::update` (manager.cc:40). -/
def Manager.update (env : ManagerEnv) (fuel : Nat) (self : Manager) (bucket : KVBucket)
    (manifestString : String) (cookie : Nat) : Option UpdateOutcome :=
  if self.updateInProgress ≠ 0 ∧ self.updateInProgress ≠ cookie then
    some { manager := self, bucket := bucket, code := engine_errc.too_busy, effects := [] }
  else
    match bucket.getEngineSpecific cookie with
    | some manifest =>
      if self.updateInProgress = 0 then
        some { manager := self, bucket := bucket, code := engine_errc.failed, effects := [] }
      else
        let self := { self with updateInProgress := 0 }
        let bucket := { bucket with
          getEngineSpecific := fun c => if c = cookie then none else bucket.getEngineSpecific c }
        (updateFromIOComplete env fuel self bucket manifest cookie).map
          (UpdateOutcome.after [ManagerEffect.setUpdateInProgress 0,
            ManagerEffect.storeEngineSpecific cookie none])
    | none =>
      match env.makeManifest manifestString with
      | none =>
        some { manager := self, bucket := bucket, code := engine_errc.invalid_arguments,
               effects := [] }
      | some newManifest =>
        let isSuccessorResult := env.isSuccessor self.currentManifest newManifest
        if isSuccessorResult ≠ engine_errc.success then
          some { manager := self, bucket := bucket, code := isSuccessorResult, effects := [] }
        else
          let scheduled := env.maybeScheduleManifestPersistence bucket cookie newManifest
          let bucket := { bucket with getEngineSpecific := scheduled.2 }
          if ¬ scheduled.1 = true then
            applyNewManifest env fuel self bucket newManifest
          else
            some { manager := { self with updateInProgress := cookie }, bucket := bucket,
                   code := engine_errc.would_block,
                   effects := [ManagerEffect.setUpdateInProgress cookie] }

/-- The state of a `CollectionDetailedVBucketVisitor` (manager.cc:360): the
member `success` and, to observe the run, the ids of the vbuckets it asked for
statistics. -/
structure CollectionDetailedVBucketVisitor where
  success : Bool
  visited : List Nat
  deriving DecidableEq, Repr

/-- A newly constructed visitor: `bool success = true;` (manager.cc:378). -/
def CollectionDetailedVBucketVisitor.create : CollectionDetailedVBucketVisitor :=
  { success := true, visited := [] }

/-- The body of `CollectionDetailedVBucketVisitor::visitBucket` (manager.cc:366). -/
def CollectionDetailedVBucketVisitor.visitBucket (env : ManagerEnv)
    (self : CollectionDetailedVBucketVisitor) (vb : VBucket) : CollectionDetailedVBucketVisitor :=
  { success := env.addCollectionStats vb || self.success,
    visited := self.visited ++ [vb.getId] }

/-- The body of `CollectionDetailedVBucketVisitor::getSuccess` (manager.cc:372). -/
def CollectionDetailedVBucketVisitor.getSuccess (self : CollectionDetailedVBucketVisitor) :
    Bool :=
  self.success

/-- The state of a `ScopeDetailedVBucketVisitor` (manager.cc:381). -/
structure ScopeDetailedVBucketVisitor where
  success : Bool
  visited : List Nat
  deriving DecidableEq, Repr

/-- A newly constructed visitor: `bool success = true;` (manager.cc:398). -/
def ScopeDetailedVBucketVisitor.create : ScopeDetailedVBucketVisitor :=
  { success := true, visited := [] }

/-- The body of `ScopeDetailedVBucketVisitor::visitBucket` (manager.cc:387). -/
def ScopeDetailedVBucketVisitor.visitBucket (env : ManagerEnv)
    (self : ScopeDetailedVBucketVisitor) (vb : VBucket) : ScopeDetailedVBucketVisitor :=
  { success := env.addScopeStats vb || self.success,
    visited := self.visited ++ [vb.getId] }

/-- The body of `ScopeDetailedVBucketVisitor::getSuccess` (manager.cc:392). -/
def ScopeDetailedVBucketVisitor.getSuccess (self : ScopeDetailedVBucketVisitor) : Bool :=
  self.success

/-- The conversion of the `int` that `std::stoi` returns to the `uint16_t id`. -/
def to_uint16 (value : Int) : Nat := (value % 65536).toNat

/-- The body of `Collections::Manager::doCollectionDetailStats`
(manager.cc:429): the code it returns. -/
def doCollectionDetailStats (env : ManagerEnv) (bucket : KVBucket) (arg : Option String) :
    engine_errc :=
  match arg with
  | some text =>
    match env.stoi text with
    | none => engine_errc.invalid_arguments
    | some value =>
      match bucket.getBucket (to_uint16 value) with
      | none => engine_errc.not_my_vbucket
      | some vb =>
        let success := env.addCollectionStats vb
        if success then engine_errc.success else engine_errc.failed
  | none =>
    let visitor := (env.visit bucket).foldl
      (CollectionDetailedVBucketVisitor.visitBucket env) CollectionDetailedVBucketVisitor.create
    let success := visitor.getSuccess
    if success then engine_errc.success else engine_errc.failed

/-- The body of `Collections::Manager::doScopeDetailStats` (manager.cc:598):
the code it returns. -/
def doScopeDetailStats (env : ManagerEnv) (bucket : KVBucket) (arg : Option String) :
    engine_errc :=
  match arg with
  | some text =>
    match env.stoi text with
    | none => engine_errc.invalid_arguments
    | some value =>
      match bucket.getBucket (to_uint16 value) with
      | none => engine_errc.not_my_vbucket
      | some vb =>
        let success := env.addScopeStats vb
        if success then engine_errc.success else engine_errc.failed
  | none =>
    let visitor := (env.visit bucket).foldl
      (ScopeDetailedVBucketVisitor.visitBucket env) ScopeDetailedVBucketVisitor.create
    let success := visitor.getSuccess
    if success then engine_errc.success else engine_errc.failed

/-! ## The replication throttle (engines/ep/src/replicationthrottle.cc) -/

/-- The walk that visits the positions `ids` in the order given, updates the
active vbuckets among them and stops at the first whose status is
`EqualUidWithDifferences`: the id it stops at, if any, and the positions
updated, after those of `updated`. -/
def updateInOrder (env : ManagerEnv) (bucket : KVBucket) (newManifest : Manifest) :
    List Nat → List Nat → Option Nat × List Nat
  | [], updated => (none, updated)
  | i :: rest, updated =>
    match bucket.getBucket i with
    | some vb =>
      if vb.getState = vbucket_state_t.vbucket_state_active then
        if env.updateFromManifest vb newManifest
            = ManifestUpdateStatus.EqualUidWithDifferences then
          (some vb.getId, updated ++ [i])
        else updateInOrder env bucket newManifest rest (updated ++ [i])
      else updateInOrder env bucket newManifest rest updated
    | none => updateInOrder env bucket newManifest rest updated

/-- Collaborators of the manager for the sample runs: a manifest string
parses to the manifest whose uid is its length, a manifest succeeds one with
no greater uid, persistence is scheduled (or not, for an ephemeral bucket) and
parks the manifest in the engine-specific slot, the vbucket with id 2 reports
`EqualUidWithDifferences` and the others `Behind`, and the statistics calls
fail. -/
def sampleManagerEnv (persistent : Bool) : ManagerEnv :=
  { makeManifest := fun text => some { uid := text.length, isForcedUpdate := false },
    isSuccessor := fun current next =>
      if current.uid ≤ next.uid then engine_errc.success
      else engine_errc.cannot_apply_collections_manifest,
    maybeScheduleManifestPersistence := fun bucket cookie manifest =>
      if persistent then
        (true, fun c => if c = cookie then some manifest else bucket.getEngineSpecific c)
      else (false, bucket.getEngineSpecific),
    updateFromManifest := fun vb _ =>
      if vb.getId = 2 then ManifestUpdateStatus.EqualUidWithDifferences
      else ManifestUpdateStatus.Behind,
    addCollectionStats := fun _ => false,
    addScopeStats := fun _ => false,
    visit := fun bucket => (List.range bucket.getSize).filterMap bucket.getBucket,
    stoi := fun text => text.toInt? }

/-- A bucket of `size` vbuckets: vbucket 1 is a replica, the others are
active; the cookie 7 has the manifest with uid 3 parked in its slot. -/
def sampleBucket (size : Nat) : KVBucket :=
  { getSize := size,
    getBucket := fun i =>
      if i < size then
        some { getId := i,
               getState := if i = 1 then vbucket_state_t.vbucket_state_replica
                           else vbucket_state_t.vbucket_state_active }
      else none,
    getEngineSpecific := fun c =>
      if c = 7 then some { uid := 3, isForcedUpdate := false } else none }

/-- A manager with an update in flight for the cookie 7. -/
def busyManager : Manager :=
  { updateInProgress := 7, currentManifest := { uid := 1, isForcedUpdate := false } }

/-! ## The configuration parser (utilities/config_parser.cc) -/

/-- A NUL-terminated string in memory: the characters before the NUL sit at
the addresses `0, 1, ...`, the NUL right after them, and `beyond` tells what a
read at any other address finds.  Characters are byte values. -/
structure CString where
  bytes : List Nat
  beyond : Int → Nat

/-- Is the address one of the string, its NUL included? -/
def CString.inside (s : CString) (p : Int) : Bool :=
  decide (0 ≤ p) && decide (p ≤ (s.bytes.length : Int))

/-- The character `*p`. -/
def CString.read (s : CString) (p : Int) : Nat :=
  if 0 ≤ p ∧ p < (s.bytes.length : Int) then s.bytes.getD p.toNat 0
  else if p = (s.bytes.length : Int) then 0
  else s.beyond p

/-- Record the read of `*p` when it is not a read of the string. -/
def CString.note (s : CString) (p : Int) (outside : List Int) : List Int :=
  if s.inside p then outside else outside ++ [p]

/-- The function `isspace` of the C locale. -/
def isspace (c : Nat) : Bool := c == 32 || (decide (9 ≤ c) && decide (c ≤ 13))

/-- The loop `while (isspace(*src)) ++src;`: the pointer it stops at and the
reads outside the string; `none` when the fuel runs out. -/
def skip_space (s : CString) : Nat → Int → List Int → Option (Int × List Int)
  | 0, _, _ => none
  | fuel + 1, p, outside =>
    let outside := s.note p outside
    if isspace (s.read p) then skip_space s fuel (p + 1) outside else some (p, outside)

/-- The function `strlen`, counting from `n`. -/
def strlen (s : CString) : Nat → Int → Nat → List Int → Option (Nat × List Int)
  | 0, _, _, _ => none
  | fuel + 1, p, n, outside =>
    let outside := s.note p outside
    if s.read p = 0 then some (n, outside) else strlen s fuel (p + 1) (n + 1) outside

/-- The loop `while (lastchar > src && isspace(*lastchar)) lastchar--;`
(config_parser.cc:41). -/
def trim_back (s : CString) (src : Int) : Nat → Int → List Int → Option (Int × List Int)
  | 0, _, _ => none
  | fuel + 1, lastchar, outside =>
    if lastchar > src then
      let outside := s.note lastchar outside
      if isspace (s.read lastchar) then trim_back s src fuel (lastchar - 1) outside
      else some (lastchar, outside)
    else some (lastchar, outside)

/-- The variables of the copy loop of `trim_copy`: the buffer `dest` points
into and the offset of `dest` in it, `n`, `src`, `escape`, the reads outside
the string and the offsets of the writes outside the buffer. -/
structure CopyState where
  buffer : List Nat
  dest : Int
  n : Nat
  src : Int
  escape : Bool
  outside : List Int
  badWrites : List Int
  deriving DecidableEq, Repr

/-- The assignment `*dest = c`. -/
def CopyState.store (st : CopyState) (c : Nat) : CopyState :=
  if 0 ≤ st.dest ∧ st.dest < (st.buffer.length : Int) then
    { st with buffer := st.buffer.set st.dest.toNat c }
  else { st with badWrites := st.badWrites ++ [st.dest] }

/-- The `do ... while` loop of `trim_copy` (config_parser.cc:49-59).  The
condition is evaluated left to right and stops at the first operand that
decides it, so `*src` is read only when `n != size` and `src <= lastchar`. -/
def trim_copy_loop (s : CString) (size : Nat) (stop : Nat) (lastchar : Int) :
    Nat → CopyState → Option CopyState
  | 0, _ => none
  | fuel + 1, st =>
    let c := s.read st.src
    let st := { st with outside := s.note st.src st.outside }
    let st := st.store c
    let st := if c = 92 then { st with escape := true }
              else { st with escape := false, dest := st.dest + 1 }
    let st := { st with n := st.n + 1, src := st.src + 1 }
    if st.n = size then some st
    else if st.src > lastchar then some st
    else
      let st := { st with outside := s.note st.src st.outside }
      if (s.read st.src = stop ∧ st.escape = false) ∨ s.read st.src = 0 then some st
      else trim_copy_loop s size stop lastchar fuel st

/-- What `trim_copy` leaves: its return value, the buffer of `size` bytes,
`*end`, the reads outside the string and the offsets of the writes outside
the buffer. -/
structure TrimResult where
  ret : Int
  buffer : List Nat
  endp : Int
  outside : List Int
  badWrites : List Int
  deriving DecidableEq, Repr

/-- The body of `trim_copy` (config_parser.cc:28).  The buffer `dest` is given
with its content before the call; `steps` bounds the iterations of each loop,
and the result is `none` when a loop runs out of them.  The assertion
`lastchar >= src` holds whenever it is reached and is left out. -/
def trim_copy (s : CString) (steps : Nat) (dest : List Nat) (size : Nat) (src : Int)
    (stop : Nat) (outside : List Int) : Option TrimResult :=
  match skip_space s steps src outside with
  | none => none
  | some (src, outside) =>
    match strlen s steps src 0 outside with
    | none => none
    | some (len, outside) =>
      match trim_back s src steps (src + (len : Int) - 1) outside with
      | none => none
      | some (lastchar, outside) =>
        let adjusted :=
          if lastchar < src then (lastchar + 1, outside)
          else if s.read lastchar = 92 then (lastchar + 1, s.note lastchar outside)
          else (lastchar, s.note lastchar outside)
        match trim_copy_loop s size stop adjusted.1 steps
            { buffer := dest, dest := 0, n := 0, src := src, escape := false,
              outside := adjusted.2, badWrites := [] } with
        | none => none
        | some st =>
          let endp := st.src
          let ret : Int := if st.n = size then -1 else 0
          let st := if st.n = size then { st with dest := st.dest - 1 } else st
          let st := st.store 0
          some { ret := ret, buffer := st.buffer, endp := endp, outside := st.outside,
                 badWrites := st.badWrites }

/-- The C string a buffer holds: the bytes before its first NUL. -/
def cstr (buffer : List Nat) : List Nat := buffer.takeWhile (fun c => c != 0)

/-- The byte values of the characters of a string. -/
def bytesOf (text : String) : List Nat := text.toList.map Char.toNat

/-- The string `text` in memory, with the byte 255 everywhere else. -/
def cstring (text : String) : CString := { bytes := bytesOf text, beyond := fun _ => 255 }

/-- The data types of a configuration item, `enum config_datatype`, and any
other value of the field. -/
inductive config_datatype where
  | DT_SIZE
  | DT_SSIZE
  | DT_FLOAT
  | DT_BOOL
  | DT_STRING
  | DT_CONFIGFILE
  | invalid (raw : Nat)
  deriving DecidableEq, Repr

/-- What the `value` pointer of an item points at: nothing written yet, a
`size_t`, a `float` (as the text it was parsed from is kept by the oracle, its
value is a number the oracle chose), a `bool` or a string. -/
inductive config_value where
  | unset
  | dt_size (value : Nat)
  | dt_float (value : Nat)
  | dt_bool (value : Bool)
  | dt_string (value : List Nat)
  deriving DecidableEq, Repr

/-- An entry of the array `items`, `struct config_item`; the array ends at the
entry whose key is `nullptr`, which the list leaves out. -/
structure config_item where
  key : List Nat
  datatype : config_datatype
  value : config_value
  found : Bool
  deriving DecidableEq, Repr

/-- The code the parser calls but that is not part of this file:
`safe_strtoull`, `safe_strtoll` and `safe_strtof` (`none` when they return
false), and the lines `fgets` reads from the file of a given name (`none`
when `fopen` fails), each with what lies behind it in the line buffer. -/
structure ConfigEnv where
  safe_strtoull : List Nat → Option Nat
  safe_strtoll : List Nat → Option Int
  safe_strtof : List Nat → Option Nat
  fopen : List Nat → Option (List CString)

/-- The function `tolower` on a byte. -/
def tolower (c : Nat) : Nat := if 65 ≤ c ∧ c ≤ 90 then c + 32 else c

/-- Is `strcasecmp(a, b) == 0`? -/
def strcasecmp_eq (a b : List Nat) : Bool := a.map tolower == b.map tolower

/-- The suffix loop of the `DT_SIZE` / `DT_SSIZE` case (config_parser.cc:128):
for each of `k`, `m`, `g`, `t` in turn, the first occurrence in `value` of the
letter, or else of its capital, cuts the value there and fixes the multiplier.
The multiplier `m` is a `size_t`. -/
def size_suffix (value : List Nat) : List Nat → Nat → List Nat × Nat
  | [], _ => (value, 1)
  | p :: rest, m =>
    let m := (m * 1024) % 2 ^ 64
    let at_lower := value.indexOf p
    let at_upper := value.indexOf (p - 32)
    if at_lower < value.length then (value.take at_lower, m)
    else if at_upper < value.length then (value.take at_upper, m)
    else size_suffix value rest m

/-- The `switch` on the data type of the matching item
(config_parser.cc:119-204): the item and the value of `ret` it leaves.
`readFile` is the call of `read_config_file`; `none` when that call does not
return. -/
def apply_item (env : ConfigEnv) (readFile : List Nat → List config_item →
      Option (Int × List config_item))
    (items : List config_item) (ii : Nat) (item : config_item) (value : List Nat) (ret : Int) :
    Option (Int × List config_item) :=
  match item.datatype with
  | config_datatype.DT_SIZE =>
    let cut := size_suffix value [107, 109, 103, 116] 1
    match env.safe_strtoull cut.1 with
    | some val =>
      some (ret, items.set ii { item with
        value := config_value.dt_size ((val * cut.2) % 2 ^ 64), found := true })
    | none => some (-1, items)
  | config_datatype.DT_SSIZE =>
    let cut := size_suffix value [107, 109, 103, 116] 1
    match env.safe_strtoll cut.1 with
    | some val =>
      some (ret, items.set ii { item with
        value := config_value.dt_size ((val * (cut.2 : Int)) % 2 ^ 64).toNat, found := true })
    | none => some (-1, items)
  | config_datatype.DT_FLOAT =>
    match env.safe_strtof value with
    | some val =>
      some (ret, items.set ii { item with value := config_value.dt_float val, found := true })
    | none => some (-1, items)
  | config_datatype.DT_STRING =>
    some (ret, items.set ii { item with value := config_value.dt_string value, found := true })
  | config_datatype.DT_BOOL =>
    if strcasecmp_eq value [116, 114, 117, 101] || strcasecmp_eq value [111, 110] then
      some (ret, items.set ii { item with value := config_value.dt_bool true, found := true })
    else if strcasecmp_eq value [102, 97, 108, 115, 101]
        || strcasecmp_eq value [111, 102, 102] then
      some (ret, items.set ii { item with value := config_value.dt_bool false, found := true })
    else some (-1, items)
  | config_datatype.DT_CONFIGFILE =>
    match readFile value items with
    | none => none
    | some (r, items) => some (if r ≠ 0 then r else ret, items)
  | config_datatype.invalid _ => some (-1, items)

/-- What `parse_config` leaves: its return value, the items, the reads outside
the string and the offsets of the writes outside `key` and `value`. -/
structure ParseResult where
  ret : Int
  items : List config_item
  outside : List Int
  badWrites : List Int
  deriving DecidableEq, Repr

/-- The search `while (items[ii].key != nullptr)` for the first item whose key
is `key` (config_parser.cc:110): its index and the item. -/
def find_item (key : List Nat) : List config_item → Nat → Option (Nat × config_item)
  | [], _ => none
  | item :: rest, ii => if item.key = key then some (ii, item) else find_item key rest (ii + 1)

/-- The variables of the loop of `parse_config`: the arrays `key` and `value`,
the items, `ret`, the reads outside the string and the offsets of the writes
outside the two arrays. -/
structure ParseState where
  key : List Nat
  value : List Nat
  items : List config_item
  ret : Int
  outside : List Int
  badWrites : List Int
  deriving DecidableEq, Repr

/-- The loop `while (*ptr != '\0')` of `parse_config` (config_parser.cc:80-224)
from `ptr`, up to the `return`: the state at the `return`, `ret` holding the
value returned.  `steps` bounds the iterations of each inner loop; `none` when
a loop runs out of fuel or a nested call does not return. -/
def parse_config_loop (env : ConfigEnv)
    (readFile : List Nat → List config_item → Option (Int × List config_item))
    (s : CString) (steps : Nat) : Nat → Int → ParseState → Option ParseState
  | 0, _, _ => none
  | fuel + 1, ptr, st =>
    let outside := s.note ptr st.outside
    if s.read ptr = 0 then some { st with outside := outside }
    else
      match skip_space s steps ptr outside with
      | none => none
      | some (ptr, outside) =>
        let outside := s.note ptr outside
        if s.read ptr = 0 then some { st with ret := 0, outside := outside }
        else
          match trim_copy s steps st.key 80 ptr 61 outside with
          | none => none
          | some k =>
            let st := { st with key := k.buffer, outside := k.outside,
                                badWrites := st.badWrites ++ k.badWrites }
            if k.ret = -1 then some { st with ret := -1 }
            else
              let ptr := k.endp + 1
              match trim_copy s steps st.value 1024 ptr 59 st.outside with
              | none => none
              | some v =>
                let st := { st with value := v.buffer, outside := v.outside,
                                    badWrites := st.badWrites ++ v.badWrites }
                if v.ret = -1 then some { st with ret := -1 }
                else
                  let st := { st with outside := s.note v.endp st.outside }
                  let ptr := if s.read v.endp = 59 then v.endp + 1 else v.endp
                  match find_item (cstr st.key) st.items 0 with
                  | some (ii, item) =>
                    match apply_item env readFile st.items ii item (cstr st.value) st.ret with
                    | none => none
                    | some (ret, items) =>
                      if ret = -1 then some { st with ret := ret, items := items }
                      else parse_config_loop env readFile s steps fuel ptr
                        { st with ret := ret, items := items }
                  | none =>
                    parse_config_loop env readFile s steps fuel ptr { st with ret := 1 }

/-- The loop of `read_config_file` over the lines `fgets` yields
(config_parser.cc:240-251). -/
def read_lines (parseLine : CString → List config_item → Option ParseResult) :
    List CString → Int → List config_item → Option (Int × List config_item)
  | [], ret, items => some (ret, items)
  | line :: rest, ret, items =>
    if ret = -1 then some (ret, items)
    else if line.read 0 = 35 then read_lines parseLine rest ret items
    else
      match parseLine line items with
      | none => none
      | some r => read_lines parseLine rest (if r.ret ≠ 0 then r.ret else ret) r.items

/-- The body of `read_config_file` (config_parser.cc:228); `parseLine` is the
call of `parse_config` on a line. -/
def read_config_file (env : ConfigEnv)
    (parseLine : CString → List config_item → Option ParseResult)
    (fname : List Nat) (items : List config_item) : Option (Int × List config_item) :=
  match env.fopen fname with
  | none => some (-1, items)
  | some lines => read_lines parseLine lines 0 items

/-- The body of `parse_config` (config_parser.cc:72).  `depth` bounds the
nesting of `parse_config` in `read_config_file` in `parse_config`, `steps` the
iterations of each loop.  The arrays `key` and `value` start out zeroed: what
they hold before the first `trim_copy` is never read.  Output to `error` is
not recorded. -/
def parse_config (env : ConfigEnv) (steps : Nat) :
    Nat → CString → List config_item → Option ParseResult
  | 0, _, _ => none
  | depth + 1, str, items =>
    (parse_config_loop env (read_config_file env (parse_config env steps depth)) str steps
      steps 0
      { key := List.replicate 80 0, value := List.replicate 1024 0, items := items, ret := 0,
        outside := [], badWrites := [] }).map
      (fun st => { ret := st.ret, items := st.items, outside := st.outside,
                   badWrites := st.badWrites })

/-- The string `text` in memory, followed by zero bytes. -/
def cstringZero (text : String) : CString := { bytes := bytesOf text, beyond := fun _ => 0 }

/-- A string of 80 backslashes in memory, followed by zero bytes. -/
def backslashes : CString := { bytes := List.replicate 80 92, beyond := fun _ => 0 }

/-- Collaborators of the parser for the sample runs: the number parsers accept
the one-digit decimals, and the only file, `f`, holds the line `a=1`. -/
def sampleConfigEnv : ConfigEnv :=
  { safe_strtoull := fun text =>
      match text with
      | [c] => if 48 ≤ c ∧ c ≤ 57 then some (c - 48) else none
      | _ => none,
    safe_strtoll := fun text =>
      match text with
      | [c] => if 48 ≤ c ∧ c ≤ 57 then some ((c : Int) - 48) else none
      | _ => none,
    safe_strtof := fun text =>
      match text with
      | [c] => if 48 ≤ c ∧ c ≤ 57 then some (c - 48) else none
      | _ => none,
    fopen := fun fname =>
      if fname = [102] then some [{ bytes := [97, 61, 49, 10], beyond := fun _ => 0 }]
      else none }

/-- The items of the sample runs: a boolean `verbose` and a file to include,
`config_file`. -/
def sampleItems : List config_item :=
  [{ key := bytesOf "verbose", datatype := config_datatype.DT_BOOL,
     value := config_value.unset, found := false },
   { key := bytesOf "config_file", datatype := config_datatype.DT_CONFIGFILE,
     value := config_value.unset, found := false }]

/-! ## Theorems -/

/-! ### Framing -/

/-- The run of `try_read_mcbp_command` on a header that is not valid. -/
lemma try_read_invalid (env : Env) (cookie : Cookie)
    (hhdr : sizeofRequest ≤ cookie.connection.read.rsize)
    (hbad : env.isValid cookie.getHeader = false) :
    try_read_mcbp_command env cookie =
      { cookie := (audit_invalid_packet
            ( cookie.initialize { data := cookie.connection.read.addr, size := sizeofRequest })
            cookie.connection.read.rdata).setState State.closing,
        calls := [], thrown := none } := by
  have h1 : ¬ cookie.connection.read.rdata.size < sizeofRequest := by
    simpa [Pipe.rdata] using hhdr
  have h2 : env.isValid ( cookie.initialize
      { data := cookie.connection.read.rdata.data, size := sizeofRequest }).getHeader = false := hbad
  simp only [try_read_mcbp_command]
  rw [if_neg h1]
  simp only [h2]
  rfl

/-- The run of `try_read_mcbp_command` on a valid header that declares a body
above the limit. -/
lemma try_read_oversize (env : Env) (cookie : Cookie)
    (hhdr : sizeofRequest ≤ cookie.connection.read.rsize)
    (hok : env.isValid cookie.getHeader = true)
    (hbig : env.maxPacketSize < getBodylen cookie.getHeader) :
    try_read_mcbp_command env cookie =
      { cookie := ( cookie.initialize
            { data := cookie.connection.read.addr, size := sizeofRequest }).setState State.closing,
        calls := [], thrown := none } := by
  have h1 : ¬ cookie.connection.read.rdata.size < sizeofRequest := by
    simpa [Pipe.rdata] using hhdr
  have h2 : env.isValid ( cookie.initialize
      { data := cookie.connection.read.rdata.data, size := sizeofRequest }).getHeader = true := hok
  have h3 : getBodylen ( cookie.initialize
      { data := cookie.connection.read.rdata.data, size := sizeofRequest }).getHeader
        > env.maxPacketSize := hbig
  simp only [try_read_mcbp_command]
  rw [if_neg h1]
  simp only [h2, h3]
  rfl

/-- The run of `try_read_mcbp_command` when the whole packet is buffered. -/
lemma try_read_full (env : Env) (cookie : Cookie)
    (hhdr : sizeofRequest ≤ cookie.connection.read.rsize)
    (hok : env.isValid cookie.getHeader = true)
    (hfit : getBodylen cookie.getHeader ≤ env.maxPacketSize)
    (hall : sizeofRequest + getBodylen cookie.getHeader ≤ cookie.connection.read.rsize) :
    try_read_mcbp_command env cookie =
      { cookie := ((afterHeader cookie).setPacket PacketContent.Full
            { data := cookie.connection.read.addr,
              size := sizeofRequest + getBodylen cookie.getHeader }).setState State.validate,
        calls := [], thrown := none } := by
  have h1 : ¬ cookie.connection.read.rdata.size < sizeofRequest := by
    simpa [Pipe.rdata] using hhdr
  have h2 : env.isValid ( cookie.initialize
      { data := cookie.connection.read.rdata.data, size := sizeofRequest }).getHeader = true := hok
  have h3 : ¬ getBodylen ( cookie.initialize
      { data := cookie.connection.read.rdata.data, size := sizeofRequest }).getHeader
        > env.maxPacketSize := by
    show ¬ getBodylen cookie.getHeader > env.maxPacketSize
    omega
  have h4 : (afterHeader cookie).connection.isPacketAvailable = true := by
    show decide (sizeofRequest + getBodylen cookie.getHeader ≤ cookie.connection.read.rsize) = true
    simpa using hall
  simp only [try_read_mcbp_command]
  rw [if_neg h1]
  simp only [h2, Bool.not_true, Bool.false_eq_true, if_false, if_neg h3]
  split
  · rfl
  · rename_i hno
    exact absurd h4 hno

/-- The run of `try_read_mcbp_command` when the packet is not yet complete:
everything after the failed packet-available test. -/
lemma try_read_grow (env : Env) (cookie : Cookie)
    (hhdr : sizeofRequest ≤ cookie.connection.read.rsize)
    (hok : env.isValid cookie.getHeader = true)
    (hfit : getBodylen cookie.getHeader ≤ env.maxPacketSize)
    (hshort : cookie.connection.read.rsize < sizeofRequest + getBodylen cookie.getHeader) :
    try_read_mcbp_command env cookie =
      match ((afterHeader cookie).ensureCapacity env
          (size_t_sub ((sizeofRequest + getBodylen cookie.getHeader) % SIZE_MAX1)
            cookie.connection.read.rsize)).2 with
      | some Exception.bad_alloc =>
        { cookie := ((afterHeader cookie).ensureCapacity env
            (size_t_sub ((sizeofRequest + getBodylen cookie.getHeader) % SIZE_MAX1)
              cookie.connection.read.rsize)).1.setState State.closing,
          calls := [], thrown := none }
      | some e =>
        { cookie := ((afterHeader cookie).ensureCapacity env
            (size_t_sub ((sizeofRequest + getBodylen cookie.getHeader) % SIZE_MAX1)
              cookie.connection.read.rsize)).1,
          calls := [], thrown := some e }
      | none =>
        { cookie := (((afterHeader cookie).ensureCapacity env
            (size_t_sub ((sizeofRequest + getBodylen cookie.getHeader) % SIZE_MAX1)
              cookie.connection.read.rsize)).1.setPacket PacketContent.Header
              { data := ((afterHeader cookie).ensureCapacity env
                  (size_t_sub ((sizeofRequest + getBodylen cookie.getHeader) % SIZE_MAX1)
                    cookie.connection.read.rsize)).1.connection.read.rdata.data,
                size := sizeofRequest }).setState State.read_packet_body,
          calls := [], thrown := none } := by
  have h1 : ¬ cookie.connection.read.rdata.size < sizeofRequest := by
    simpa [Pipe.rdata] using hhdr
  have h2 : env.isValid ( cookie.initialize
      { data := cookie.connection.read.rdata.data, size := sizeofRequest }).getHeader = true := hok
  have h3 : ¬ getBodylen ( cookie.initialize
      { data := cookie.connection.read.rdata.data, size := sizeofRequest }).getHeader
        > env.maxPacketSize := by
    show ¬ getBodylen cookie.getHeader > env.maxPacketSize
    omega
  have h4 : ¬ ((afterHeader cookie).connection.isPacketAvailable = true) := by
    show ¬ (decide (sizeofRequest + getBodylen cookie.getHeader ≤ cookie.connection.read.rsize) = true)
    simpa using hshort
  simp only [try_read_mcbp_command]
  rw [if_neg h1]
  simp only [h2, Bool.not_true, Bool.false_eq_true, if_false, if_neg h3]
  split
  · rename_i hyes
    exact absurd hyes h4
  · rfl

lemma byteAt_lt (packet : List Nat) (i : Nat) : byteAt packet i < 256 :=
  Nat.mod_lt _ (by decide)

/-- A declared body length fits in 32 bits. -/
lemma getBodylen_lt (header : List Nat) : getBodylen header < 2 ^ 32 := by
  have h8 := byteAt_lt header 8
  have h9 := byteAt_lt header 9
  have h10 := byteAt_lt header 10
  have h11 := byteAt_lt header 11
  unfold getBodylen
  norm_num
  omega

/-- The bytes still missing are computed without wrap-around. -/
lemma growth_request_eq (header : List Nat) (rsize : Nat)
    (hshort : rsize < sizeofRequest + getBodylen header) :
    size_t_sub ((sizeofRequest + getBodylen header) % SIZE_MAX1) rsize
      = sizeofRequest + getBodylen header - rsize := by
  have hb := getBodylen_lt header
  unfold size_t_sub SIZE_MAX1 sizeofRequest at *
  norm_num at *
  omega

/-- The run of `try_read_mcbp_command` when the packet is not yet complete and
the buffer cannot be grown. -/
lemma try_read_grow_fail (env : Env) (cookie : Cookie)
    (hhdr : sizeofRequest ≤ cookie.connection.read.rsize)
    (hok : env.isValid cookie.getHeader = true)
    (hfit : getBodylen cookie.getHeader ≤ env.maxPacketSize)
    (hshort : cookie.connection.read.rsize < sizeofRequest + getBodylen cookie.getHeader)
    (halloc : env.allocate cookie.connection.read
      (sizeofRequest + getBodylen cookie.getHeader - cookie.connection.read.rsize) = none) :
    try_read_mcbp_command env cookie =
      { cookie := ((afterHeader cookie).record (Effect.ensureCapacity
            (sizeofRequest + getBodylen cookie.getHeader - cookie.connection.read.rsize))).setState
              State.closing,
        calls := [], thrown := none } := by
  have hal : env.allocate ((afterHeader cookie).record (Effect.ensureCapacity
      (sizeofRequest + getBodylen cookie.getHeader - cookie.connection.read.rsize))).connection.read
      (sizeofRequest + getBodylen cookie.getHeader - cookie.connection.read.rsize) = none := halloc
  rw [try_read_grow env cookie hhdr hok hfit hshort, growth_request_eq _ _ hshort]
  simp only [Cookie.ensureCapacity, hal]

/-- The run of `try_read_mcbp_command` when the packet is not yet complete and
the buffer is grown. -/
lemma try_read_grow_ok (env : Env) (cookie : Cookie) (a : Nat)
    (hhdr : sizeofRequest ≤ cookie.connection.read.rsize)
    (hok : env.isValid cookie.getHeader = true)
    (hfit : getBodylen cookie.getHeader ≤ env.maxPacketSize)
    (hshort : cookie.connection.read.rsize < sizeofRequest + getBodylen cookie.getHeader)
    (halloc : env.allocate cookie.connection.read
      (sizeofRequest + getBodylen cookie.getHeader - cookie.connection.read.rsize) = some a) :
    try_read_mcbp_command env cookie =
      { cookie := (((afterHeader cookie).grown
            (sizeofRequest + getBodylen cookie.getHeader - cookie.connection.read.rsize) a).setPacket
              PacketContent.Header { data := a, size := sizeofRequest }).setState
                State.read_packet_body,
        calls := [], thrown := none } := by
  have hal : env.allocate ((afterHeader cookie).record (Effect.ensureCapacity
      (sizeofRequest + getBodylen cookie.getHeader - cookie.connection.read.rsize))).connection.read
      (sizeofRequest + getBodylen cookie.getHeader - cookie.connection.read.rsize) = some a := halloc
  rw [try_read_grow env cookie hhdr hok hfit hshort, growth_request_eq _ _ hshort]
  simp only [Cookie.ensureCapacity, hal]
  rfl

lemma try_read_invalid_log (env : Env) (cookie : Cookie)
    (hhdr : sizeofRequest ≤ cookie.connection.read.rsize)
    (hbad : env.isValid cookie.getHeader = false) :
    (try_read_mcbp_command env cookie).cookie.connection.log =
      cookie.connection.log ++
        [Effect.cookieInitialize (headerView cookie),
         Effect.audit_invalid_packet cookie.connection.read.rdata,
         Effect.setState State.closing] := by
  rw [try_read_invalid env cookie hhdr hbad]
  simp [Cookie.setState, Connection.setState, audit_invalid_packet, Cookie.record,
    Connection.record, Cookie.initialize, headerView]

lemma try_read_oversize_log (env : Env) (cookie : Cookie)
    (hhdr : sizeofRequest ≤ cookie.connection.read.rsize)
    (hok : env.isValid cookie.getHeader = true)
    (hbig : env.maxPacketSize < getBodylen cookie.getHeader) :
    (try_read_mcbp_command env cookie).cookie.connection.log =
      cookie.connection.log ++
        [Effect.cookieInitialize (headerView cookie), Effect.setState State.closing] := by
  rw [try_read_oversize env cookie hhdr hok hbig]
  simp [Cookie.setState, Connection.setState, Cookie.record, Connection.record,
    Cookie.initialize, headerView]

lemma try_read_full_log (env : Env) (cookie : Cookie)
    (hhdr : sizeofRequest ≤ cookie.connection.read.rsize)
    (hok : env.isValid cookie.getHeader = true)
    (hfit : getBodylen cookie.getHeader ≤ env.maxPacketSize)
    (hall : sizeofRequest + getBodylen cookie.getHeader ≤ cookie.connection.read.rsize) :
    (try_read_mcbp_command env cookie).cookie.connection.log =
      cookie.connection.log ++
        [Effect.cookieInitialize (headerView cookie), Effect.addMsgHdr true,
         Effect.setPacket PacketContent.Full
           { data := cookie.connection.read.addr,
             size := sizeofRequest + getBodylen cookie.getHeader },
         Effect.setState State.validate] := by
  rw [try_read_full env cookie hhdr hok hfit hall]
  simp [Cookie.setState, Connection.setState, Cookie.setPacket, Cookie.record,
    Connection.record, Cookie.initialize, afterHeader, Connection.addMsgHdr, headerView]

lemma try_read_grow_fail_log (env : Env) (cookie : Cookie)
    (hhdr : sizeofRequest ≤ cookie.connection.read.rsize)
    (hok : env.isValid cookie.getHeader = true)
    (hfit : getBodylen cookie.getHeader ≤ env.maxPacketSize)
    (hshort : cookie.connection.read.rsize < sizeofRequest + getBodylen cookie.getHeader)
    (halloc : env.allocate cookie.connection.read
      (sizeofRequest + getBodylen cookie.getHeader - cookie.connection.read.rsize) = none) :
    (try_read_mcbp_command env cookie).cookie.connection.log =
      cookie.connection.log ++
        [Effect.cookieInitialize (headerView cookie), Effect.addMsgHdr true,
         Effect.ensureCapacity
           (sizeofRequest + getBodylen cookie.getHeader - cookie.connection.read.rsize),
         Effect.setState State.closing] := by
  rw [try_read_grow_fail env cookie hhdr hok hfit hshort halloc]
  simp [Cookie.setState, Connection.setState, Cookie.record, Connection.record,
    Cookie.initialize, afterHeader, Connection.addMsgHdr, headerView]

lemma try_read_grow_ok_log (env : Env) (cookie : Cookie) (a : Nat)
    (hhdr : sizeofRequest ≤ cookie.connection.read.rsize)
    (hok : env.isValid cookie.getHeader = true)
    (hfit : getBodylen cookie.getHeader ≤ env.maxPacketSize)
    (hshort : cookie.connection.read.rsize < sizeofRequest + getBodylen cookie.getHeader)
    (halloc : env.allocate cookie.connection.read
      (sizeofRequest + getBodylen cookie.getHeader - cookie.connection.read.rsize) = some a) :
    (try_read_mcbp_command env cookie).cookie.connection.log =
      cookie.connection.log ++
        [Effect.cookieInitialize (headerView cookie), Effect.addMsgHdr true,
         Effect.ensureCapacity
           (sizeofRequest + getBodylen cookie.getHeader - cookie.connection.read.rsize),
         Effect.setPacket PacketContent.Header { data := a, size := sizeofRequest },
         Effect.setState State.read_packet_body] := by
  rw [try_read_grow_ok env cookie a hhdr hok hfit hshort halloc]
  simp [Cookie.setState, Connection.setState, Cookie.setPacket, Cookie.record,
    Connection.record, Cookie.initialize, afterHeader, Connection.addMsgHdr, headerView,
    Cookie.grown]

/-- C1: if the read buffer holds a full header whose declared body length is
above `settings.getMaxPacketSize()`, `try_read_mcbp_command` returns normally
with the connection in state `closing`, the read buffer untouched and the
packet view still header-only, and nothing it did was a call of
`ensureCapacity`, the installation of a full packet view or a response.  The
guard is strict: a valid header whose body length equals the maximum gets past
it, to the `addMsgHdr(true)` call that follows the guard. -/
theorem try_read_mcbp_command_oversize_closes (env : Env) (cookie : Cookie)
    (hhdr : sizeofRequest ≤ cookie.connection.read.rsize) :
    (env.maxPacketSize < getBodylen cookie.getHeader →
      (try_read_mcbp_command env cookie).thrown = none ∧
      (try_read_mcbp_command env cookie).cookie.connection.state = State.closing ∧
      (try_read_mcbp_command env cookie).cookie.connection.read = cookie.connection.read ∧
      (try_read_mcbp_command env cookie).cookie.packet =
        some (PacketContent.Header, headerView cookie) ∧
      ∃ delta, (try_read_mcbp_command env cookie).cookie.connection.log
            = cookie.connection.log ++ delta ∧
          ∀ e ∈ delta, e.isEnsureCapacity = false ∧ e.isFullPacket = false ∧
            e.isResponse = false) ∧
    (env.isValid cookie.getHeader = true →
      getBodylen cookie.getHeader = env.maxPacketSize →
      ∃ rest, (try_read_mcbp_command env cookie).cookie.connection.log
        = cookie.connection.log ++
            Effect.cookieInitialize (headerView cookie) :: Effect.addMsgHdr true :: rest) := by
  constructor
  · intro hbig
    cases hv : env.isValid cookie.getHeader with
    | false =>
      refine ⟨?_, ?_, ?_, ?_, _, try_read_invalid_log env cookie hhdr hv, ?_⟩
      · rw [try_read_invalid env cookie hhdr hv]
      · rw [try_read_invalid env cookie hhdr hv]; rfl
      · rw [try_read_invalid env cookie hhdr hv]; rfl
      · rw [try_read_invalid env cookie hhdr hv]; rfl
      · intro e he
        simp only [List.mem_cons, List.mem_singleton, List.not_mem_nil, or_false] at he
        rcases he with rfl | rfl | rfl <;> exact ⟨rfl, rfl, rfl⟩
    | true =>
      refine ⟨?_, ?_, ?_, ?_, _, try_read_oversize_log env cookie hhdr hv hbig, ?_⟩
      · rw [try_read_oversize env cookie hhdr hv hbig]
      · rw [try_read_oversize env cookie hhdr hv hbig]; rfl
      · rw [try_read_oversize env cookie hhdr hv hbig]; rfl
      · rw [try_read_oversize env cookie hhdr hv hbig]; rfl
      · intro e he
        simp only [List.mem_cons, List.mem_singleton, List.not_mem_nil, or_false] at he
        rcases he with rfl | rfl <;> exact ⟨rfl, rfl, rfl⟩
  · intro hv heq
    have hfit : getBodylen cookie.getHeader ≤ env.maxPacketSize := le_of_eq heq
    by_cases hall : sizeofRequest + getBodylen cookie.getHeader ≤ cookie.connection.read.rsize
    · exact ⟨_, try_read_full_log env cookie hhdr hv hfit hall⟩
    · have hshort : cookie.connection.read.rsize < sizeofRequest + getBodylen cookie.getHeader :=
        Nat.lt_of_not_le hall
      cases hal : env.allocate cookie.connection.read
          (sizeofRequest + getBodylen cookie.getHeader - cookie.connection.read.rsize) with
      | none => exact ⟨_, try_read_grow_fail_log env cookie hhdr hv hfit hshort hal⟩
      | some a => exact ⟨_, try_read_grow_ok_log env cookie a hhdr hv hfit hshort hal⟩

/-- Witness of C1: the 27-byte lock packet against a limit of 2 bytes. -/
theorem try_read_mcbp_command_oversize_closes_witness :
    sizeofRequest ≤ (freshCookie lockPacket).connection.read.rsize ∧
    tightEnv.maxPacketSize < getBodylen (freshCookie lockPacket).getHeader ∧
    (try_read_mcbp_command tightEnv (freshCookie lockPacket)).thrown = none ∧
    (try_read_mcbp_command tightEnv (freshCookie lockPacket)).cookie.connection.state
      = State.closing :=
  ⟨by decide, by decide,
   ((try_read_mcbp_command_oversize_closes tightEnv (freshCookie lockPacket) (by decide)).1
      (by decide)).1,
   ((try_read_mcbp_command_oversize_closes tightEnv (freshCookie lockPacket) (by decide)).1
      (by decide)).2.1⟩

/-- C5: if the read buffer holds a full header that is not valid,
`try_read_mcbp_command` returns normally (no exception), with the connection in
state `closing` and the read buffer untouched, and what it did is exactly:
initialize the cookie, call `audit_invalid_packet` once, set state `closing`.
So it neither grew the read buffer nor set `validate` or `read_packet_body`. -/
theorem try_read_mcbp_command_invalid_header (env : Env) (cookie : Cookie)
    (hhdr : sizeofRequest ≤ cookie.connection.read.rsize)
    (hbad : env.isValid cookie.getHeader = false) :
    (try_read_mcbp_command env cookie).thrown = none ∧
    (try_read_mcbp_command env cookie).cookie.connection.state = State.closing ∧
    (try_read_mcbp_command env cookie).cookie.connection.read = cookie.connection.read ∧
    (try_read_mcbp_command env cookie).cookie.connection.log =
      cookie.connection.log ++
        [Effect.cookieInitialize (headerView cookie),
         Effect.audit_invalid_packet cookie.connection.read.rdata,
         Effect.setState State.closing] := by
  refine ⟨?_, ?_, ?_, try_read_invalid_log env cookie hhdr hbad⟩
  · rw [try_read_invalid env cookie hhdr hbad]
  · rw [try_read_invalid env cookie hhdr hbad]; rfl
  · rw [try_read_invalid env cookie hhdr hbad]; rfl

/-- Witness of C5: the lock packet with its magic byte replaced by `0x55`. -/
theorem try_read_mcbp_command_invalid_header_witness :
    sizeofRequest ≤ (freshCookie (0x55 :: lockPacket.tail)).connection.read.rsize ∧
    roomyEnv.isValid (freshCookie (0x55 :: lockPacket.tail)).getHeader = false ∧
    (try_read_mcbp_command roomyEnv (freshCookie (0x55 :: lockPacket.tail))).cookie.connection.log
      = [Effect.cookieInitialize { data := 4096, size := 24 },
         Effect.audit_invalid_packet { data := 4096, size := 27 },
         Effect.setState State.closing] :=
  ⟨by decide, by decide,
   (try_read_mcbp_command_invalid_header roomyEnv (freshCookie (0x55 :: lockPacket.tail))
      (by decide) (by decide)).2.2.2⟩

/-- C6, the claim as stated fails: a valid header that declares 3 body bytes
against a limit of 2 closes the connection, and no audit event is recorded. -/
theorem try_read_mcbp_command_oversize_not_audited :
    tightEnv.isValid (freshCookie lockPacket).getHeader = true ∧
    tightEnv.maxPacketSize < getBodylen (freshCookie lockPacket).getHeader ∧
    (try_read_mcbp_command tightEnv (freshCookie lockPacket)).cookie.connection.state
      = State.closing ∧
    ∀ e ∈ (try_read_mcbp_command tightEnv (freshCookie lockPacket)).cookie.connection.log,
      e.isAudit = false := by
  decide

/-- C6, amended: both framing errors `try_read_mcbp_command` detects end with
the connection in state `closing`, no exception and no response; an invalid
header is audited (one `audit_invalid_packet` event), an oversize body on a
valid header is not (it is written to the log file only). -/
theorem try_read_mcbp_command_framing_errors (env : Env) (cookie : Cookie)
    (hhdr : sizeofRequest ≤ cookie.connection.read.rsize)
    (herr : env.isValid cookie.getHeader = false ∨
      env.maxPacketSize < getBodylen cookie.getHeader) :
    (try_read_mcbp_command env cookie).thrown = none ∧
    (try_read_mcbp_command env cookie).cookie.connection.state = State.closing ∧
    ∃ delta, (try_read_mcbp_command env cookie).cookie.connection.log
        = cookie.connection.log ++ delta ∧
      (∀ e ∈ delta, e.isResponse = false) ∧
      delta.filter Effect.isAudit =
        if env.isValid cookie.getHeader = true then []
        else [Effect.audit_invalid_packet cookie.connection.read.rdata] := by
  cases hv : env.isValid cookie.getHeader with
  | false =>
    refine ⟨?_, ?_, _, try_read_invalid_log env cookie hhdr hv, ?_, ?_⟩
    · rw [try_read_invalid env cookie hhdr hv]
    · rw [try_read_invalid env cookie hhdr hv]; rfl
    · intro e he
      simp only [List.mem_cons, List.mem_singleton, List.not_mem_nil, or_false] at he
      rcases he with rfl | rfl | rfl <;> rfl
    · simp [List.filter, Effect.isAudit]
  | true =>
    have hbig : env.maxPacketSize < getBodylen cookie.getHeader := by
      rcases herr with h | h
      · rw [hv] at h; exact absurd h (by decide)
      · exact h
    refine ⟨?_, ?_, _, try_read_oversize_log env cookie hhdr hv hbig, ?_, ?_⟩
    · rw [try_read_oversize env cookie hhdr hv hbig]
    · rw [try_read_oversize env cookie hhdr hv hbig]; rfl
    · intro e he
      simp only [List.mem_cons, List.mem_singleton, List.not_mem_nil, or_false] at he
      rcases he with rfl | rfl <;> rfl
    · simp [List.filter, Effect.isAudit]

/-- Witness of C6 (amended): the invalid-magic packet is audited once. -/
theorem try_read_mcbp_command_framing_errors_witness :
    sizeofRequest ≤ (freshCookie (0x55 :: lockPacket.tail)).connection.read.rsize ∧
    roomyEnv.isValid (freshCookie (0x55 :: lockPacket.tail)).getHeader = false ∧
    (try_read_mcbp_command roomyEnv
      (freshCookie (0x55 :: lockPacket.tail))).cookie.connection.state = State.closing :=
  ⟨by decide, by decide,
   (try_read_mcbp_command_framing_errors roomyEnv (freshCookie (0x55 :: lockPacket.tail))
      (by decide) (Or.inl (by decide))).2.1⟩

/-- C7: if the header is valid, the declared body length is within the maximum
and the read buffer already holds header and body (possibly more),
`try_read_mcbp_command` returns normally with the connection in state
`validate` and a `Full` packet view that starts at the first readable byte and
is `sizeof(header) + bodylen = 24 + bodylen` bytes long; the read buffer is
untouched. -/
theorem try_read_mcbp_command_full_packet (env : Env) (cookie : Cookie)
    (hhdr : sizeofRequest ≤ cookie.connection.read.rsize)
    (hok : env.isValid cookie.getHeader = true)
    (hfit : getBodylen cookie.getHeader ≤ env.maxPacketSize)
    (hall : sizeofRequest + getBodylen cookie.getHeader ≤ cookie.connection.read.rsize) :
    (try_read_mcbp_command env cookie).thrown = none ∧
    (try_read_mcbp_command env cookie).cookie.connection.state = State.validate ∧
    (try_read_mcbp_command env cookie).cookie.packet =
      some (PacketContent.Full,
        { data := cookie.connection.read.rdata.data,
          size := 24 + getBodylen cookie.getHeader }) ∧
    (try_read_mcbp_command env cookie).cookie.connection.read = cookie.connection.read ∧
    (try_read_mcbp_command env cookie).cookie.connection.log =
      cookie.connection.log ++
        [Effect.cookieInitialize (headerView cookie), Effect.addMsgHdr true,
         Effect.setPacket PacketContent.Full
           { data := cookie.connection.read.addr,
             size := sizeofRequest + getBodylen cookie.getHeader },
         Effect.setState State.validate] := by
  refine ⟨?_, ?_, ?_, ?_, try_read_full_log env cookie hhdr hok hfit hall⟩
  · rw [try_read_full env cookie hhdr hok hfit hall]
  · rw [try_read_full env cookie hhdr hok hfit hall]; rfl
  · rw [try_read_full env cookie hhdr hok hfit hall]; rfl
  · rw [try_read_full env cookie hhdr hok hfit hall]; rfl

/-- Witness of C7: the lock packet followed by five bytes of the next packet;
the view is 27 bytes long although 32 are buffered. -/
theorem try_read_mcbp_command_full_packet_witness :
    sizeofRequest ≤ (freshCookie (lockPacket ++ [0x80, 1, 2, 3, 4])).connection.read.rsize ∧
    (try_read_mcbp_command roomyEnv
      (freshCookie (lockPacket ++ [0x80, 1, 2, 3, 4]))).cookie.connection.state
        = State.validate ∧
    (try_read_mcbp_command roomyEnv (freshCookie (lockPacket ++ [0x80, 1, 2, 3, 4]))).cookie.packet
      = some (PacketContent.Full, { data := 4096, size := 27 }) :=
  ⟨by decide,
   (try_read_mcbp_command_full_packet roomyEnv (freshCookie (lockPacket ++ [0x80, 1, 2, 3, 4]))
      (by decide) (by decide) (by decide) (by decide)).2.1,
   (try_read_mcbp_command_full_packet roomyEnv (freshCookie (lockPacket ++ [0x80, 1, 2, 3, 4]))
      (by decide) (by decide) (by decide) (by decide)).2.2.1⟩

/-- C8: if the header is valid, the declared body length is within the maximum
and the read buffer holds less than header plus body, `try_read_mcbp_command`
asks the read buffer for exactly `(sizeof(header) + bodylen) - rsize` further
bytes (computed without wrap-around, so the bytes held plus the bytes asked for
are exactly header plus body) and no exception leaves it.  If the growth
succeeds the packet view is a `Header` view of 24 bytes at the new address of
the readable bytes, the buffer has room for the whole packet and the state is
`read_packet_body`; if it fails with `std::bad_alloc` the state is `closing`. -/
theorem try_read_mcbp_command_incomplete_packet (env : Env) (cookie : Cookie)
    (hhdr : sizeofRequest ≤ cookie.connection.read.rsize)
    (hok : env.isValid cookie.getHeader = true)
    (hfit : getBodylen cookie.getHeader ≤ env.maxPacketSize)
    (hshort : cookie.connection.read.rsize < sizeofRequest + getBodylen cookie.getHeader) :
    (try_read_mcbp_command env cookie).thrown = none ∧
    cookie.connection.read.rsize +
        (sizeofRequest + getBodylen cookie.getHeader - cookie.connection.read.rsize)
      = 24 + getBodylen cookie.getHeader ∧
    (∀ a, env.allocate cookie.connection.read
          (sizeofRequest + getBodylen cookie.getHeader - cookie.connection.read.rsize) = some a →
      (try_read_mcbp_command env cookie).cookie.connection.state = State.read_packet_body ∧
      (try_read_mcbp_command env cookie).cookie.packet =
        some (PacketContent.Header, { data := a, size := 24 }) ∧
      (try_read_mcbp_command env cookie).cookie.connection.read.rdata.data = a ∧
      (try_read_mcbp_command env cookie).cookie.connection.read.bytes
        = cookie.connection.read.bytes ∧
      24 + getBodylen cookie.getHeader ≤
        (try_read_mcbp_command env cookie).cookie.connection.read.rsize +
          (try_read_mcbp_command env cookie).cookie.connection.read.wsize ∧
      (try_read_mcbp_command env cookie).cookie.connection.log =
        cookie.connection.log ++
          [Effect.cookieInitialize (headerView cookie), Effect.addMsgHdr true,
           Effect.ensureCapacity
             (sizeofRequest + getBodylen cookie.getHeader - cookie.connection.read.rsize),
           Effect.setPacket PacketContent.Header { data := a, size := sizeofRequest },
           Effect.setState State.read_packet_body]) ∧
    (env.allocate cookie.connection.read
          (sizeofRequest + getBodylen cookie.getHeader - cookie.connection.read.rsize) = none →
      (try_read_mcbp_command env cookie).cookie.connection.state = State.closing ∧
      (try_read_mcbp_command env cookie).cookie.connection.read = cookie.connection.read ∧
      (try_read_mcbp_command env cookie).cookie.connection.log =
        cookie.connection.log ++
          [Effect.cookieInitialize (headerView cookie), Effect.addMsgHdr true,
           Effect.ensureCapacity
             (sizeofRequest + getBodylen cookie.getHeader - cookie.connection.read.rsize),
           Effect.setState State.closing]) := by
  refine ⟨?_, ?_, ?_, ?_⟩
  · cases hal : env.allocate cookie.connection.read
        (sizeofRequest + getBodylen cookie.getHeader - cookie.connection.read.rsize) with
    | none => rw [try_read_grow_fail env cookie hhdr hok hfit hshort hal]
    | some a => rw [try_read_grow_ok env cookie a hhdr hok hfit hshort hal]
  · unfold sizeofRequest at *
    omega
  · intro a hal
    refine ⟨?_, ?_, ?_, ?_, ?_, try_read_grow_ok_log env cookie a hhdr hok hfit hshort hal⟩
    · rw [try_read_grow_ok env cookie a hhdr hok hfit hshort hal]; rfl
    · rw [try_read_grow_ok env cookie a hhdr hok hfit hshort hal]; rfl
    · rw [try_read_grow_ok env cookie a hhdr hok hfit hshort hal]; rfl
    · rw [try_read_grow_ok env cookie a hhdr hok hfit hshort hal]; rfl
    · rw [try_read_grow_ok env cookie a hhdr hok hfit hshort hal]
      show 24 + getBodylen cookie.getHeader ≤ cookie.connection.read.rsize +
        max cookie.connection.read.wsize
          (sizeofRequest + getBodylen cookie.getHeader - cookie.connection.read.rsize)
      have := le_max_right cookie.connection.read.wsize
        (sizeofRequest + getBodylen cookie.getHeader - cookie.connection.read.rsize)
      unfold sizeofRequest at *
      omega
  · intro hal
    refine ⟨?_, ?_, try_read_grow_fail_log env cookie hhdr hok hfit hshort hal⟩
    · rw [try_read_grow_fail env cookie hhdr hok hfit hshort hal]; rfl
    · rw [try_read_grow_fail env cookie hhdr hok hfit hshort hal]; rfl

/-- Witness of C8: 25 of the 27 bytes of the lock packet are buffered, so two
more bytes are asked for; the buffer moves to address 8192. -/
theorem try_read_mcbp_command_incomplete_packet_witness :
    sizeofRequest ≤ (freshCookie (lockPacket.take 25)).connection.read.rsize ∧
    roomyEnv.allocate (freshCookie (lockPacket.take 25)).connection.read 2 = some 8192 ∧
    (try_read_mcbp_command roomyEnv (freshCookie (lockPacket.take 25))).cookie.connection.log =
      [Effect.cookieInitialize { data := 4096, size := 24 }, Effect.addMsgHdr true,
       Effect.ensureCapacity 2,
       Effect.setPacket PacketContent.Header { data := 8192, size := 24 },
       Effect.setState State.read_packet_body] ∧
    (try_read_mcbp_command tightEnv
      (freshCookie ((lockPacket.take 11) ++ [1, 0, 0, 0, 6, 0, 0, 0, 0, 0, 0, 0, 0]))).cookie.connection.state
        = State.closing :=
  ⟨by decide, by decide,
   ((try_read_mcbp_command_incomplete_packet roomyEnv (freshCookie (lockPacket.take 25))
      (by decide) (by decide) (by decide) (by decide)).2.2.1 8192 (by decide)).2.2.2.2.2,
   ((try_read_mcbp_command_incomplete_packet tightEnv
      (freshCookie ((lockPacket.take 11) ++ [1, 0, 0, 0, 6, 0, 0, 0, 0, 0, 0, 0, 0]))
      (by decide) (by decide) (by decide) (by decide)).2.2.2 (by decide)).1⟩

/-! ### The privilege gate -/

/-- C2: `execute_client_request_packet` makes exactly one privilege check, for
the request's opcode, and calls through `handlers[opcode]` exactly once when
the verdict is `Ok` and not at all otherwise.  With verdict `Ok` the cookie it
leaves is the one the handler in that slot produces from the incoming cookie;
with any other verdict the outcome does not depend on the table. -/
theorem execute_client_request_packet_dispatch (env : Env) (handlers : HandlerTable)
    (cookie : Cookie) (request : List Nat) :
    (execute_client_request_packet env handlers cookie request).calls =
      (if env.invoke (getOpcode request) cookie = PrivilegeAccess.Ok then
        [Call.privilegeCheck (getOpcode request), Call.handlers (getOpcode request)]
      else [Call.privilegeCheck (getOpcode request)]) ∧
    (env.invoke (getOpcode request) cookie = PrivilegeAccess.Ok →
      ∀ h, handlers (getOpcode request) = some h →
        (execute_client_request_packet env handlers cookie request).cookie = h.run env cookie ∧
        (execute_client_request_packet env handlers cookie request).thrown = none) ∧
    (env.invoke (getOpcode request) cookie ≠ PrivilegeAccess.Ok →
      ∀ handlers2 : HandlerTable,
        execute_client_request_packet env handlers2 cookie request =
          execute_client_request_packet env handlers cookie request) := by
  refine ⟨?_, ?_, ?_⟩
  · unfold execute_client_request_packet
    cases hres : env.invoke (getOpcode request) cookie with
    | Ok => cases hh : handlers (getOpcode request) <;> simp [hres, hh]
    | Fail => simp only [hres]; split <;> simp
    | Stale => simp only [hres]; split <;> simp
    | invalid raw => simp [hres]
  · intro hres h hh
    unfold execute_client_request_packet
    simp [hres, hh]
  · intro hres handlers2
    unfold execute_client_request_packet
    cases hv : env.invoke (getOpcode request) cookie with
    | Ok => exact absurd hv hres
    | Fail => simp only [hv]
    | Stale => simp only [hv]
    | invalid raw => simp only [hv]

/-- C3: when the privilege check returns `Fail`, `execute_client_request_packet`
calls no handler, returns normally, and does one of two things.  If
`remapErrorCode(ENGINE_EACCESS)` is `ENGINE_DISCONNECT` it records the
access-failed audit event and sets the connection to `closing` (no response);
otherwise it records the audit event and sends one response with status
`Eaccess`, and the connection state is what it was. -/
theorem execute_client_request_packet_fail (env : Env) (handlers : HandlerTable)
    (cookie : Cookie) (request : List Nat)
    (hfail : env.invoke (getOpcode request) cookie = PrivilegeAccess.Fail) :
    (execute_client_request_packet env handlers cookie request).thrown = none ∧
    (execute_client_request_packet env handlers cookie request).calls =
      [Call.privilegeCheck (getOpcode request)] ∧
    (env.remapErrorCode ENGINE_ERROR_CODE.ENGINE_EACCESS = ENGINE_ERROR_CODE.ENGINE_DISCONNECT →
      (execute_client_request_packet env handlers cookie request).cookie.connection.state
        = State.closing ∧
      (execute_client_request_packet env handlers cookie request).cookie.connection.log =
        cookie.connection.log ++
          [Effect.audit_command_access_failed, Effect.setState State.closing]) ∧
    (env.remapErrorCode ENGINE_ERROR_CODE.ENGINE_EACCESS ≠ ENGINE_ERROR_CODE.ENGINE_DISCONNECT →
      (execute_client_request_packet env handlers cookie request).cookie.connection.state
        = cookie.connection.state ∧
      (execute_client_request_packet env handlers cookie request).cookie.connection.log =
        cookie.connection.log ++
          [Effect.audit_command_access_failed, Effect.sendResponse Status.Eaccess]) := by
  unfold execute_client_request_packet
  simp only [hfail]
  by_cases hr : env.remapErrorCode ENGINE_ERROR_CODE.ENGINE_EACCESS
      = ENGINE_ERROR_CODE.ENGINE_DISCONNECT
  · simp [hr, Cookie.setState, Connection.setState, audit_command_access_failed,
      Cookie.record, Connection.record]
  · simp [hr, Cookie.sendResponse, audit_command_access_failed, Cookie.record,
      Connection.record]

/-- Witness of C3 (scenario D): verdict `Fail` under a policy that leaves
`ENGINE_EACCESS` alone gives one audit event and one `Eaccess` response on an
open connection; under a policy that escalates it the connection closes. -/
theorem execute_client_request_packet_fail_witness :
    (execute_client_request_packet (gateEnv PrivilegeAccess.Fail id) staticTables.handlers
        (freshCookie lockPacket) lockPacket).cookie.connection.log =
      [Effect.audit_command_access_failed, Effect.sendResponse Status.Eaccess] ∧
    (execute_client_request_packet (gateEnv PrivilegeAccess.Fail id) staticTables.handlers
        (freshCookie lockPacket) lockPacket).cookie.connection.state = State.new_cmd ∧
    (execute_client_request_packet (gateEnv PrivilegeAccess.Fail remapAllToDisconnect)
        staticTables.handlers (freshCookie lockPacket) lockPacket).cookie.connection.log =
      [Effect.audit_command_access_failed, Effect.setState State.closing] :=
  ⟨((execute_client_request_packet_fail (gateEnv PrivilegeAccess.Fail id) staticTables.handlers
      (freshCookie lockPacket) lockPacket rfl).2.2.2 (by decide)).2,
   ((execute_client_request_packet_fail (gateEnv PrivilegeAccess.Fail id) staticTables.handlers
      (freshCookie lockPacket) lockPacket rfl).2.2.2 (by decide)).1,
   ((execute_client_request_packet_fail (gateEnv PrivilegeAccess.Fail remapAllToDisconnect)
      staticTables.handlers (freshCookie lockPacket) lockPacket rfl).2.2.1 (by decide)).2⟩

/-- C4: when the privilege check returns `Stale`, `execute_client_request_packet`
calls no handler, returns normally, and does one of two things.  If
`remapErrorCode(ENGINE_AUTH_STALE)` is `ENGINE_DISCONNECT` it sets the
connection to `closing` and sends nothing; otherwise it sends one response
with status `AuthStale` and the connection state is what it was. -/
theorem execute_client_request_packet_stale (env : Env) (handlers : HandlerTable)
    (cookie : Cookie) (request : List Nat)
    (hstale : env.invoke (getOpcode request) cookie = PrivilegeAccess.Stale) :
    (execute_client_request_packet env handlers cookie request).thrown = none ∧
    (execute_client_request_packet env handlers cookie request).calls =
      [Call.privilegeCheck (getOpcode request)] ∧
    (env.remapErrorCode ENGINE_ERROR_CODE.ENGINE_AUTH_STALE = ENGINE_ERROR_CODE.ENGINE_DISCONNECT →
      (execute_client_request_packet env handlers cookie request).cookie.connection.state
        = State.closing ∧
      (execute_client_request_packet env handlers cookie request).cookie.connection.log =
        cookie.connection.log ++ [Effect.setState State.closing]) ∧
    (env.remapErrorCode ENGINE_ERROR_CODE.ENGINE_AUTH_STALE ≠ ENGINE_ERROR_CODE.ENGINE_DISCONNECT →
      (execute_client_request_packet env handlers cookie request).cookie.connection.state
        = cookie.connection.state ∧
      (execute_client_request_packet env handlers cookie request).cookie.connection.log =
        cookie.connection.log ++ [Effect.sendResponse Status.AuthStale]) := by
  unfold execute_client_request_packet
  simp only [hstale]
  by_cases hr : env.remapErrorCode ENGINE_ERROR_CODE.ENGINE_AUTH_STALE
      = ENGINE_ERROR_CODE.ENGINE_DISCONNECT
  · simp [hr, Cookie.setState, Connection.setState]
  · simp [hr, Cookie.sendResponse, Cookie.record, Connection.record]

/-- Witness of C4: verdict `Stale` under a policy that leaves
`ENGINE_AUTH_STALE` alone gives one `AuthStale` response on an open
connection; under a policy that escalates it the connection closes silently. -/
theorem execute_client_request_packet_stale_witness :
    (execute_client_request_packet (gateEnv PrivilegeAccess.Stale id) staticTables.handlers
        (freshCookie lockPacket) lockPacket).cookie.connection.log =
      [Effect.sendResponse Status.AuthStale] ∧
    (execute_client_request_packet (gateEnv PrivilegeAccess.Stale id) staticTables.handlers
        (freshCookie lockPacket) lockPacket).cookie.connection.state = State.new_cmd ∧
    (execute_client_request_packet (gateEnv PrivilegeAccess.Stale remapAllToDisconnect)
        staticTables.handlers (freshCookie lockPacket) lockPacket).cookie.connection.log =
      [Effect.setState State.closing] :=
  ⟨((execute_client_request_packet_stale (gateEnv PrivilegeAccess.Stale id) staticTables.handlers
      (freshCookie lockPacket) lockPacket rfl).2.2.2 (by decide)).2,
   ((execute_client_request_packet_stale (gateEnv PrivilegeAccess.Stale id) staticTables.handlers
      (freshCookie lockPacket) lockPacket rfl).2.2.2 (by decide)).1,
   ((execute_client_request_packet_stale (gateEnv PrivilegeAccess.Stale remapAllToDisconnect)
      staticTables.handlers (freshCookie lockPacket) lockPacket rfl).2.2.1 (by decide)).2⟩

/-! ### The opcode tables -/

lemma foldl_setup_handler_response (opcodeValue : ClientOpcode → Fin 256)
    (regs : List (ClientOpcode × Handler)) (t : Tables) :
    (regs.foldl (fun t r => setup_handler opcodeValue t r.1 r.2) t).response_handlers
      = t.response_handlers := by
  induction regs generalizing t with
  | nil => rfl
  | cons r rest ih => rw [List.foldl_cons, ih]; rfl

lemma foldl_setup_handler_isSome (opcodeValue : ClientOpcode → Fin 256)
    (regs : List (ClientOpcode × Handler)) (t : Tables) (i : Fin 256)
    (h : (t.handlers i).isSome = true) :
    ((regs.foldl (fun t r => setup_handler opcodeValue t r.1 r.2) t).handlers i).isSome
      = true := by
  induction regs generalizing t with
  | nil => exact h
  | cons r rest ih =>
    rw [List.foldl_cons]
    apply ih
    show (if i = opcodeValue r.1 then some r.2 else t.handlers i).isSome = true
    split
    · rfl
    · exact h

lemma foldl_setup_handler_unregistered (opcodeValue : ClientOpcode → Fin 256)
    (regs : List (ClientOpcode × Handler)) (t : Tables) (i : Fin 256)
    (h : ∀ r ∈ regs, opcodeValue r.1 ≠ i) :
    (regs.foldl (fun t r => setup_handler opcodeValue t r.1 r.2) t).handlers i
      = t.handlers i := by
  induction regs generalizing t with
  | nil => rfl
  | cons r rest ih =>
    rw [List.foldl_cons, ih _ (fun q hq => h q (List.mem_cons_of_mem _ hq))]
    show (if i = opcodeValue r.1 then some r.2 else t.handlers i) = t.handlers i
    rw [if_neg (fun e => h r (List.mem_cons_self _ _) e.symm)]

lemma foldl_setup_response_handler_unregistered (opcodeValue : ClientOpcode → Fin 256)
    (regs : List (ClientOpcode × Handler)) (t : Tables) (i : Fin 256)
    (h : ∀ r ∈ regs, opcodeValue r.1 ≠ i) :
    (regs.foldl (fun t r => setup_response_handler opcodeValue t r.1 r.2) t).response_handlers i
      = t.response_handlers i := by
  induction regs generalizing t with
  | nil => rfl
  | cons r rest ih =>
    rw [List.foldl_cons, ih _ (fun q hq => h q (List.mem_cons_of_mem _ hq))]
    show (if i = opcodeValue r.1 then some r.2 else t.response_handlers i)
      = t.response_handlers i
    rw [if_neg (fun e => h r (List.mem_cons_self _ _) e.symm)]

/-- C9: after `initialize_mbcp_lookup_map`, whatever the numbering of the
opcodes and whatever the request table held before, every one of the 256
request-table entries holds a handler, and an entry whose index is not the
value of an opcode passed to `setup_handler` holds
`process_bin_unknown_packet`.  Starting from the statically initialised
tables, a response-table entry whose index is not the value of an opcode
passed to `setup_response_handler` is empty, and for a response with such an
opcode `execute_client_response_packet` calls nothing and sets the connection
to `closing`. -/
theorem initialize_mbcp_lookup_map_defaults (opcodeValue : ClientOpcode → Fin 256)
    (i : Fin 256) :
    (∀ t : Tables,
      ((initialize_mbcp_lookup_map opcodeValue t).handlers i).isSome = true ∧
      ((∀ r ∈ requestRegistrations, opcodeValue r.1 ≠ i) →
        (initialize_mbcp_lookup_map opcodeValue t).handlers i
          = some Handler.process_bin_unknown_packet)) ∧
    ((∀ r ∈ responseRegistrations, opcodeValue r.1 ≠ i) →
      (initialize_mbcp_lookup_map opcodeValue staticTables).response_handlers i = none ∧
      ∀ (env : Env) (cookie : Cookie) (response : List Nat), getOpcode response = i →
        (execute_client_response_packet env
          (initialize_mbcp_lookup_map opcodeValue staticTables).response_handlers
          cookie response).calls = [] ∧
        (execute_client_response_packet env
          (initialize_mbcp_lookup_map opcodeValue staticTables).response_handlers
          cookie response).cookie = cookie.setState State.closing) := by
  refine ⟨fun t => ⟨?_, ?_⟩, ?_⟩
  · exact foldl_setup_handler_isSome opcodeValue requestRegistrations _ i rfl
  · intro h
    unfold initialize_mbcp_lookup_map
    rw [foldl_setup_handler_unregistered opcodeValue requestRegistrations _ i h]
  · intro h
    have hnone : (initialize_mbcp_lookup_map opcodeValue staticTables).response_handlers i
        = none := by
      unfold initialize_mbcp_lookup_map
      rw [foldl_setup_handler_response]
      exact foldl_setup_response_handler_unregistered opcodeValue responseRegistrations
        staticTables i h
    refine ⟨hnone, ?_⟩
    intro env cookie response hop
    unfold execute_client_response_packet
    simp only [hop, hnone, and_self]

/-- Witness of C9: under the sample numbering no opcode has the value 255, so
the request entry 255 is the default handler and the response entry 255 is
empty; the entries of `Noop` are the registered ones. -/
theorem initialize_mbcp_lookup_map_defaults_witness :
    (∀ r ∈ requestRegistrations, sampleOpcodeValue r.1 ≠ 255) ∧
    (∀ r ∈ responseRegistrations, sampleOpcodeValue r.1 ≠ 255) ∧
    (initialize_mbcp_lookup_map sampleOpcodeValue staticTables).handlers 255
      = some Handler.process_bin_unknown_packet ∧
    (initialize_mbcp_lookup_map sampleOpcodeValue staticTables).response_handlers 255 = none ∧
    (initialize_mbcp_lookup_map sampleOpcodeValue staticTables).handlers
      (sampleOpcodeValue ClientOpcode.Noop) = some Handler.noop_executor ∧
    (initialize_mbcp_lookup_map sampleOpcodeValue staticTables).response_handlers
      (sampleOpcodeValue ClientOpcode.Noop) = some Handler.process_bin_noop_response :=
  ⟨by decide, by decide,
   ((initialize_mbcp_lookup_map_defaults sampleOpcodeValue 255).1 staticTables).2 (by decide),
   ((initialize_mbcp_lookup_map_defaults sampleOpcodeValue 255).2 (by decide)).1,
   by decide, by decide⟩

/-! ### The default handler -/

/-- The four ways a pass of `process_bin_unknown_packet` ends, by the status
its `switch` acts on and the dynamic buffer at that point. -/
lemma process_bin_unknown_packet_cases (env : Env) (cookie : Cookie) :
    (unknownPacketStatus env cookie = ENGINE_ERROR_CODE.ENGINE_SUCCESS ∧
      ((unknownPacketBuffer env cookie).isSome = true ∧
        (process_bin_unknown_packet env cookie).connection.state = cookie.connection.state ∧
        (process_bin_unknown_packet env cookie).connection.log = cookie.connection.log ++
          (engineCallLog cookie Effect.bucket_unknown_command ++
            [Effect.responseCounter Status.Success, Effect.sendDynamicBuffer,
             Effect.update_topkeys]) ∨
       (unknownPacketBuffer env cookie) = none ∧
        (process_bin_unknown_packet env cookie).connection.state = State.new_cmd ∧
        (process_bin_unknown_packet env cookie).connection.log = cookie.connection.log ++
          (engineCallLog cookie Effect.bucket_unknown_command ++
            [Effect.setState State.new_cmd, Effect.update_topkeys]))) ∨
    (unknownPacketStatus env cookie = ENGINE_ERROR_CODE.ENGINE_EWOULDBLOCK ∧
      (process_bin_unknown_packet env cookie).connection.state = cookie.connection.state ∧
      (process_bin_unknown_packet env cookie).connection.log = cookie.connection.log ++
        (engineCallLog cookie Effect.bucket_unknown_command ++
          [Effect.setEwouldblock true])) ∨
    (unknownPacketStatus env cookie = ENGINE_ERROR_CODE.ENGINE_DISCONNECT ∧
      (process_bin_unknown_packet env cookie).connection.state = State.closing ∧
      (process_bin_unknown_packet env cookie).connection.log = cookie.connection.log ++
        (engineCallLog cookie Effect.bucket_unknown_command ++
          [Effect.setState State.closing])) ∨
    (unknownPacketStatus env cookie ≠ ENGINE_ERROR_CODE.ENGINE_SUCCESS ∧
      unknownPacketStatus env cookie ≠ ENGINE_ERROR_CODE.ENGINE_EWOULDBLOCK ∧
      unknownPacketStatus env cookie ≠ ENGINE_ERROR_CODE.ENGINE_DISCONNECT ∧
      (process_bin_unknown_packet env cookie).connection.state = cookie.connection.state ∧
      (process_bin_unknown_packet env cookie).connection.log = cookie.connection.log ++
        (engineCallLog cookie Effect.bucket_unknown_command ++
          [Effect.clearDynamicBuffer,
           Effect.sendResponse (env.to_status (unknownPacketStatus env cookie))])) := by
  unfold process_bin_unknown_packet unknownPacketStatus unknownPacketBuffer engineCallLog
  simp only [Cookie.swapAiostat]
  by_cases ha : cookie.aiostat = ENGINE_ERROR_CODE.ENGINE_SUCCESS
  · simp only [ha, if_true]
    generalize env.bucket_unknown_command _ = r
    cases hs : env.remapErrorCode r.1 <;> cases hb : r.2 <;>
      simp [hs, hb, update_topkeys, Cookie.sendDynamicBuffer, Cookie.record, Connection.record,
        Cookie.setState, Connection.setState, Cookie.setEwouldblock, Cookie.clearDynamicBuffer,
        Cookie.sendResponse]
  · simp only [ha, if_false]
    cases hs : env.remapErrorCode cookie.aiostat <;> cases hb : cookie.dynamicBuffer <;>
      simp [hs, hb, update_topkeys, Cookie.sendDynamicBuffer, Cookie.record, Connection.record,
        Cookie.setState, Connection.setState, Cookie.setEwouldblock, Cookie.clearDynamicBuffer,
        Cookie.sendResponse]

/-- C10, the claim as stated fails: the engine answers success without putting
anything in the dynamic buffer; the remapped status is success (not
would-block), and the pass ends with the connection in state `new_cmd`, not
`closing`, and with no response sent. -/
theorem process_bin_unknown_packet_silent_success :
    unknownPacketStatus (engineEnv id (ENGINE_ERROR_CODE.ENGINE_SUCCESS, none))
      (freshCookie lockPacket) ≠ ENGINE_ERROR_CODE.ENGINE_EWOULDBLOCK ∧
    (process_bin_unknown_packet (engineEnv id (ENGINE_ERROR_CODE.ENGINE_SUCCESS, none))
      (freshCookie lockPacket)).connection.state = State.new_cmd ∧
    (process_bin_unknown_packet (engineEnv id (ENGINE_ERROR_CODE.ENGINE_SUCCESS, none))
      (freshCookie lockPacket)).connection.state ≠ State.closing ∧
    ∀ e ∈ (process_bin_unknown_packet (engineEnv id (ENGINE_ERROR_CODE.ENGINE_SUCCESS, none))
      (freshCookie lockPacket)).connection.log, e.isResponse = false := by
  decide

/-- C10, amended: for every `aiostat` value, engine answer and dynamic-buffer
content, a pass of `process_bin_unknown_packet` whose remapped status is not
would-block sends a response, or sets the connection to `closing`, or (status
success with an empty dynamic buffer) sends nothing and sets the connection
state to `new_cmd`. -/
theorem process_bin_unknown_packet_never_stalls (env : Env) (cookie : Cookie)
    (hnb : unknownPacketStatus env cookie ≠ ENGINE_ERROR_CODE.ENGINE_EWOULDBLOCK) :
    ∃ delta, (process_bin_unknown_packet env cookie).connection.log
        = cookie.connection.log ++ delta ∧
      ((∃ e ∈ delta, e.isResponse = true) ∨
       (process_bin_unknown_packet env cookie).connection.state = State.closing ∨
       (unknownPacketStatus env cookie = ENGINE_ERROR_CODE.ENGINE_SUCCESS ∧
        unknownPacketBuffer env cookie = none ∧
        (process_bin_unknown_packet env cookie).connection.state = State.new_cmd ∧
        ∀ e ∈ delta, e.isResponse = false)) := by
  rcases process_bin_unknown_packet_cases env cookie with
    ⟨hs, ⟨_, _, hlog⟩ | ⟨hb, hst, hlog⟩⟩ | ⟨hs, _, _⟩ | ⟨_, hst, hlog⟩ | ⟨_, _, _, _, hlog⟩
  · exact ⟨_, hlog, Or.inl ⟨Effect.sendDynamicBuffer, by simp, rfl⟩⟩
  · refine ⟨_, hlog, Or.inr (Or.inr ⟨hs, hb, hst, ?_⟩)⟩
    intro e he
    unfold engineCallLog at he
    split at he <;>
      simp only [List.mem_append, List.mem_cons, List.mem_singleton, List.not_mem_nil,
        or_false, false_or] at he
    · rcases he with rfl | rfl | rfl <;> rfl
    · rcases he with rfl | rfl <;> rfl
  · exact absurd hs hnb
  · exact ⟨_, hlog, Or.inr (Or.inl hst)⟩
  · exact ⟨_, hlog, Or.inl ⟨Effect.sendResponse (env.to_status (unknownPacketStatus env cookie)),
      by simp, rfl⟩⟩

/-- Witness of C10 (amended): an engine failure is answered with one response;
a disconnect closes the connection. -/
theorem process_bin_unknown_packet_never_stalls_witness :
    unknownPacketStatus (engineEnv id (ENGINE_ERROR_CODE.ENGINE_FAILED, some [1]))
      (freshCookie lockPacket) ≠ ENGINE_ERROR_CODE.ENGINE_EWOULDBLOCK ∧
    (∃ delta, (process_bin_unknown_packet
        (engineEnv id (ENGINE_ERROR_CODE.ENGINE_FAILED, some [1]))
        (freshCookie lockPacket)).connection.log
          = (freshCookie lockPacket).connection.log ++ delta ∧
      ((∃ e ∈ delta, e.isResponse = true) ∨
       (process_bin_unknown_packet (engineEnv id (ENGINE_ERROR_CODE.ENGINE_FAILED, some [1]))
          (freshCookie lockPacket)).connection.state = State.closing ∨
       (unknownPacketStatus (engineEnv id (ENGINE_ERROR_CODE.ENGINE_FAILED, some [1]))
          (freshCookie lockPacket) = ENGINE_ERROR_CODE.ENGINE_SUCCESS ∧
        unknownPacketBuffer (engineEnv id (ENGINE_ERROR_CODE.ENGINE_FAILED, some [1]))
          (freshCookie lockPacket) = none ∧
        (process_bin_unknown_packet (engineEnv id (ENGINE_ERROR_CODE.ENGINE_FAILED, some [1]))
          (freshCookie lockPacket)).connection.state = State.new_cmd ∧
        ∀ e ∈ delta, e.isResponse = false))) ∧
    (process_bin_unknown_packet (engineEnv id (ENGINE_ERROR_CODE.ENGINE_FAILED, some [1]))
      (freshCookie lockPacket)).connection.log =
        [Effect.bucket_unknown_command, Effect.clearDynamicBuffer,
         Effect.sendResponse (Status.other 0)] :=
  ⟨by decide,
   process_bin_unknown_packet_never_stalls
     (engineEnv id (ENGINE_ERROR_CODE.ENGINE_FAILED, some [1])) (freshCookie lockPacket)
     (by decide),
   by decide⟩

/-! ### Response routing -/

/-- C11: `execute_client_response_packet` closes the connection on its own
account exactly when the response table has no handler for the opcode.  With
no handler the outcome is the incoming cookie with state `closing` set and no
call made; with a handler the outcome is what that handler makes of the
incoming cookie, after one call through the slot, and the router adds nothing
of its own.  `execute_response_packet` takes this path for the magics
`ClientResponse` and `AltClientResponse`. -/
theorem execute_client_response_packet_routing (env : Env) (response_handlers : HandlerTable)
    (cookie : Cookie) (response : List Nat) :
    (response_handlers (getOpcode response) = none →
      (execute_client_response_packet env response_handlers cookie response).cookie
        = cookie.setState State.closing ∧
      (execute_client_response_packet env response_handlers cookie response).cookie.connection.state
        = State.closing ∧
      (execute_client_response_packet env response_handlers cookie response).calls = [] ∧
      (execute_client_response_packet env response_handlers cookie response).thrown = none) ∧
    (∀ h, response_handlers (getOpcode response) = some h →
      (execute_client_response_packet env response_handlers cookie response).cookie
        = h.run env cookie ∧
      (execute_client_response_packet env response_handlers cookie response).calls
        = [Call.response_handlers (getOpcode response)] ∧
      (execute_client_response_packet env response_handlers cookie response).thrown = none) ∧
    ((execute_client_response_packet env response_handlers cookie response).calls = [] ↔
      response_handlers (getOpcode response) = none) ∧
    (env.daemon.magicOf (getMagic response) = Magic.ClientResponse ∨
      env.daemon.magicOf (getMagic response) = Magic.AltClientResponse →
      execute_response_packet env response_handlers cookie response =
        execute_client_response_packet env response_handlers cookie response) := by
  refine ⟨?_, ?_, ?_, ?_⟩
  · intro hnone
    unfold execute_client_response_packet
    simp [hnone, Cookie.setState, Connection.setState]
  · intro h hh
    unfold execute_client_response_packet
    simp only [hh, and_self]
  · unfold execute_client_response_packet
    cases hh : response_handlers (getOpcode response) <;> simp [hh]
  · intro hm
    unfold execute_response_packet
    rcases hm with hm | hm <;> simp only [hm]

/-- Witness of C11: after `initialize_mbcp_lookup_map` under the sample
numbering, a client response with the opcode of `Noop` is absorbed by
`process_bin_noop_response` (state `new_cmd`), and one with the unregistered
opcode 255 closes the connection. -/
theorem execute_client_response_packet_routing_witness :
    (execute_response_packet routingEnv
      (initialize_mbcp_lookup_map sampleOpcodeValue staticTables).response_handlers
      (freshCookie (headerOnly 0x81 0)) (headerOnly 0x81 0)).cookie.connection.log
        = [Effect.setState State.new_cmd] ∧
    (execute_response_packet routingEnv
      (initialize_mbcp_lookup_map sampleOpcodeValue staticTables).response_handlers
      (freshCookie (headerOnly 0x81 0)) (headerOnly 0x81 0)).calls
        = [Call.response_handlers 0] ∧
    (execute_response_packet routingEnv
      (initialize_mbcp_lookup_map sampleOpcodeValue staticTables).response_handlers
      (freshCookie (headerOnly 0x18 255)) (headerOnly 0x18 255)).cookie.connection.state
        = State.closing :=
  ⟨by decide, by decide,
   ((execute_client_response_packet_routing routingEnv
      (initialize_mbcp_lookup_map sampleOpcodeValue staticTables).response_handlers
      (freshCookie (headerOnly 0x18 255)) (headerOnly 0x18 255)).2.2.2 (Or.inr (by decide))) ▸
    ((execute_client_response_packet_routing routingEnv
      (initialize_mbcp_lookup_map sampleOpcodeValue staticTables).response_handlers
      (freshCookie (headerOnly 0x18 255)) (headerOnly 0x18 255)).1 (by decide)).2.1⟩

/-- C12: for every server opcode, known or not, `execute_server_response_packet`
sets the connection state to `new_cmd` and does nothing else, except that it
hands the packet to the external authentication manager when, and only when,
the opcode is `Authenticate`.  So it never sets `closing` and sends no
response, and `execute_response_packet` takes this path for the magic
`ServerResponse` without raising an error. -/
theorem execute_server_response_packet_permissive (env : Env)
    (response_handlers : HandlerTable) (cookie : Cookie) (response : List Nat) :
    (execute_server_response_packet env cookie response).connection.state = State.new_cmd ∧
    (execute_server_response_packet env cookie response).connection.log =
      cookie.connection.log ++
        (Effect.setState State.new_cmd ::
          (if env.daemon.serverOpcodeOf (getOpcode response) = ServerOpcode.Authenticate then
            [Effect.externalAuthManager_responseReceived]
          else [])) ∧
    (∀ e ∈ (Effect.setState State.new_cmd ::
          (if env.daemon.serverOpcodeOf (getOpcode response) = ServerOpcode.Authenticate then
            [Effect.externalAuthManager_responseReceived]
          else [])),
      e ≠ Effect.setState State.closing ∧ e.isResponse = false) ∧
    (env.daemon.magicOf (getMagic response) = Magic.ServerResponse →
      execute_response_packet env response_handlers cookie response =
        { cookie := execute_server_response_packet env cookie response, calls := [],
          thrown := none }) := by
  refine ⟨?_, ?_, ?_, ?_⟩
  · unfold execute_server_response_packet
    cases env.daemon.serverOpcodeOf (getOpcode response) <;> rfl
  · unfold execute_server_response_packet
    cases env.daemon.serverOpcodeOf (getOpcode response) <;>
      simp [Cookie.setState, Connection.setState, Cookie.record, Connection.record]
  · intro e he
    by_cases hop : env.daemon.serverOpcodeOf (getOpcode response) = ServerOpcode.Authenticate
    · simp only [hop, if_true, List.mem_cons, List.mem_singleton, List.not_mem_nil,
        or_false] at he
      rcases he with rfl | rfl <;> exact ⟨by decide, rfl⟩
    · simp only [hop, if_false, List.mem_cons, List.not_mem_nil, or_false] at he
      subst he
      exact ⟨by decide, rfl⟩
  · intro hm
    unfold execute_response_packet
    simp only [hm]

/-- Witness of C12 (scenario C): a server response with the opcode of the
cluster-map change notification only sets state `new_cmd`; one with the
opcode `Authenticate` is also handed to the external authentication manager;
one with an unknown opcode is ignored in the same way as the first. -/
theorem execute_server_response_packet_permissive_witness :
    (execute_response_packet routingEnv staticTables.response_handlers
      (freshCookie (headerOnly 0x83 1)) (headerOnly 0x83 1)).cookie.connection.log
        = [Effect.setState State.new_cmd] ∧
    (execute_response_packet routingEnv staticTables.response_handlers
      (freshCookie (headerOnly 0x83 2)) (headerOnly 0x83 2)).cookie.connection.log
        = [Effect.setState State.new_cmd, Effect.externalAuthManager_responseReceived] ∧
    (execute_response_packet routingEnv staticTables.response_handlers
      (freshCookie (headerOnly 0x83 200)) (headerOnly 0x83 200)).cookie.connection.log
        = [Effect.setState State.new_cmd] :=
  ⟨by decide, by decide,
   ((execute_server_response_packet_permissive routingEnv staticTables.response_handlers
      (freshCookie (headerOnly 0x83 200)) (headerOnly 0x83 200)).2.2.2 (by decide)) ▸
    (execute_server_response_packet_permissive routingEnv staticTables.response_handlers
      (freshCookie (headerOnly 0x83 200)) (headerOnly 0x83 200)).2.1⟩

/-- A thrown exception leaves the cookie of `execute_client_request_packet`
as it was. -/
lemma execute_client_request_packet_thrown (env : Env) (handlers : HandlerTable)
    (cookie : Cookie) (request : List Nat)
    (h : (execute_client_request_packet env handlers cookie request).thrown ≠ none) :
    (execute_client_request_packet env handlers cookie request).cookie = cookie := by
  unfold execute_client_request_packet at h ⊢
  cases hv : env.invoke (getOpcode request) cookie with
  | Ok =>
    cases hh : handlers (getOpcode request) with
    | none => simp only [hv, hh]
    | some f => simp [hv, hh] at h
  | Fail => simp only [hv] at h; split at h <;> simp at h
  | Stale => simp only [hv] at h; split at h <;> simp at h
  | invalid raw => simp [hv] at h

/-- C13: the two routers classify the six magic values.  `execute_request_packet`
is `execute_client_request_packet` for `ClientRequest` and `AltClientRequest`,
throws the "not (yet) supported" `std::runtime_error` for `ServerRequest` and
the "not a request" `std::logic_error` for the three response magics.
`execute_response_packet` is `execute_client_response_packet` for
`ClientResponse` and `AltClientResponse`, `execute_server_response_packet` for
`ServerResponse`, and throws the "not a response" `std::logic_error` for the
three request magics.  Each of these errors is thrown with the cookie
untouched and no call made, and whenever either router throws, the cookie
(and with it the connection state) is what it was on entry. -/
theorem routers_classify_magic (env : Env) (handlers response_handlers : HandlerTable)
    (cookie : Cookie) (packet : List Nat) :
    (env.daemon.magicOf (getMagic packet) = Magic.ClientRequest ∨
      env.daemon.magicOf (getMagic packet) = Magic.AltClientRequest →
      execute_request_packet env handlers cookie packet =
        execute_client_request_packet env handlers cookie packet) ∧
    (env.daemon.magicOf (getMagic packet) = Magic.ServerRequest →
      execute_request_packet env handlers cookie packet =
        { cookie := cookie, calls := [],
          thrown := some (Exception.runtime_error
            "execute_request_packet: processing server requests is not (yet) supported") }) ∧
    (env.daemon.magicOf (getMagic packet) = Magic.ClientResponse ∨
      env.daemon.magicOf (getMagic packet) = Magic.AltClientResponse ∨
      env.daemon.magicOf (getMagic packet) = Magic.ServerResponse →
      execute_request_packet env handlers cookie packet =
        { cookie := cookie, calls := [],
          thrown := some (Exception.logic_error
            "execute_request_packet: provided packet is not a request") }) ∧
    (env.daemon.magicOf (getMagic packet) = Magic.ClientResponse ∨
      env.daemon.magicOf (getMagic packet) = Magic.AltClientResponse →
      execute_response_packet env response_handlers cookie packet =
        execute_client_response_packet env response_handlers cookie packet) ∧
    (env.daemon.magicOf (getMagic packet) = Magic.ServerResponse →
      execute_response_packet env response_handlers cookie packet =
        { cookie := execute_server_response_packet env cookie packet, calls := [],
          thrown := none }) ∧
    (env.daemon.magicOf (getMagic packet) = Magic.ClientRequest ∨
      env.daemon.magicOf (getMagic packet) = Magic.AltClientRequest ∨
      env.daemon.magicOf (getMagic packet) = Magic.ServerRequest →
      execute_response_packet env response_handlers cookie packet =
        { cookie := cookie, calls := [],
          thrown := some (Exception.logic_error
            "execute_response_packet: provided packet is not a response") }) ∧
    ((execute_request_packet env handlers cookie packet).thrown ≠ none →
      (execute_request_packet env handlers cookie packet).cookie = cookie) ∧
    ((execute_response_packet env response_handlers cookie packet).thrown ≠ none →
      (execute_response_packet env response_handlers cookie packet).cookie = cookie ∧
      (execute_response_packet env response_handlers cookie packet).calls = []) := by
  refine ⟨?_, ?_, ?_, ?_, ?_, ?_, ?_, ?_⟩
  · intro hm
    unfold execute_request_packet
    rcases hm with hm | hm <;> simp only [hm]
  · intro hm
    unfold execute_request_packet
    simp only [hm]
  · intro hm
    unfold execute_request_packet
    rcases hm with hm | hm | hm <;> simp only [hm]
  · intro hm
    unfold execute_response_packet
    rcases hm with hm | hm <;> simp only [hm]
  · intro hm
    unfold execute_response_packet
    simp only [hm]
  · intro hm
    unfold execute_response_packet
    rcases hm with hm | hm | hm <;> simp only [hm]
  · intro ht
    unfold execute_request_packet at ht ⊢
    cases hm : env.daemon.magicOf (getMagic packet) <;> simp only [hm] at ht ⊢
    · exact execute_client_request_packet_thrown env handlers cookie packet ht
    · exact execute_client_request_packet_thrown env handlers cookie packet ht
  · intro ht
    unfold execute_response_packet at ht ⊢
    cases hm : env.daemon.magicOf (getMagic packet) <;> simp only [hm] at ht ⊢ <;>
      first
        | exact ⟨trivial, trivial⟩
        | exact ⟨rfl, rfl⟩
        | (exfalso
           unfold execute_client_response_packet at ht
           cases hh : response_handlers (getOpcode packet) <;> simp [hh] at ht)
        | simp at ht

/-- Witness of C13: the six magic bytes through both routers.  A server
request is refused by both, each with its own error; a client response is not
a request, a client request is not a response; in each case the connection
state and the log are untouched. -/
theorem routers_classify_magic_witness :
    (execute_request_packet routingEnv staticTables.handlers
      (freshCookie (headerOnly 0x82 0)) (headerOnly 0x82 0)) =
      { cookie := freshCookie (headerOnly 0x82 0), calls := [],
        thrown := some (Exception.runtime_error
          "execute_request_packet: processing server requests is not (yet) supported") } ∧
    (execute_request_packet routingEnv staticTables.handlers
      (freshCookie (headerOnly 0x81 0)) (headerOnly 0x81 0)) =
      { cookie := freshCookie (headerOnly 0x81 0), calls := [],
        thrown := some (Exception.logic_error
          "execute_request_packet: provided packet is not a request") } ∧
    (execute_response_packet routingEnv staticTables.response_handlers
      (freshCookie (headerOnly 0x80 0)) (headerOnly 0x80 0)) =
      { cookie := freshCookie (headerOnly 0x80 0), calls := [],
        thrown := some (Exception.logic_error
          "execute_response_packet: provided packet is not a response") } ∧
    (execute_request_packet routingEnv
      (initialize_mbcp_lookup_map sampleOpcodeValue staticTables).handlers
      (freshCookie (headerOnly 0x08 0)) (headerOnly 0x08 0)).calls =
      [Call.privilegeCheck 0, Call.handlers 0] :=
  ⟨(routers_classify_magic routingEnv staticTables.handlers staticTables.response_handlers
      (freshCookie (headerOnly 0x82 0)) (headerOnly 0x82 0)).2.1 (by decide),
   (routers_classify_magic routingEnv staticTables.handlers staticTables.response_handlers
      (freshCookie (headerOnly 0x81 0)) (headerOnly 0x81 0)).2.2.1 (Or.inl (by decide)),
   (routers_classify_magic routingEnv staticTables.handlers staticTables.response_handlers
      (freshCookie (headerOnly 0x80 0)) (headerOnly 0x80 0)).2.2.2.2.2.1 (Or.inl (by decide)),
   by decide⟩

/-! ### The one-shot handlers -/

/-- C14, the claim as stated fails: `quit_executor` sends a response and closes
the connection, both. -/
theorem quit_executor_responds_and_closes :
    Handler.quit_executor ∈ oneShotHandlers ∧
    (Handler.quit_executor.run routingEnv (freshCookie (headerOnly 0x80 7))).connection.log
      = [Effect.sendResponse Status.Success, Effect.setWriteAndGo State.closing] ∧
    responseCount (effectsSince (freshCookie (headerOnly 0x80 7))
      (Handler.quit_executor.run routingEnv (freshCookie (headerOnly 0x80 7)))) = 1 ∧
    closeCount (effectsSince (freshCookie (headerOnly 0x80 7))
      (Handler.quit_executor.run routingEnv (freshCookie (headerOnly 0x80 7)))) = 1 := by
  decide

/-- C14, amended: every one-shot handler that makes no engine call only appends
to the log.  `quit_executor` sends one `Success` response and then tells the
connection to go to `closing` once the response is written.  Each of the
other sixteen ends in exactly one of two ways: one response, no close and the
connection state as it was; or no response and the connection state
`closing`. -/
theorem one_shot_handlers_outcome (env : Env) (cookie : Cookie) (h : Handler)
    (hmem : h ∈ oneShotHandlers) :
    cookie.connection.log <+: (h.run env cookie).connection.log ∧
    (h = Handler.quit_executor →
      effectsSince cookie (h.run env cookie)
        = [Effect.sendResponse Status.Success, Effect.setWriteAndGo State.closing]) ∧
    (h ≠ Handler.quit_executor →
      (responseCount (effectsSince cookie (h.run env cookie)) = 1 ∧
        closeCount (effectsSince cookie (h.run env cookie)) = 0 ∧
        (h.run env cookie).connection.state = cookie.connection.state) ∨
      (responseCount (effectsSince cookie (h.run env cookie)) = 0 ∧
        (h.run env cookie).connection.state = State.closing)) := by
  simp only [oneShotHandlers, List.mem_cons, List.mem_singleton, List.not_mem_nil,
    or_false] at hmem
  rcases hmem with rfl | rfl | rfl | rfl | rfl | rfl | rfl | rfl | rfl | rfl | rfl | rfl |
    rfl | rfl | rfl | rfl | rfl
  all_goals
    simp only [Handler.run, ssl_certs_refresh_executor, verbosity_executor, version_executor,
      quit_executor, quitq_executor, sasl_list_mech_executor, noop_executor,
      set_ctrl_token_executor, get_ctrl_token_executor, config_validate_executor,
      config_reload_executor, audit_put_executor, get_errmap_executor, shutdown_executor,
      update_user_permissions_executor, auth_provider_executor, no_support_executor]
    repeat' split
    all_goals
      simp [effectsSince, responseCount, closeCount, Effect.isResponse, Effect.isClose,
        Cookie.sendResponse, Cookie.sendResponseWith, Cookie.record, Connection.record,
        Cookie.setState, Connection.setState, Cookie.setWriteAndGo, Cookie.setErrorContext,
        Cookie.setCas, List.filter]

/-- Witness of C14 (amended): `noop_executor` ends with one response on an open
connection, `quitq_executor` with a closed connection and no response, and
`quit_executor` with both. -/
theorem one_shot_handlers_outcome_witness :
    Handler.noop_executor ∈ oneShotHandlers ∧
    (Handler.noop_executor.run routingEnv (freshCookie (headerOnly 0x80 10))).connection.log
      = [Effect.sendResponse Status.Success] ∧
    ((responseCount (effectsSince (freshCookie (headerOnly 0x80 7))
        (Handler.quitq_executor.run routingEnv (freshCookie (headerOnly 0x80 7)))) = 1 ∧
      closeCount (effectsSince (freshCookie (headerOnly 0x80 7))
        (Handler.quitq_executor.run routingEnv (freshCookie (headerOnly 0x80 7)))) = 0 ∧
      (Handler.quitq_executor.run routingEnv (freshCookie (headerOnly 0x80 7))).connection.state
        = (freshCookie (headerOnly 0x80 7)).connection.state) ∨
     (responseCount (effectsSince (freshCookie (headerOnly 0x80 7))
        (Handler.quitq_executor.run routingEnv (freshCookie (headerOnly 0x80 7)))) = 0 ∧
      (Handler.quitq_executor.run routingEnv (freshCookie (headerOnly 0x80 7))).connection.state
        = State.closing)) ∧
    effectsSince (freshCookie (headerOnly 0x80 7))
      (Handler.quit_executor.run routingEnv (freshCookie (headerOnly 0x80 7)))
        = [Effect.sendResponse Status.Success, Effect.setWriteAndGo State.closing] :=
  ⟨by decide, by decide,
   (one_shot_handlers_outcome routingEnv (freshCookie (headerOnly 0x80 7))
      Handler.quitq_executor (by decide)).2.2 (by decide),
   (one_shot_handlers_outcome routingEnv (freshCookie (headerOnly 0x80 7))
      Handler.quit_executor (by decide)).2.1 rfl⟩

/-! ### Handlers that act on an engine status -/

lemma effectsSince_of_log (before after : Cookie) (delta : List Effect)
    (h : after.connection.log = before.connection.log ++ delta) :
    effectsSince before after = delta := by
  unfold effectsSince
  rw [h, List.drop_left]

/-- The run of `ioctl_get_executor`, by the remapped status. -/
lemma ioctl_get_executor_cases (env : Env) (cookie : Cookie) :
    (ioctl_get_executor env cookie).aiostat = ENGINE_ERROR_CODE.ENGINE_SUCCESS ∧
    (env.remapErrorCode (ioctlGetRaw env cookie) = ENGINE_ERROR_CODE.ENGINE_SUCCESS →
      (ioctl_get_executor env cookie).connection.state = cookie.connection.state ∧
      (ioctl_get_executor env cookie).ewouldblock = cookie.ewouldblock ∧
      (ioctl_get_executor env cookie).connection.log = cookie.connection.log ++
        (engineCallLog cookie Effect.ioctl_get_property ++
          [Effect.sendResponseWith Status.Success [] [] (ioctlGetValue env cookie)
            Datatype.Raw 0])) ∧
    (env.remapErrorCode (ioctlGetRaw env cookie) = ENGINE_ERROR_CODE.ENGINE_EWOULDBLOCK →
      (ioctl_get_executor env cookie).connection.state = cookie.connection.state ∧
      (ioctl_get_executor env cookie).ewouldblock = true ∧
      (ioctl_get_executor env cookie).connection.log = cookie.connection.log ++
        (engineCallLog cookie Effect.ioctl_get_property ++ [Effect.setEwouldblock true])) ∧
    (env.remapErrorCode (ioctlGetRaw env cookie) = ENGINE_ERROR_CODE.ENGINE_DISCONNECT →
      (ioctl_get_executor env cookie).connection.state = State.closing ∧
      (ioctl_get_executor env cookie).ewouldblock = cookie.ewouldblock ∧
      (ioctl_get_executor env cookie).connection.log = cookie.connection.log ++
        (engineCallLog cookie Effect.ioctl_get_property ++ [Effect.setState State.closing])) ∧
    (env.remapErrorCode (ioctlGetRaw env cookie) ≠ ENGINE_ERROR_CODE.ENGINE_SUCCESS →
      env.remapErrorCode (ioctlGetRaw env cookie) ≠ ENGINE_ERROR_CODE.ENGINE_EWOULDBLOCK →
      env.remapErrorCode (ioctlGetRaw env cookie) ≠ ENGINE_ERROR_CODE.ENGINE_DISCONNECT →
      (ioctl_get_executor env cookie).connection.state = cookie.connection.state ∧
      (ioctl_get_executor env cookie).ewouldblock = cookie.ewouldblock ∧
      (ioctl_get_executor env cookie).connection.log = cookie.connection.log ++
        (engineCallLog cookie Effect.ioctl_get_property ++
          [Effect.sendResponse (env.to_status (env.remapErrorCode (ioctlGetRaw env cookie)))])) := by
  unfold ioctl_get_executor ioctlGetRaw ioctlGetValue engineCallLog
  simp only [Cookie.swapAiostat]
  by_cases ha : cookie.aiostat = ENGINE_ERROR_CODE.ENGINE_SUCCESS
  · simp only [ha, if_true]
    generalize env.daemon.ioctl_get_property _ = r
    cases hs : env.remapErrorCode r.1 <;>
      simp [hs, Cookie.record, Connection.record, Cookie.setState, Connection.setState,
        Cookie.setEwouldblock, Cookie.sendResponse, Cookie.sendResponseWith]
  · simp only [ha, if_false]
    cases hs : env.remapErrorCode cookie.aiostat <;>
      simp [hs, Cookie.record, Connection.record, Cookie.setState, Connection.setState,
        Cookie.setEwouldblock, Cookie.sendResponse, Cookie.sendResponseWith]

/-- The run of `ioctl_set_executor`, by the remapped status. -/
lemma ioctl_set_executor_cases (env : Env) (cookie : Cookie) :
    (ioctl_set_executor env cookie).aiostat = ENGINE_ERROR_CODE.ENGINE_SUCCESS ∧
    (env.remapErrorCode (ioctlSetRaw env cookie) = ENGINE_ERROR_CODE.ENGINE_EWOULDBLOCK →
      (ioctl_set_executor env cookie).connection.state = cookie.connection.state ∧
      (ioctl_set_executor env cookie).ewouldblock = true ∧
      (ioctl_set_executor env cookie).connection.log = cookie.connection.log ++
        (engineCallLog cookie Effect.ioctl_set_property ++ [Effect.setEwouldblock true])) ∧
    (env.remapErrorCode (ioctlSetRaw env cookie) = ENGINE_ERROR_CODE.ENGINE_DISCONNECT →
      (ioctl_set_executor env cookie).connection.state = State.closing ∧
      (ioctl_set_executor env cookie).ewouldblock = cookie.ewouldblock ∧
      (ioctl_set_executor env cookie).connection.log = cookie.connection.log ++
        (engineCallLog cookie Effect.ioctl_set_property ++ [Effect.setState State.closing])) ∧
    (env.remapErrorCode (ioctlSetRaw env cookie) ≠ ENGINE_ERROR_CODE.ENGINE_EWOULDBLOCK →
      env.remapErrorCode (ioctlSetRaw env cookie) ≠ ENGINE_ERROR_CODE.ENGINE_DISCONNECT →
      (ioctl_set_executor env cookie).connection.state = cookie.connection.state ∧
      (ioctl_set_executor env cookie).ewouldblock = cookie.ewouldblock ∧
      (ioctl_set_executor env cookie).connection.log = cookie.connection.log ++
        (engineCallLog cookie Effect.ioctl_set_property ++
          [Effect.sendResponse (env.to_status (env.remapErrorCode (ioctlSetRaw env cookie)))])) := by
  unfold ioctl_set_executor ioctlSetRaw engineCallLog
  simp only [Cookie.swapAiostat]
  by_cases ha : cookie.aiostat = ENGINE_ERROR_CODE.ENGINE_SUCCESS
  · simp only [ha, if_true]
    generalize env.daemon.ioctl_set_property _ = r
    cases hs : env.remapErrorCode r <;>
      simp [hs, Cookie.record, Connection.record, Cookie.setState, Connection.setState,
        Cookie.setEwouldblock, Cookie.sendResponse]
  · simp only [ha, if_false]
    cases hs : env.remapErrorCode cookie.aiostat <;>
      simp [hs, Cookie.record, Connection.record, Cookie.setState, Connection.setState,
        Cookie.setEwouldblock, Cookie.sendResponse]

/-- The run of `process_bin_dcp_response`: without a DCP interface, with a
status remapped to disconnect, and with any other status. -/
lemma process_bin_dcp_response_cases (env : Env) (cookie : Cookie) :
    (env.daemon.hasDcpIface (dcpCookie cookie).connection = false →
      (process_bin_dcp_response env cookie).connection.state = State.closing ∧
      (process_bin_dcp_response env cookie).connection.log = cookie.connection.log ++
        [Effect.enableDatatype Datatype.JSON, Effect.setState State.closing]) ∧
    (env.daemon.hasDcpIface (dcpCookie cookie).connection = true →
      (env.remapErrorCode (dcpResponseRaw env cookie) = ENGINE_ERROR_CODE.ENGINE_DISCONNECT →
        (process_bin_dcp_response env cookie).connection.state = State.closing ∧
        (process_bin_dcp_response env cookie).connection.log = cookie.connection.log ++
          [Effect.enableDatatype Datatype.JSON, Effect.dcp_response_handler,
           Effect.setState State.closing]) ∧
      (env.remapErrorCode (dcpResponseRaw env cookie) ≠ ENGINE_ERROR_CODE.ENGINE_DISCONNECT →
        (process_bin_dcp_response env cookie).connection.state = State.ship_log ∧
        (process_bin_dcp_response env cookie).connection.log = cookie.connection.log ++
          [Effect.enableDatatype Datatype.JSON, Effect.dcp_response_handler,
           Effect.setState State.ship_log])) := by
  unfold process_bin_dcp_response dcpResponseRaw dcpCookie
  refine ⟨?_, ?_⟩
  · intro hno
    simp only [Cookie.record, Connection.record] at hno
    simp [hno, Cookie.record, Connection.record, Cookie.setState, Connection.setState]
  · intro hyes
    simp only [Cookie.record, Connection.record] at hyes
    refine ⟨?_, ?_⟩ <;> intro hs <;> simp only [Cookie.record, Connection.record] at hs <;>
      simp [hyes, hs, Cookie.record, Connection.record, Cookie.setState, Connection.setState]

/-- The run of `dcp_get_failover_log_executor`. -/
lemma dcp_get_failover_log_executor_cases (env : Env) (cookie : Cookie) :
    (dcp_get_failover_log_executor env cookie).aiostat = ENGINE_ERROR_CODE.ENGINE_SUCCESS ∧
    (dcp_get_failover_log_executor env cookie).connection.log = cookie.connection.log ++
      (engineCallLog cookie Effect.dcpGetFailoverLog ++
        (if failoverLogRaw env cookie ≠ ENGINE_ERROR_CODE.ENGINE_SUCCESS then
          [Effect.handle_executor_status (failoverLogRaw env cookie)]
        else [])) := by
  unfold dcp_get_failover_log_executor failoverLogRaw engineCallLog
  simp only [Cookie.swapAiostat]
  by_cases ha : cookie.aiostat = ENGINE_ERROR_CODE.ENGINE_SUCCESS
  · simp only [ha, if_true]
    generalize env.daemon.dcpGetFailoverLog _ = r
    by_cases hr : r = ENGINE_ERROR_CODE.ENGINE_SUCCESS <;>
      simp [hr, handle_executor_status, Cookie.record, Connection.record]
  · simp [ha, handle_executor_status, Cookie.record, Connection.record]

lemma process_bin_unknown_packet_aiostat (env : Env) (cookie : Cookie) :
    (process_bin_unknown_packet env cookie).aiostat = ENGINE_ERROR_CODE.ENGINE_SUCCESS := by
  unfold process_bin_unknown_packet
  simp only [Cookie.swapAiostat]
  by_cases ha : cookie.aiostat = ENGINE_ERROR_CODE.ENGINE_SUCCESS
  · simp only [ha, if_true]
    generalize env.bucket_unknown_command _ = r
    cases hs : env.remapErrorCode r.1 <;> cases hb : r.2 <;>
      simp [hs, hb, update_topkeys, Cookie.sendDynamicBuffer, Cookie.record, Connection.record,
        Cookie.setState, Connection.setState, Cookie.setEwouldblock, Cookie.clearDynamicBuffer,
        Cookie.sendResponse]
  · simp only [ha, if_false]
    cases hs : env.remapErrorCode cookie.aiostat <;> cases hb : cookie.dynamicBuffer <;>
      simp [hs, hb, update_topkeys, Cookie.sendDynamicBuffer, Cookie.record, Connection.record,
        Cookie.setState, Connection.setState, Cookie.setEwouldblock, Cookie.clearDynamicBuffer,
        Cookie.sendResponse]

/-- C15: with `m` the remapped status of the pass and the wire mapping of
success being `Success`, `ioctl_get_executor` and `ioctl_set_executor` do
exactly one thing per pass, after the engine call if there was one.  For
`m = success` they send one `Success` response (`ioctl_get` with the property
value, raw datatype, CAS 0); for `m = would-block` they set the would-block
flag and leave the connection state alone; for `m = disconnect` they set the
state `closing`; for every other `m` they send one response with the wire
status of `m`. -/
theorem ioctl_executors_classify (env : Env) (cookie : Cookie)
    (hwire : env.to_status ENGINE_ERROR_CODE.ENGINE_SUCCESS = Status.Success) :
    ((env.remapErrorCode (ioctlGetRaw env cookie) = ENGINE_ERROR_CODE.ENGINE_SUCCESS →
        (ioctl_get_executor env cookie).connection.state = cookie.connection.state ∧
        (ioctl_get_executor env cookie).ewouldblock = cookie.ewouldblock ∧
        (ioctl_get_executor env cookie).connection.log = cookie.connection.log ++
          (engineCallLog cookie Effect.ioctl_get_property ++
            [Effect.sendResponseWith Status.Success [] [] (ioctlGetValue env cookie)
              Datatype.Raw 0])) ∧
      (env.remapErrorCode (ioctlGetRaw env cookie) = ENGINE_ERROR_CODE.ENGINE_EWOULDBLOCK →
        (ioctl_get_executor env cookie).connection.state = cookie.connection.state ∧
        (ioctl_get_executor env cookie).ewouldblock = true ∧
        (ioctl_get_executor env cookie).connection.log = cookie.connection.log ++
          (engineCallLog cookie Effect.ioctl_get_property ++ [Effect.setEwouldblock true])) ∧
      (env.remapErrorCode (ioctlGetRaw env cookie) = ENGINE_ERROR_CODE.ENGINE_DISCONNECT →
        (ioctl_get_executor env cookie).connection.state = State.closing ∧
        (ioctl_get_executor env cookie).ewouldblock = cookie.ewouldblock ∧
        (ioctl_get_executor env cookie).connection.log = cookie.connection.log ++
          (engineCallLog cookie Effect.ioctl_get_property ++
            [Effect.setState State.closing])) ∧
      (env.remapErrorCode (ioctlGetRaw env cookie) ≠ ENGINE_ERROR_CODE.ENGINE_SUCCESS →
        env.remapErrorCode (ioctlGetRaw env cookie) ≠ ENGINE_ERROR_CODE.ENGINE_EWOULDBLOCK →
        env.remapErrorCode (ioctlGetRaw env cookie) ≠ ENGINE_ERROR_CODE.ENGINE_DISCONNECT →
        (ioctl_get_executor env cookie).connection.state = cookie.connection.state ∧
        (ioctl_get_executor env cookie).ewouldblock = cookie.ewouldblock ∧
        (ioctl_get_executor env cookie).connection.log = cookie.connection.log ++
          (engineCallLog cookie Effect.ioctl_get_property ++
            [Effect.sendResponse
              (env.to_status (env.remapErrorCode (ioctlGetRaw env cookie)))]))) ∧
    ((env.remapErrorCode (ioctlSetRaw env cookie) = ENGINE_ERROR_CODE.ENGINE_SUCCESS →
        (ioctl_set_executor env cookie).connection.state = cookie.connection.state ∧
        (ioctl_set_executor env cookie).ewouldblock = cookie.ewouldblock ∧
        (ioctl_set_executor env cookie).connection.log = cookie.connection.log ++
          (engineCallLog cookie Effect.ioctl_set_property ++
            [Effect.sendResponse Status.Success])) ∧
      (env.remapErrorCode (ioctlSetRaw env cookie) = ENGINE_ERROR_CODE.ENGINE_EWOULDBLOCK →
        (ioctl_set_executor env cookie).connection.state = cookie.connection.state ∧
        (ioctl_set_executor env cookie).ewouldblock = true ∧
        (ioctl_set_executor env cookie).connection.log = cookie.connection.log ++
          (engineCallLog cookie Effect.ioctl_set_property ++ [Effect.setEwouldblock true])) ∧
      (env.remapErrorCode (ioctlSetRaw env cookie) = ENGINE_ERROR_CODE.ENGINE_DISCONNECT →
        (ioctl_set_executor env cookie).connection.state = State.closing ∧
        (ioctl_set_executor env cookie).ewouldblock = cookie.ewouldblock ∧
        (ioctl_set_executor env cookie).connection.log = cookie.connection.log ++
          (engineCallLog cookie Effect.ioctl_set_property ++
            [Effect.setState State.closing])) ∧
      (env.remapErrorCode (ioctlSetRaw env cookie) ≠ ENGINE_ERROR_CODE.ENGINE_SUCCESS →
        env.remapErrorCode (ioctlSetRaw env cookie) ≠ ENGINE_ERROR_CODE.ENGINE_EWOULDBLOCK →
        env.remapErrorCode (ioctlSetRaw env cookie) ≠ ENGINE_ERROR_CODE.ENGINE_DISCONNECT →
        (ioctl_set_executor env cookie).connection.state = cookie.connection.state ∧
        (ioctl_set_executor env cookie).ewouldblock = cookie.ewouldblock ∧
        (ioctl_set_executor env cookie).connection.log = cookie.connection.log ++
          (engineCallLog cookie Effect.ioctl_set_property ++
            [Effect.sendResponse
              (env.to_status (env.remapErrorCode (ioctlSetRaw env cookie)))]))) := by
  obtain ⟨_, g1, g2, g3, g4⟩ := ioctl_get_executor_cases env cookie
  obtain ⟨_, s2, s3, s4⟩ := ioctl_set_executor_cases env cookie
  refine ⟨⟨g1, g2, g3, g4⟩, ⟨?_, s2, s3, fun _ h2 h3 => s4 h2 h3⟩⟩
  intro hs
  have h := s4 (by rw [hs]; decide) (by rw [hs]; decide)
  rw [hs, hwire] at h
  exact h

/-- Witness of C15: under the sample wire mapping, a successful
`ioctl_get_property` gives one `Success` response with the value, a
successful `ioctl_set_property` one `Success` response, and a failed one a
response with the error status. -/
theorem ioctl_executors_classify_witness :
    (statusEnv id ENGINE_ERROR_CODE.ENGINE_SUCCESS).to_status ENGINE_ERROR_CODE.ENGINE_SUCCESS
      = Status.Success ∧
    (ioctl_get_executor (statusEnv id ENGINE_ERROR_CODE.ENGINE_SUCCESS)
      (freshCookie lockPacket)).connection.log =
        [Effect.ioctl_get_property,
         Effect.sendResponseWith Status.Success [] [] [0x31] Datatype.Raw 0] ∧
    (ioctl_set_executor (statusEnv id ENGINE_ERROR_CODE.ENGINE_SUCCESS)
      (freshCookie lockPacket)).connection.log =
        [Effect.ioctl_set_property, Effect.sendResponse Status.Success] ∧
    (ioctl_set_executor (statusEnv id ENGINE_ERROR_CODE.ENGINE_FAILED)
      (freshCookie lockPacket)).connection.log =
        [Effect.ioctl_set_property, Effect.sendResponse (Status.other 0x84)] :=
  ⟨by decide,
   ((ioctl_executors_classify (statusEnv id ENGINE_ERROR_CODE.ENGINE_SUCCESS)
      (freshCookie lockPacket) (by decide)).1.1 (by decide)).2.2,
   ((ioctl_executors_classify (statusEnv id ENGINE_ERROR_CODE.ENGINE_SUCCESS)
      (freshCookie lockPacket) (by decide)).2.1 (by decide)).2.2,
   ((ioctl_executors_classify (statusEnv id ENGINE_ERROR_CODE.ENGINE_FAILED)
      (freshCookie lockPacket) (by decide)).2.2.2.2 (by decide) (by decide) (by decide)).2.2⟩

/-- C16, the claim as stated fails: the DCP `response_handler` answers
`ENGINE_FAILED`, which is neither success nor would-block and is not remapped;
`process_bin_dcp_response` sends no response, does not close the connection
and carries on to `ship_log`. -/
theorem process_bin_dcp_response_drops_failure :
    dcpResponseRaw (statusEnv id ENGINE_ERROR_CODE.ENGINE_FAILED) (freshCookie lockPacket)
      = ENGINE_ERROR_CODE.ENGINE_FAILED ∧
    (process_bin_dcp_response (statusEnv id ENGINE_ERROR_CODE.ENGINE_FAILED)
      (freshCookie lockPacket)).connection.state = State.ship_log ∧
    (process_bin_dcp_response (statusEnv id ENGINE_ERROR_CODE.ENGINE_FAILED)
      (freshCookie lockPacket)).connection.log =
        [Effect.enableDatatype Datatype.JSON, Effect.dcp_response_handler,
         Effect.setState State.ship_log] ∧
    responseCount (process_bin_dcp_response (statusEnv id ENGINE_ERROR_CODE.ENGINE_FAILED)
      (freshCookie lockPacket)).connection.log = 0 := by
  decide

/-- C16, amended: `process_bin_dcp_response` sets the connection to `closing`
when there is no DCP interface or when the status of the DCP
`response_handler` is remapped to `ENGINE_DISCONNECT`; for every other status
(success, would-block or any error) it sends no response and sets the state
`ship_log`. -/
theorem process_bin_dcp_response_outcome (env : Env) (cookie : Cookie) :
    (env.daemon.hasDcpIface (dcpCookie cookie).connection = false →
      (process_bin_dcp_response env cookie).connection.state = State.closing ∧
      (process_bin_dcp_response env cookie).connection.log = cookie.connection.log ++
        [Effect.enableDatatype Datatype.JSON, Effect.setState State.closing]) ∧
    (env.daemon.hasDcpIface (dcpCookie cookie).connection = true →
      (env.remapErrorCode (dcpResponseRaw env cookie) = ENGINE_ERROR_CODE.ENGINE_DISCONNECT →
        (process_bin_dcp_response env cookie).connection.state = State.closing ∧
        (process_bin_dcp_response env cookie).connection.log = cookie.connection.log ++
          [Effect.enableDatatype Datatype.JSON, Effect.dcp_response_handler,
           Effect.setState State.closing]) ∧
      (env.remapErrorCode (dcpResponseRaw env cookie) ≠ ENGINE_ERROR_CODE.ENGINE_DISCONNECT →
        (process_bin_dcp_response env cookie).connection.state = State.ship_log ∧
        (process_bin_dcp_response env cookie).connection.log = cookie.connection.log ++
          [Effect.enableDatatype Datatype.JSON, Effect.dcp_response_handler,
           Effect.setState State.ship_log] ∧
        responseCount (effectsSince cookie (process_bin_dcp_response env cookie)) = 0)) := by
  obtain ⟨h1, h2⟩ := process_bin_dcp_response_cases env cookie
  refine ⟨h1, fun hyes => ⟨(h2 hyes).1, fun hs => ?_⟩⟩
  obtain ⟨hst, hlog⟩ := (h2 hyes).2 hs
  refine ⟨hst, hlog, ?_⟩
  rw [effectsSince_of_log _ _ _ hlog]
  rfl

/-- Witness of C16 (amended): a disconnect closes the connection; a disconnect
that the policy downgrades does not, and the pass goes on to `ship_log`. -/
theorem process_bin_dcp_response_outcome_witness :
    (process_bin_dcp_response (statusEnv id ENGINE_ERROR_CODE.ENGINE_DISCONNECT)
      (freshCookie lockPacket)).connection.state = State.closing ∧
    (process_bin_dcp_response
      (statusEnv remapDisconnectToFailed ENGINE_ERROR_CODE.ENGINE_DISCONNECT)
      (freshCookie lockPacket)).connection.state = State.ship_log :=
  ⟨(((process_bin_dcp_response_outcome (statusEnv id ENGINE_ERROR_CODE.ENGINE_DISCONNECT)
      (freshCookie lockPacket)).2 (by decide)).1 (by decide)).1,
   (((process_bin_dcp_response_outcome
      (statusEnv remapDisconnectToFailed ENGINE_ERROR_CODE.ENGINE_DISCONNECT)
      (freshCookie lockPacket)).2 (by decide)).2 (by decide)).1⟩

lemma mem_engineCallLog_append (cookie : Cookie) (call e : Effect) (l : List Effect)
    (hne : e ≠ call) : e ∈ engineCallLog cookie call ++ l ↔ e ∈ l := by
  unfold engineCallLog
  split <;> simp [hne]

lemma count_engineCallLog_append (cookie : Cookie) (call : Effect) (l : List Effect)
    (hl : call ∉ l) :
    (engineCallLog cookie call ++ l).count call
      = if cookie.aiostat = ENGINE_ERROR_CODE.ENGINE_SUCCESS then 1 else 0 := by
  unfold engineCallLog
  split <;> simp [List.count_eq_zero_of_not_mem hl]

/-- The effects of a pass of `process_bin_unknown_packet`: the engine call, if
it was made, and what the `switch` did. -/
lemma process_bin_unknown_packet_effects (env : Env) (cookie : Cookie) :
    ∃ l, effectsSince cookie (process_bin_unknown_packet env cookie)
        = engineCallLog cookie Effect.bucket_unknown_command ++ l ∧
      Effect.bucket_unknown_command ∉ l ∧
      (Effect.setState State.closing ∈ l ↔
        env.remapErrorCode (unknownPacketRaw env cookie) = ENGINE_ERROR_CODE.ENGINE_DISCONNECT) := by
  have hst : unknownPacketStatus env cookie = env.remapErrorCode (unknownPacketRaw env cookie) :=
    rfl
  rw [← hst]
  rcases process_bin_unknown_packet_cases env cookie with
    ⟨hs, ⟨_, _, hlog⟩ | ⟨_, _, hlog⟩⟩ | ⟨hs, _, hlog⟩ | ⟨hs, _, hlog⟩ | ⟨h1, h2, h3, _, hlog⟩
  all_goals
    refine ⟨_, effectsSince_of_log _ _ _ hlog, ?_, ?_⟩
  all_goals first
    | simp [hs]
    | simp [h3]

/-- The effects of a pass of `ioctl_get_executor`. -/
lemma ioctl_get_executor_effects (env : Env) (cookie : Cookie) :
    ∃ l, effectsSince cookie (ioctl_get_executor env cookie)
        = engineCallLog cookie Effect.ioctl_get_property ++ l ∧
      Effect.ioctl_get_property ∉ l ∧
      (Effect.setState State.closing ∈ l ↔
        env.remapErrorCode (ioctlGetRaw env cookie) = ENGINE_ERROR_CODE.ENGINE_DISCONNECT) := by
  obtain ⟨_, g1, g2, g3, g4⟩ := ioctl_get_executor_cases env cookie
  by_cases h1 : env.remapErrorCode (ioctlGetRaw env cookie) = ENGINE_ERROR_CODE.ENGINE_SUCCESS
  · exact ⟨_, effectsSince_of_log _ _ _ (g1 h1).2.2, by simp, by simp [h1]⟩
  by_cases h2 : env.remapErrorCode (ioctlGetRaw env cookie) = ENGINE_ERROR_CODE.ENGINE_EWOULDBLOCK
  · exact ⟨_, effectsSince_of_log _ _ _ (g2 h2).2.2, by simp, by simp [h2]⟩
  by_cases h3 : env.remapErrorCode (ioctlGetRaw env cookie) = ENGINE_ERROR_CODE.ENGINE_DISCONNECT
  · exact ⟨_, effectsSince_of_log _ _ _ (g3 h3).2.2, by simp, by simp [h3]⟩
  · exact ⟨_, effectsSince_of_log _ _ _ (g4 h1 h2 h3).2.2, by simp, by simp [h3]⟩

/-- The effects of a pass of `ioctl_set_executor`. -/
lemma ioctl_set_executor_effects (env : Env) (cookie : Cookie) :
    ∃ l, effectsSince cookie (ioctl_set_executor env cookie)
        = engineCallLog cookie Effect.ioctl_set_property ++ l ∧
      Effect.ioctl_set_property ∉ l ∧
      (Effect.setState State.closing ∈ l ↔
        env.remapErrorCode (ioctlSetRaw env cookie) = ENGINE_ERROR_CODE.ENGINE_DISCONNECT) := by
  obtain ⟨_, s2, s3, s4⟩ := ioctl_set_executor_cases env cookie
  by_cases h2 : env.remapErrorCode (ioctlSetRaw env cookie) = ENGINE_ERROR_CODE.ENGINE_EWOULDBLOCK
  · exact ⟨_, effectsSince_of_log _ _ _ (s2 h2).2.2, by simp, by simp [h2]⟩
  by_cases h3 : env.remapErrorCode (ioctlSetRaw env cookie) = ENGINE_ERROR_CODE.ENGINE_DISCONNECT
  · exact ⟨_, effectsSince_of_log _ _ _ (s3 h3).2.2, by simp, by simp [h3]⟩
  · exact ⟨_, effectsSince_of_log _ _ _ (s4 h2 h3).2.2, by simp, by simp [h3]⟩

/-- C17: the four handlers that act on an engine status decide on the value
`remapErrorCode` returns.  A pass of `process_bin_unknown_packet`,
`ioctl_get_executor` or `ioctl_set_executor` sets the connection to `closing`
if and only if the remapped status is `ENGINE_DISCONNECT`, and so does
`process_bin_dcp_response` when it has a DCP interface to call.  Hence when
the policy remaps `ENGINE_DISCONNECT` to another code, a raw
`ENGINE_DISCONNECT` does not close the connection in any of the four. -/
theorem engine_status_handlers_use_remapped (env : Env) (cookie : Cookie) :
    ((Effect.setState State.closing ∈ effectsSince cookie (process_bin_unknown_packet env cookie) ↔
        env.remapErrorCode (unknownPacketRaw env cookie) = ENGINE_ERROR_CODE.ENGINE_DISCONNECT) ∧
      (Effect.setState State.closing ∈ effectsSince cookie (ioctl_get_executor env cookie) ↔
        env.remapErrorCode (ioctlGetRaw env cookie) = ENGINE_ERROR_CODE.ENGINE_DISCONNECT) ∧
      (Effect.setState State.closing ∈ effectsSince cookie (ioctl_set_executor env cookie) ↔
        env.remapErrorCode (ioctlSetRaw env cookie) = ENGINE_ERROR_CODE.ENGINE_DISCONNECT) ∧
      (env.daemon.hasDcpIface (dcpCookie cookie).connection = true →
        (Effect.setState State.closing ∈
            effectsSince cookie (process_bin_dcp_response env cookie) ↔
          env.remapErrorCode (dcpResponseRaw env cookie)
            = ENGINE_ERROR_CODE.ENGINE_DISCONNECT))) ∧
    (env.remapErrorCode ENGINE_ERROR_CODE.ENGINE_DISCONNECT ≠ ENGINE_ERROR_CODE.ENGINE_DISCONNECT →
      (unknownPacketRaw env cookie = ENGINE_ERROR_CODE.ENGINE_DISCONNECT →
        Effect.setState State.closing ∉
          effectsSince cookie (process_bin_unknown_packet env cookie)) ∧
      (ioctlGetRaw env cookie = ENGINE_ERROR_CODE.ENGINE_DISCONNECT →
        Effect.setState State.closing ∉ effectsSince cookie (ioctl_get_executor env cookie)) ∧
      (ioctlSetRaw env cookie = ENGINE_ERROR_CODE.ENGINE_DISCONNECT →
        Effect.setState State.closing ∉ effectsSince cookie (ioctl_set_executor env cookie)) ∧
      (env.daemon.hasDcpIface (dcpCookie cookie).connection = true →
        dcpResponseRaw env cookie = ENGINE_ERROR_CODE.ENGINE_DISCONNECT →
        Effect.setState State.closing ∉
          effectsSince cookie (process_bin_dcp_response env cookie))) := by
  have hu : Effect.setState State.closing ∈
      effectsSince cookie (process_bin_unknown_packet env cookie) ↔
      env.remapErrorCode (unknownPacketRaw env cookie) = ENGINE_ERROR_CODE.ENGINE_DISCONNECT := by
    obtain ⟨l, hl, _, hiff⟩ := process_bin_unknown_packet_effects env cookie
    rw [hl, mem_engineCallLog_append _ _ _ _ (by decide)]
    exact hiff
  have hg : Effect.setState State.closing ∈ effectsSince cookie (ioctl_get_executor env cookie) ↔
      env.remapErrorCode (ioctlGetRaw env cookie) = ENGINE_ERROR_CODE.ENGINE_DISCONNECT := by
    obtain ⟨l, hl, _, hiff⟩ := ioctl_get_executor_effects env cookie
    rw [hl, mem_engineCallLog_append _ _ _ _ (by decide)]
    exact hiff
  have hs : Effect.setState State.closing ∈ effectsSince cookie (ioctl_set_executor env cookie) ↔
      env.remapErrorCode (ioctlSetRaw env cookie) = ENGINE_ERROR_CODE.ENGINE_DISCONNECT := by
    obtain ⟨l, hl, _, hiff⟩ := ioctl_set_executor_effects env cookie
    rw [hl, mem_engineCallLog_append _ _ _ _ (by decide)]
    exact hiff
  have hd : env.daemon.hasDcpIface (dcpCookie cookie).connection = true →
      (Effect.setState State.closing ∈ effectsSince cookie (process_bin_dcp_response env cookie) ↔
        env.remapErrorCode (dcpResponseRaw env cookie) = ENGINE_ERROR_CODE.ENGINE_DISCONNECT) := by
    intro hyes
    obtain ⟨hc, ho⟩ := (process_bin_dcp_response_cases env cookie).2 hyes
    by_cases hr : env.remapErrorCode (dcpResponseRaw env cookie)
        = ENGINE_ERROR_CODE.ENGINE_DISCONNECT
    · rw [effectsSince_of_log _ _ _ (hc hr).2]
      simp [hr]
    · rw [effectsSince_of_log _ _ _ (ho hr).2]
      simp [hr]
  refine ⟨⟨hu, hg, hs, hd⟩, fun hremap => ⟨?_, ?_, ?_, ?_⟩⟩
  · intro hraw hmem
    exact hremap (hraw ▸ hu.mp hmem)
  · intro hraw hmem
    exact hremap (hraw ▸ hg.mp hmem)
  · intro hraw hmem
    exact hremap (hraw ▸ hs.mp hmem)
  · intro hyes hraw hmem
    exact hremap (hraw ▸ (hd hyes).mp hmem)

/-- Witness of C17: the engine answers `ENGINE_DISCONNECT`.  Under the
identity policy each of the four handlers sets `closing`; under a policy that
downgrades disconnect to a plain failure none does. -/
theorem engine_status_handlers_use_remapped_witness :
    (process_bin_unknown_packet (statusEnv id ENGINE_ERROR_CODE.ENGINE_DISCONNECT)
      (freshCookie lockPacket)).connection.state = State.closing ∧
    (ioctl_get_executor (statusEnv id ENGINE_ERROR_CODE.ENGINE_DISCONNECT)
      (freshCookie lockPacket)).connection.state = State.closing ∧
    Effect.setState State.closing ∉ effectsSince (freshCookie lockPacket)
      (process_bin_unknown_packet
        (statusEnv remapDisconnectToFailed ENGINE_ERROR_CODE.ENGINE_DISCONNECT)
        (freshCookie lockPacket)) ∧
    Effect.setState State.closing ∉ effectsSince (freshCookie lockPacket)
      (ioctl_get_executor
        (statusEnv remapDisconnectToFailed ENGINE_ERROR_CODE.ENGINE_DISCONNECT)
        (freshCookie lockPacket)) ∧
    Effect.setState State.closing ∉ effectsSince (freshCookie lockPacket)
      (ioctl_set_executor
        (statusEnv remapDisconnectToFailed ENGINE_ERROR_CODE.ENGINE_DISCONNECT)
        (freshCookie lockPacket)) ∧
    Effect.setState State.closing ∉ effectsSince (freshCookie lockPacket)
      (process_bin_dcp_response
        (statusEnv remapDisconnectToFailed ENGINE_ERROR_CODE.ENGINE_DISCONNECT)
        (freshCookie lockPacket)) :=
  ⟨by decide, by decide,
   ((engine_status_handlers_use_remapped
      (statusEnv remapDisconnectToFailed ENGINE_ERROR_CODE.ENGINE_DISCONNECT)
      (freshCookie lockPacket)).2 (by decide)).1 (by decide),
   ((engine_status_handlers_use_remapped
      (statusEnv remapDisconnectToFailed ENGINE_ERROR_CODE.ENGINE_DISCONNECT)
      (freshCookie lockPacket)).2 (by decide)).2.1 (by decide),
   ((engine_status_handlers_use_remapped
      (statusEnv remapDisconnectToFailed ENGINE_ERROR_CODE.ENGINE_DISCONNECT)
      (freshCookie lockPacket)).2 (by decide)).2.2.1 (by decide),
   ((engine_status_handlers_use_remapped
      (statusEnv remapDisconnectToFailed ENGINE_ERROR_CODE.ENGINE_DISCONNECT)
      (freshCookie lockPacket)).2 (by decide)).2.2.2 (by decide) (by decide)⟩

/-- The log of a pass of `process_bin_unknown_packet` that consumed a status
other than success: the `switch` runs on `remapErrorCode` of that status. -/
lemma process_bin_unknown_packet_replay (env : Env) (cookie : Cookie)
    (ha : cookie.aiostat ≠ ENGINE_ERROR_CODE.ENGINE_SUCCESS) :
    (process_bin_unknown_packet env cookie).connection.log = cookie.connection.log ++
      (match env.remapErrorCode cookie.aiostat with
       | ENGINE_ERROR_CODE.ENGINE_SUCCESS =>
         if cookie.dynamicBuffer.isSome = true then
           [Effect.responseCounter Status.Success, Effect.sendDynamicBuffer,
            Effect.update_topkeys]
         else [Effect.setState State.new_cmd, Effect.update_topkeys]
       | ENGINE_ERROR_CODE.ENGINE_EWOULDBLOCK => [Effect.setEwouldblock true]
       | ENGINE_ERROR_CODE.ENGINE_DISCONNECT => [Effect.setState State.closing]
       | other => [Effect.clearDynamicBuffer, Effect.sendResponse (env.to_status other)]) := by
  unfold process_bin_unknown_packet
  simp only [Cookie.swapAiostat, ha, if_false]
  cases hs : env.remapErrorCode cookie.aiostat <;> cases hb : cookie.dynamicBuffer <;>
    simp [hb, update_topkeys, Cookie.sendDynamicBuffer, Cookie.record, Connection.record,
      Cookie.setState, Connection.setState, Cookie.setEwouldblock, Cookie.clearDynamicBuffer,
      Cookie.sendResponse]

/-- The log of a pass of `ioctl_get_executor` that consumed a status other
than success. -/
lemma ioctl_get_executor_replay (env : Env) (cookie : Cookie)
    (ha : cookie.aiostat ≠ ENGINE_ERROR_CODE.ENGINE_SUCCESS) :
    (ioctl_get_executor env cookie).connection.log = cookie.connection.log ++
      (match env.remapErrorCode cookie.aiostat with
       | ENGINE_ERROR_CODE.ENGINE_SUCCESS =>
         [Effect.sendResponseWith Status.Success [] [] [] Datatype.Raw 0]
       | ENGINE_ERROR_CODE.ENGINE_EWOULDBLOCK => [Effect.setEwouldblock true]
       | ENGINE_ERROR_CODE.ENGINE_DISCONNECT => [Effect.setState State.closing]
       | other => [Effect.sendResponse (env.to_status other)]) := by
  unfold ioctl_get_executor
  simp only [Cookie.swapAiostat, ha, if_false]
  cases hs : env.remapErrorCode cookie.aiostat <;>
    simp [Cookie.record, Connection.record, Cookie.setState, Connection.setState,
      Cookie.setEwouldblock, Cookie.sendResponse, Cookie.sendResponseWith]

/-- The log of a pass of `ioctl_set_executor` that consumed a status other
than success. -/
lemma ioctl_set_executor_replay (env : Env) (cookie : Cookie)
    (ha : cookie.aiostat ≠ ENGINE_ERROR_CODE.ENGINE_SUCCESS) :
    (ioctl_set_executor env cookie).connection.log = cookie.connection.log ++
      (match env.remapErrorCode cookie.aiostat with
       | ENGINE_ERROR_CODE.ENGINE_EWOULDBLOCK => [Effect.setEwouldblock true]
       | ENGINE_ERROR_CODE.ENGINE_DISCONNECT => [Effect.setState State.closing]
       | other => [Effect.sendResponse (env.to_status other)]) := by
  unfold ioctl_set_executor
  simp only [Cookie.swapAiostat, ha, if_false]
  cases hs : env.remapErrorCode cookie.aiostat <;>
    simp [Cookie.record, Connection.record, Cookie.setState, Connection.setState,
      Cookie.setEwouldblock, Cookie.sendResponse]

/-- C18: one pass of `process_bin_unknown_packet`, `ioctl_get_executor`,
`ioctl_set_executor` or `dcp_get_failover_log_executor` leaves success in the
cookie's `aiostat` slot whatever the slot held on entry; it calls the engine
operation once when the value it consumed was success and not at all
otherwise; and when the consumed value was not success, the pass acts on that
value: what the handler does is what its `switch` does for
`remapErrorCode` of the consumed value (for `dcp_get_failover_log_executor`:
it hands the consumed value to `handle_executor_status`), and the engine's
answer has no influence on the pass. -/
theorem aiostat_consumed_once (env : Env) (cookie : Cookie) :
    ((process_bin_unknown_packet env cookie).aiostat = ENGINE_ERROR_CODE.ENGINE_SUCCESS ∧
      (effectsSince cookie (process_bin_unknown_packet env cookie)).count
          Effect.bucket_unknown_command
        = (if cookie.aiostat = ENGINE_ERROR_CODE.ENGINE_SUCCESS then 1 else 0) ∧
      (cookie.aiostat ≠ ENGINE_ERROR_CODE.ENGINE_SUCCESS →
        unknownPacketRaw env cookie = cookie.aiostat ∧
        (env.remapErrorCode cookie.aiostat = ENGINE_ERROR_CODE.ENGINE_SUCCESS →
          effectsSince cookie (process_bin_unknown_packet env cookie)
            = (if cookie.dynamicBuffer.isSome = true then
                [Effect.responseCounter Status.Success, Effect.sendDynamicBuffer,
                 Effect.update_topkeys]
               else [Effect.setState State.new_cmd, Effect.update_topkeys])) ∧
        (env.remapErrorCode cookie.aiostat = ENGINE_ERROR_CODE.ENGINE_EWOULDBLOCK →
          effectsSince cookie (process_bin_unknown_packet env cookie)
            = [Effect.setEwouldblock true]) ∧
        (env.remapErrorCode cookie.aiostat = ENGINE_ERROR_CODE.ENGINE_DISCONNECT →
          effectsSince cookie (process_bin_unknown_packet env cookie)
            = [Effect.setState State.closing]) ∧
        (env.remapErrorCode cookie.aiostat ≠ ENGINE_ERROR_CODE.ENGINE_SUCCESS →
          env.remapErrorCode cookie.aiostat ≠ ENGINE_ERROR_CODE.ENGINE_EWOULDBLOCK →
          env.remapErrorCode cookie.aiostat ≠ ENGINE_ERROR_CODE.ENGINE_DISCONNECT →
          effectsSince cookie (process_bin_unknown_packet env cookie)
            = [Effect.clearDynamicBuffer,
               Effect.sendResponse (env.to_status (env.remapErrorCode cookie.aiostat))]) ∧
        ∀ engine, process_bin_unknown_packet
            { env with bucket_unknown_command := engine } cookie
          = process_bin_unknown_packet env cookie)) ∧
    ((ioctl_get_executor env cookie).aiostat = ENGINE_ERROR_CODE.ENGINE_SUCCESS ∧
      (effectsSince cookie (ioctl_get_executor env cookie)).count Effect.ioctl_get_property
        = (if cookie.aiostat = ENGINE_ERROR_CODE.ENGINE_SUCCESS then 1 else 0) ∧
      (cookie.aiostat ≠ ENGINE_ERROR_CODE.ENGINE_SUCCESS →
        ioctlGetRaw env cookie = cookie.aiostat ∧
        (env.remapErrorCode cookie.aiostat = ENGINE_ERROR_CODE.ENGINE_SUCCESS →
          effectsSince cookie (ioctl_get_executor env cookie)
            = [Effect.sendResponseWith Status.Success [] [] [] Datatype.Raw 0]) ∧
        (env.remapErrorCode cookie.aiostat = ENGINE_ERROR_CODE.ENGINE_EWOULDBLOCK →
          effectsSince cookie (ioctl_get_executor env cookie)
            = [Effect.setEwouldblock true]) ∧
        (env.remapErrorCode cookie.aiostat = ENGINE_ERROR_CODE.ENGINE_DISCONNECT →
          effectsSince cookie (ioctl_get_executor env cookie)
            = [Effect.setState State.closing]) ∧
        (env.remapErrorCode cookie.aiostat ≠ ENGINE_ERROR_CODE.ENGINE_SUCCESS →
          env.remapErrorCode cookie.aiostat ≠ ENGINE_ERROR_CODE.ENGINE_EWOULDBLOCK →
          env.remapErrorCode cookie.aiostat ≠ ENGINE_ERROR_CODE.ENGINE_DISCONNECT →
          effectsSince cookie (ioctl_get_executor env cookie)
            = [Effect.sendResponse (env.to_status (env.remapErrorCode cookie.aiostat))]) ∧
        ∀ engine, ioctl_get_executor
            { env with daemon := { env.daemon with ioctl_get_property := engine } } cookie
          = ioctl_get_executor env cookie)) ∧
    ((ioctl_set_executor env cookie).aiostat = ENGINE_ERROR_CODE.ENGINE_SUCCESS ∧
      (effectsSince cookie (ioctl_set_executor env cookie)).count Effect.ioctl_set_property
        = (if cookie.aiostat = ENGINE_ERROR_CODE.ENGINE_SUCCESS then 1 else 0) ∧
      (cookie.aiostat ≠ ENGINE_ERROR_CODE.ENGINE_SUCCESS →
        ioctlSetRaw env cookie = cookie.aiostat ∧
        (env.remapErrorCode cookie.aiostat = ENGINE_ERROR_CODE.ENGINE_EWOULDBLOCK →
          effectsSince cookie (ioctl_set_executor env cookie)
            = [Effect.setEwouldblock true]) ∧
        (env.remapErrorCode cookie.aiostat = ENGINE_ERROR_CODE.ENGINE_DISCONNECT →
          effectsSince cookie (ioctl_set_executor env cookie)
            = [Effect.setState State.closing]) ∧
        (env.remapErrorCode cookie.aiostat ≠ ENGINE_ERROR_CODE.ENGINE_EWOULDBLOCK →
          env.remapErrorCode cookie.aiostat ≠ ENGINE_ERROR_CODE.ENGINE_DISCONNECT →
          effectsSince cookie (ioctl_set_executor env cookie)
            = [Effect.sendResponse (env.to_status (env.remapErrorCode cookie.aiostat))]) ∧
        ∀ engine, ioctl_set_executor
            { env with daemon := { env.daemon with ioctl_set_property := engine } } cookie
          = ioctl_set_executor env cookie)) ∧
    ((dcp_get_failover_log_executor env cookie).aiostat = ENGINE_ERROR_CODE.ENGINE_SUCCESS ∧
      (effectsSince cookie (dcp_get_failover_log_executor env cookie)).count
          Effect.dcpGetFailoverLog
        = (if cookie.aiostat = ENGINE_ERROR_CODE.ENGINE_SUCCESS then 1 else 0) ∧
      (cookie.aiostat ≠ ENGINE_ERROR_CODE.ENGINE_SUCCESS →
        effectsSince cookie (dcp_get_failover_log_executor env cookie)
          = [Effect.handle_executor_status cookie.aiostat] ∧
        ∀ engine, dcp_get_failover_log_executor
            { env with daemon := { env.daemon with dcpGetFailoverLog := engine } } cookie
          = dcp_get_failover_log_executor env cookie)) := by
  refine ⟨⟨process_bin_unknown_packet_aiostat env cookie, ?_, ?_⟩,
    ⟨(ioctl_get_executor_cases env cookie).1, ?_, ?_⟩,
    ⟨(ioctl_set_executor_cases env cookie).1, ?_, ?_⟩,
    ⟨(dcp_get_failover_log_executor_cases env cookie).1, ?_, ?_⟩⟩
  · obtain ⟨l, hl, hnot, _⟩ := process_bin_unknown_packet_effects env cookie
    rw [hl, count_engineCallLog_append _ _ _ hnot]
  · intro ha
    have hlog := process_bin_unknown_packet_replay env cookie ha
    refine ⟨by simp [unknownPacketRaw, ha], ?_, ?_, ?_, ?_, fun engine => ?_⟩
    · intro hs
      rw [effectsSince_of_log _ _ _ hlog, hs]
    · intro hs
      rw [effectsSince_of_log _ _ _ hlog, hs]
    · intro hs
      rw [effectsSince_of_log _ _ _ hlog, hs]
    · intro h1 h2 h3
      rw [effectsSince_of_log _ _ _ hlog]
      cases hs : env.remapErrorCode cookie.aiostat <;> simp_all
    · simp [process_bin_unknown_packet, Cookie.swapAiostat, ha]
  · obtain ⟨l, hl, hnot, _⟩ := ioctl_get_executor_effects env cookie
    rw [hl, count_engineCallLog_append _ _ _ hnot]
  · intro ha
    have hlog := ioctl_get_executor_replay env cookie ha
    refine ⟨by simp [ioctlGetRaw, ha], ?_, ?_, ?_, ?_, fun engine => ?_⟩
    · intro hs
      rw [effectsSince_of_log _ _ _ hlog, hs]
    · intro hs
      rw [effectsSince_of_log _ _ _ hlog, hs]
    · intro hs
      rw [effectsSince_of_log _ _ _ hlog, hs]
    · intro h1 h2 h3
      rw [effectsSince_of_log _ _ _ hlog]
      cases hs : env.remapErrorCode cookie.aiostat <;> simp_all
    · simp [ioctl_get_executor, Cookie.swapAiostat, ha]
  · obtain ⟨l, hl, hnot, _⟩ := ioctl_set_executor_effects env cookie
    rw [hl, count_engineCallLog_append _ _ _ hnot]
  · intro ha
    have hlog := ioctl_set_executor_replay env cookie ha
    refine ⟨by simp [ioctlSetRaw, ha], ?_, ?_, ?_, fun engine => ?_⟩
    · intro hs
      rw [effectsSince_of_log _ _ _ hlog, hs]
    · intro hs
      rw [effectsSince_of_log _ _ _ hlog, hs]
    · intro h2 h3
      rw [effectsSince_of_log _ _ _ hlog]
      cases hs : env.remapErrorCode cookie.aiostat <;> simp_all
    · simp [ioctl_set_executor, Cookie.swapAiostat, ha]
  · rw [effectsSince_of_log _ _ _ (dcp_get_failover_log_executor_cases env cookie).2]
    apply count_engineCallLog_append
    split <;> simp
  · intro ha
    refine ⟨?_, fun engine => ?_⟩
    · rw [effectsSince_of_log _ _ _ (dcp_get_failover_log_executor_cases env cookie).2]
      simp [engineCallLog, failoverLogRaw, ha]
    · simp [dcp_get_failover_log_executor, Cookie.swapAiostat, ha]

/-- Witness of C18: a pass entered with success in the slot calls the engine
once; a pass entered with a completion status of `ENGINE_FAILED` does not call
it, acts on `ENGINE_FAILED` and leaves success in the slot. -/
theorem aiostat_consumed_once_witness :
    (process_bin_unknown_packet (statusEnv id ENGINE_ERROR_CODE.ENGINE_EWOULDBLOCK)
      (freshCookie lockPacket)).connection.log =
        [Effect.bucket_unknown_command, Effect.setEwouldblock true] ∧
    (process_bin_unknown_packet (statusEnv id ENGINE_ERROR_CODE.ENGINE_EWOULDBLOCK)
      { freshCookie lockPacket with aiostat := ENGINE_ERROR_CODE.ENGINE_FAILED }).connection.log =
        [Effect.clearDynamicBuffer, Effect.sendResponse (Status.other 0x84)] ∧
    (process_bin_unknown_packet (statusEnv id ENGINE_ERROR_CODE.ENGINE_EWOULDBLOCK)
      { freshCookie lockPacket with aiostat := ENGINE_ERROR_CODE.ENGINE_FAILED }).aiostat
        = ENGINE_ERROR_CODE.ENGINE_SUCCESS ∧
    effectsSince { freshCookie lockPacket with aiostat := ENGINE_ERROR_CODE.ENGINE_DISCONNECT }
      (ioctl_set_executor (statusEnv id ENGINE_ERROR_CODE.ENGINE_EWOULDBLOCK)
        { freshCookie lockPacket with aiostat := ENGINE_ERROR_CODE.ENGINE_DISCONNECT })
        = [Effect.setState State.closing] ∧
    effectsSince { freshCookie lockPacket with aiostat := ENGINE_ERROR_CODE.ENGINE_FAILED }
      (dcp_get_failover_log_executor (statusEnv id ENGINE_ERROR_CODE.ENGINE_EWOULDBLOCK)
        { freshCookie lockPacket with aiostat := ENGINE_ERROR_CODE.ENGINE_FAILED })
        = [Effect.handle_executor_status ENGINE_ERROR_CODE.ENGINE_FAILED] :=
  ⟨by decide, by decide,
   (aiostat_consumed_once (statusEnv id ENGINE_ERROR_CODE.ENGINE_EWOULDBLOCK)
      { freshCookie lockPacket with aiostat := ENGINE_ERROR_CODE.ENGINE_FAILED }).1.1,
   ((aiostat_consumed_once (statusEnv id ENGINE_ERROR_CODE.ENGINE_EWOULDBLOCK)
      { freshCookie lockPacket with aiostat := ENGINE_ERROR_CODE.ENGINE_DISCONNECT }).2.2.1.2.2
      (by decide)).2.2.1 (by decide),
   ((aiostat_consumed_once (statusEnv id ENGINE_ERROR_CODE.ENGINE_EWOULDBLOCK)
      { freshCookie lockPacket with aiostat := ENGINE_ERROR_CODE.ENGINE_FAILED }).2.2.2.2.2
      (by decide)).1⟩

/-! ### The SASL refresh context and the completion signals -/

/-- What `refresh()` leaves behind: state `Done`, one more thread asked for,
and a status that is would-block or temporary failure. -/
lemma refresh_done (env : Env) (ctx : SaslRefreshCommandContext) :
    (ctx.refresh env).2.state = SaslRefreshState.Done ∧
    ((ctx.refresh env).1 = ENGINE_ERROR_CODE.ENGINE_EWOULDBLOCK ∨
      (ctx.refresh env).1 = ENGINE_ERROR_CODE.temporary_failure) ∧
    threadStarts (ctx.refresh env).2 = threadStarts ctx + 1 := by
  unfold SaslRefreshCommandContext.refresh threadStarts
  by_cases h : env.daemon.cb_create_named_thread ctx.cookie = 0 <;>
    simp [h, Cookie.record, Connection.record, Cookie.setErrorContext]

/-- A pass over a context in state `Done` asks for no thread and leaves the
state `Done`. -/
lemma drive_of_done (env : Env) (ctx : SaslRefreshCommandContext)
    (hd : ctx.state = SaslRefreshState.Done) :
    (ctx.drive env).state = SaslRefreshState.Done ∧
    threadStarts (ctx.drive env) = threadStarts ctx := by
  unfold SaslRefreshCommandContext.drive SaslRefreshCommandContext.step
    SaslRefreshCommandContext.done threadStarts
  simp only [Cookie.swapAiostat, hd]
  by_cases ha : ctx.cookie.aiostat = ENGINE_ERROR_CODE.ENGINE_SUCCESS
  · simp only [ha, if_true]
    cases hs : env.remapErrorCode ENGINE_ERROR_CODE.ENGINE_SUCCESS <;>
      simp [hs, Cookie.record, Connection.record, Cookie.setState, Connection.setState,
        Cookie.setEwouldblock, Cookie.sendResponse]
  · simp only [ha, if_false]
    cases hs : env.remapErrorCode ctx.cookie.aiostat <;>
      simp [hs, hd, Cookie.record, Connection.record, Cookie.setState, Connection.setState,
        Cookie.setEwouldblock, Cookie.sendResponse]

/-- A pass over any context asks for at most one thread, and for one only on
the way from the initial state to `Done`. -/
lemma drive_of_initial (env : Env) (ctx : SaslRefreshCommandContext)
    (hi : ctx.state = SaslRefreshState.Initial) :
    ((ctx.drive env).state = SaslRefreshState.Initial ∧
      threadStarts (ctx.drive env) = threadStarts ctx) ∨
    ((ctx.drive env).state = SaslRefreshState.Done ∧
      threadStarts (ctx.drive env) = threadStarts ctx + 1) := by
  obtain ⟨cookie, state⟩ := ctx
  simp only at hi
  subst hi
  unfold SaslRefreshCommandContext.drive SaslRefreshCommandContext.step
    SaslRefreshCommandContext.refresh threadStarts
  simp only [Cookie.swapAiostat]
  by_cases ha : cookie.aiostat = ENGINE_ERROR_CODE.ENGINE_SUCCESS
  · right
    simp only [ha, if_true]
    by_cases ht : env.daemon.cb_create_named_thread
        { cookie with aiostat := ENGINE_ERROR_CODE.ENGINE_SUCCESS } = 0
    · simp only [ht, ne_eq, not_true_eq_false, if_false]
      cases hs : env.remapErrorCode ENGINE_ERROR_CODE.ENGINE_EWOULDBLOCK <;>
        simp [Cookie.record, Connection.record, Cookie.setState, Connection.setState,
          Cookie.setEwouldblock, Cookie.sendResponse, Cookie.setErrorContext]
    · simp only [ht, ne_eq, not_false_eq_true, if_true]
      cases hs : env.remapErrorCode ENGINE_ERROR_CODE.temporary_failure <;>
        simp [Cookie.record, Connection.record, Cookie.setState, Connection.setState,
          Cookie.setEwouldblock, Cookie.sendResponse, Cookie.setErrorContext]
  · left
    simp only [ha, if_false]
    cases hs : env.remapErrorCode cookie.aiostat <;>
      simp [Cookie.record, Connection.record, Cookie.setState, Connection.setState,
        Cookie.setEwouldblock, Cookie.sendResponse]

/-- A pass, with or without a status placed in the slot before it. -/
lemma drivePasses_cons (env : Env) (p : Option ENGINE_ERROR_CODE)
    (rest : List (Option ENGINE_ERROR_CODE)) (ctx : SaslRefreshCommandContext) :
    ∃ ctx2 : SaslRefreshCommandContext, ctx2.state = ctx.state ∧
      threadStarts ctx2 = threadStarts ctx ∧
      SaslRefreshCommandContext.drivePasses env (p :: rest) ctx
        = SaslRefreshCommandContext.drivePasses env rest (ctx2.drive env) := by
  cases p with
  | none => exact ⟨ctx, rfl, rfl, rfl⟩
  | some status =>
    exact ⟨{ ctx with cookie := { ctx.cookie with aiostat := status } }, rfl, rfl, rfl⟩

/-- Once the context is in state `Done`, no run of passes asks for a thread. -/
lemma drivePasses_of_done (env : Env) (passes : List (Option ENGINE_ERROR_CODE)) :
    ∀ ctx : SaslRefreshCommandContext, ctx.state = SaslRefreshState.Done →
      (SaslRefreshCommandContext.drivePasses env passes ctx).state = SaslRefreshState.Done ∧
      threadStarts (SaslRefreshCommandContext.drivePasses env passes ctx) = threadStarts ctx := by
  induction passes with
  | nil => intro ctx hd; exact ⟨hd, rfl⟩
  | cons p rest ih =>
    intro ctx hd
    obtain ⟨ctx2, hs, ht, heq⟩ := drivePasses_cons env p rest ctx
    obtain ⟨h1, h2⟩ := drive_of_done env ctx2 (hs.trans hd)
    obtain ⟨h3, h4⟩ := ih (ctx2.drive env) h1
    rw [heq]
    exact ⟨h3, by rw [h4, h2, ht]⟩

/-- Any run of passes asks for at most one thread. -/
lemma drivePasses_bound (env : Env) (passes : List (Option ENGINE_ERROR_CODE)) :
    ∀ ctx : SaslRefreshCommandContext,
      threadStarts (SaslRefreshCommandContext.drivePasses env passes ctx)
        ≤ threadStarts ctx + 1 := by
  induction passes with
  | nil => intro ctx; exact Nat.le_succ _
  | cons p rest ih =>
    intro ctx
    obtain ⟨ctx2, hs, ht, heq⟩ := drivePasses_cons env p rest ctx
    rw [heq]
    cases hst : ctx.state with
    | Done =>
      obtain ⟨h1, h2⟩ := drive_of_done env ctx2 (hs.trans hst)
      rw [(drivePasses_of_done env rest (ctx2.drive env) h1).2, h2, ht]
      exact Nat.le_succ _
    | Initial =>
      rcases drive_of_initial env ctx2 (hs.trans hst) with ⟨_, h2⟩ | ⟨h1, h2⟩
      · have := ih (ctx2.drive env)
        rw [h2, ht] at this
        exact this
      · rw [(drivePasses_of_done env rest (ctx2.drive env) h1).2, h2, ht]

/-- C19: `refresh()` puts the context in state `Done` before it returns, and
it returns would-block or temporary failure, having asked for one worker
thread.  A context in state `Done` that is driven again, any number of times
and with or without a completion status in the slot, stays in `Done` and asks
for no further thread; and over any run of passes, from any state, at most one
worker thread is asked for. -/
theorem sasl_refresh_not_reissued (env : Env) (ctx : SaslRefreshCommandContext)
    (passes : List (Option ENGINE_ERROR_CODE)) :
    ((ctx.refresh env).2.state = SaslRefreshState.Done ∧
      ((ctx.refresh env).1 = ENGINE_ERROR_CODE.ENGINE_EWOULDBLOCK ∨
        (ctx.refresh env).1 = ENGINE_ERROR_CODE.temporary_failure) ∧
      threadStarts (ctx.refresh env).2 = threadStarts ctx + 1) ∧
    (ctx.state = SaslRefreshState.Done →
      (SaslRefreshCommandContext.drivePasses env passes ctx).state = SaslRefreshState.Done ∧
      threadStarts (SaslRefreshCommandContext.drivePasses env passes ctx) = threadStarts ctx) ∧
    ((SaslRefreshCommandContext.drivePasses env passes (ctx.refresh env).2).state
        = SaslRefreshState.Done ∧
      threadStarts (SaslRefreshCommandContext.drivePasses env passes (ctx.refresh env).2)
        = threadStarts ctx + 1) ∧
    threadStarts (SaslRefreshCommandContext.drivePasses env passes ctx) ≤ threadStarts ctx + 1 := by
  obtain ⟨h1, h2, h3⟩ := refresh_done env ctx
  refine ⟨⟨h1, h2, h3⟩, drivePasses_of_done env passes ctx, ?_, drivePasses_bound env passes ctx⟩
  obtain ⟨h4, h5⟩ := drivePasses_of_done env passes (ctx.refresh env).2 h1
  exact ⟨h4, by rw [h5, h3]⟩

/-- Witness of C19: the first pass over a fresh context starts the worker
thread and suspends; two more passes without a completion status start no
further thread. -/
theorem sasl_refresh_not_reissued_witness :
    (SaslRefreshCommandContext.drive (saslEnv (Attempt.returned SaslError.OK)
      (Attempt.returned SaslError.OK)) freshRefresh).cookie.connection.log
        = [Effect.cb_create_named_thread, Effect.setEwouldblock true] ∧
    threadStarts (SaslRefreshCommandContext.drivePasses
      (saslEnv (Attempt.returned SaslError.OK) (Attempt.returned SaslError.OK))
      [none, none, none] freshRefresh) = 1 ∧
    threadStarts (SaslRefreshCommandContext.drivePasses
      (saslEnv (Attempt.returned SaslError.OK) (Attempt.returned SaslError.OK))
      [none, none, some ENGINE_ERROR_CODE.ENGINE_SUCCESS] freshRefresh) ≤ 0 + 1 :=
  ⟨by decide, by decide,
   (sasl_refresh_not_reissued
      (saslEnv (Attempt.returned SaslError.OK) (Attempt.returned SaslError.OK))
      freshRefresh [none, none, some ENGINE_ERROR_CODE.ENGINE_SUCCESS]).2.2.2⟩

/-- C20: `cbsasl_refresh_main` and `PersistManifestTask::run` each send exactly
one completion signal on every path.  The status `cbsasl_refresh_main` sends
is success only if `cb::sasl::server::refresh()` returned `OK` (and then
unless the default-bucket check throws), `no_memory` if it returned `NO_MEM`,
and `failed` in every other case, throwing included.  The status
`PersistManifestTask::run` sends is success exactly when the target is a
directory, the manifest was written and the file renamed; the task returns
`false`. -/
theorem completion_signalled_once (env : Env) (cookie : Cookie) (fs : FileSystem) :
    (∃ rv, (effectsSince cookie (cbsasl_refresh_main env cookie)).filter Effect.isNotify
        = [Effect.notifyIoComplete rv] ∧
      (cbsasl_refresh_main env cookie).connection.log.getLast? =
        some (Effect.notifyIoComplete rv) ∧
      (rv = ENGINE_ERROR_CODE.ENGINE_SUCCESS →
        env.daemon.server_refresh = Attempt.returned SaslError.OK) ∧
      (env.daemon.server_refresh = Attempt.returned SaslError.OK →
        (∃ e, env.daemon.authenticate_default = Attempt.returned e) →
        rv = ENGINE_ERROR_CODE.ENGINE_SUCCESS) ∧
      (env.daemon.server_refresh = Attempt.returned SaslError.NO_MEM →
        rv = ENGINE_ERROR_CODE.no_memory) ∧
      (rv ≠ ENGINE_ERROR_CODE.ENGINE_SUCCESS →
        env.daemon.server_refresh ≠ Attempt.returned SaslError.NO_MEM →
        rv = ENGINE_ERROR_CODE.ENGINE_FAILED)) ∧
    (∃ status, (PersistManifestTask.run fs).2.filter TaskEffect.isNotify
        = [TaskEffect.notifyIOComplete status] ∧
      (PersistManifestTask.run fs).2.getLast? = some (TaskEffect.notifyIOComplete status) ∧
      (status = ENGINE_ERROR_CODE.ENGINE_SUCCESS ↔
        fs.isDirectory = true ∧ fs.writerGood = true ∧ fs.renameFile = true) ∧
      (PersistManifestTask.run fs).1 = false) := by
  constructor
  · unfold cbsasl_refresh_main effectsSince notifyIoComplete
    cases hr : env.daemon.server_refresh with
    | returned e =>
      cases e <;> (try cases ha : env.daemon.authenticate_default) <;>
        simp [Cookie.record, Connection.record, Cookie.setErrorContext, List.filter,
          Effect.isNotify]
    | threw what =>
      simp [Cookie.record, Connection.record, Cookie.setErrorContext, List.filter,
        Effect.isNotify]
    | threwUnknown =>
      simp [Cookie.record, Connection.record, Cookie.setErrorContext, List.filter,
        Effect.isNotify]
  · unfold PersistManifestTask.run
    cases hd : fs.isDirectory <;> cases hw : fs.writerGood <;> cases hn : fs.renameFile <;>
      simp [List.filter, TaskEffect.isNotify]

/-- Witness of C20: a refresh that returns `OK`, one that runs out of memory
and one that throws; a manifest that is written and renamed, and one whose
rename fails. -/
theorem completion_signalled_once_witness :
    (cbsasl_refresh_main (saslEnv (Attempt.returned SaslError.OK)
      (Attempt.returned SaslError.OK)) (freshCookie lockPacket)).connection.log =
        [Effect.set_default_bucket_enabled true,
         Effect.notifyIoComplete ENGINE_ERROR_CODE.ENGINE_SUCCESS] ∧
    (cbsasl_refresh_main (saslEnv (Attempt.returned SaslError.NO_MEM)
      (Attempt.returned SaslError.OK)) (freshCookie lockPacket)).connection.log =
        [Effect.notifyIoComplete ENGINE_ERROR_CODE.no_memory] ∧
    (cbsasl_refresh_main (saslEnv Attempt.threwUnknown
      (Attempt.returned SaslError.OK)) (freshCookie lockPacket)).connection.log =
        [Effect.setErrorContext "Unknown error",
         Effect.notifyIoComplete ENGINE_ERROR_CODE.ENGINE_FAILED] ∧
    (PersistManifestTask.run { isDirectory := true, writerGood := true, renameFile := true }).2 =
        [TaskEffect.write, TaskEffect.renameFile, TaskEffect.manifest_release,
         TaskEffect.remove, TaskEffect.notifyIOComplete ENGINE_ERROR_CODE.ENGINE_SUCCESS] ∧
    (PersistManifestTask.run { isDirectory := true, writerGood := true, renameFile := false }).2 =
        [TaskEffect.write, TaskEffect.renameFile, TaskEffect.remove,
         TaskEffect.notifyIOComplete ENGINE_ERROR_CODE.ENGINE_FAILED] ∧
    (∃ status, (PersistManifestTask.run
          { isDirectory := false, writerGood := true, renameFile := true }).2.filter
            TaskEffect.isNotify = [TaskEffect.notifyIOComplete status] ∧
      (PersistManifestTask.run
          { isDirectory := false, writerGood := true, renameFile := true }).2.getLast?
            = some (TaskEffect.notifyIOComplete status) ∧
      (status = ENGINE_ERROR_CODE.ENGINE_SUCCESS ↔
        (false = true ∧ true = true ∧ true = true)) ∧
      (PersistManifestTask.run
          { isDirectory := false, writerGood := true, renameFile := true }).1 = false) :=
  ⟨by decide, by decide, by decide, by decide, by decide,
   (completion_signalled_once tightEnv (freshCookie lockPacket)
      { isDirectory := false, writerGood := true, renameFile := true }).2⟩

/-! ### Defensive paths of the gate and the framer -/

/-- C21: for a privilege verdict that is none of `Ok`, `Fail` and `Stale`,
`execute_client_request_packet` makes the privilege check and no call through
the table, returns normally, and its only effect is `setState(closing)`: no
response is sent. -/
theorem execute_client_request_packet_invalid_verdict (env : Env) (handlers : HandlerTable)
    (cookie : Cookie) (request : List Nat)
    (hok : env.invoke (getOpcode request) cookie ≠ PrivilegeAccess.Ok)
    (hfail : env.invoke (getOpcode request) cookie ≠ PrivilegeAccess.Fail)
    (hstale : env.invoke (getOpcode request) cookie ≠ PrivilegeAccess.Stale) :
    (execute_client_request_packet env handlers cookie request).thrown = none ∧
    (execute_client_request_packet env handlers cookie request).calls
      = [Call.privilegeCheck (getOpcode request)] ∧
    (execute_client_request_packet env handlers cookie request).cookie.connection.state
      = State.closing ∧
    (execute_client_request_packet env handlers cookie request).cookie.connection.log
      = cookie.connection.log ++ [Effect.setState State.closing] ∧
    responseCount (effectsSince cookie
      (execute_client_request_packet env handlers cookie request).cookie) = 0 := by
  unfold execute_client_request_packet
  cases hv : env.invoke (getOpcode request) cookie with
  | Ok => exact absurd hv hok
  | Fail => exact absurd hv hfail
  | Stale => exact absurd hv hstale
  | invalid raw =>
    simp [hv, Cookie.setState, Connection.setState, effectsSince, responseCount, List.filter,
      Effect.isResponse]

/-- Witness of C21: a verdict with the raw value 7. -/
theorem execute_client_request_packet_invalid_verdict_witness :
    (execute_client_request_packet (gateEnv (PrivilegeAccess.invalid 7) id)
      (initialize_mbcp_lookup_map sampleOpcodeValue staticTables).handlers
      (freshCookie lockPacket) lockPacket).cookie.connection.log
        = [Effect.setState State.closing] ∧
    (execute_client_request_packet (gateEnv (PrivilegeAccess.invalid 7) id)
      (initialize_mbcp_lookup_map sampleOpcodeValue staticTables).handlers
      (freshCookie lockPacket) lockPacket).calls
        = [Call.privilegeCheck (getOpcode lockPacket)] :=
  ⟨(execute_client_request_packet_invalid_verdict (gateEnv (PrivilegeAccess.invalid 7) id)
      (initialize_mbcp_lookup_map sampleOpcodeValue staticTables).handlers
      (freshCookie lockPacket) lockPacket (by decide) (by decide) (by decide)).2.2.2.1,
   (execute_client_request_packet_invalid_verdict (gateEnv (PrivilegeAccess.invalid 7) id)
      (initialize_mbcp_lookup_map sampleOpcodeValue staticTables).handlers
      (freshCookie lockPacket) lockPacket (by decide) (by decide) (by decide)).2.1⟩

/-- C22: with fewer than `sizeof(cb::mcbp::Request) = 24` readable bytes,
`try_read_mcbp_command` throws a `std::logic_error` and the cookie it leaves is
the cookie it was given: not initialized, with the connection state, the read
buffer and the log as they were. -/
theorem try_read_mcbp_command_header_missing (env : Env) (cookie : Cookie)
    (hshort : cookie.connection.read.rsize < 24) :
    (∃ what, (try_read_mcbp_command env cookie).thrown = some (Exception.logic_error what)) ∧
    (try_read_mcbp_command env cookie).cookie = cookie ∧
    (try_read_mcbp_command env cookie).cookie.packet = cookie.packet ∧
    (try_read_mcbp_command env cookie).cookie.connection.state = cookie.connection.state ∧
    (try_read_mcbp_command env cookie).cookie.connection.read = cookie.connection.read ∧
    (try_read_mcbp_command env cookie).cookie.connection.log = cookie.connection.log := by
  have h : cookie.connection.read.rdata.size < sizeofRequest := hshort
  unfold try_read_mcbp_command
  simp only [h, if_true]
  refine ⟨⟨_, rfl⟩, ?_⟩
  simp

/-- Witness of C22: 23 of the 24 header bytes are buffered. -/
theorem try_read_mcbp_command_header_missing_witness :
    (freshCookie (lockPacket.take 23)).connection.read.rsize < 24 ∧
    (try_read_mcbp_command roomyEnv (freshCookie (lockPacket.take 23))).cookie
      = freshCookie (lockPacket.take 23) ∧
    (∃ what, (try_read_mcbp_command roomyEnv (freshCookie (lockPacket.take 23))).thrown
      = some (Exception.logic_error what)) :=
  ⟨by decide,
   (try_read_mcbp_command_header_missing roomyEnv (freshCookie (lockPacket.take 23))
      (by decide)).2.1,
   (try_read_mcbp_command_header_missing roomyEnv (freshCookie (lockPacket.take 23))
      (by decide)).1⟩

/-! ### Order of the registration calls -/

lemma foldl_setup_response_handler_defaultFill (opcodeValue : ClientOpcode → Fin 256)
    (regs : List (ClientOpcode × Handler)) (t : Tables) :
    defaultFill (regs.foldl (fun t r => setup_response_handler opcodeValue t r.1 r.2) t)
      = regs.foldl (fun t r => setup_response_handler opcodeValue t r.1 r.2) (defaultFill t) := by
  induction regs generalizing t with
  | nil => rfl
  | cons r rest ih => rw [List.foldl_cons, List.foldl_cons, ih]; rfl

lemma initialize_mbcp_lookup_map_eq_foldl (opcodeValue : ClientOpcode → Fin 256) (t : Tables) :
    initialize_mbcp_lookup_map opcodeValue t
      = registrationCalls.foldl (Registration.apply opcodeValue) (defaultFill t) := by
  unfold registrationCalls
  rw [List.foldl_append, List.foldl_map, List.foldl_map]
  show _ = List.foldl (fun t r => setup_handler opcodeValue t r.1 r.2)
    (List.foldl (fun t r => setup_response_handler opcodeValue t r.1 r.2) (defaultFill t)
      responseRegistrations) requestRegistrations
  rw [← foldl_setup_response_handler_defaultFill]
  rfl

lemma setup_handler_comm (opcodeValue : ClientOpcode → Fin 256) (t : Tables)
    (a b : ClientOpcode) (f g : Handler) (h : opcodeValue a ≠ opcodeValue b) :
    setup_handler opcodeValue (setup_handler opcodeValue t a f) b g
      = setup_handler opcodeValue (setup_handler opcodeValue t b g) a f := by
  unfold setup_handler
  congr 1
  funext i
  by_cases hb : i = opcodeValue b
  · have ha : i ≠ opcodeValue a := fun e => h (e ▸ hb)
    simp [hb, ha, h.symm]
  · simp [hb]

lemma setup_response_handler_comm (opcodeValue : ClientOpcode → Fin 256) (t : Tables)
    (a b : ClientOpcode) (f g : Handler) (h : opcodeValue a ≠ opcodeValue b) :
    setup_response_handler opcodeValue (setup_response_handler opcodeValue t a f) b g
      = setup_response_handler opcodeValue (setup_response_handler opcodeValue t b g) a f := by
  unfold setup_response_handler
  congr 1
  funext i
  by_cases hb : i = opcodeValue b
  · have ha : i ≠ opcodeValue a := fun e => h (e ▸ hb)
    simp [hb, ha, h.symm]
  · simp [hb]

lemma responseRegistrations_nodup : (responseRegistrations.map Prod.fst).Nodup := by
  decide

set_option maxRecDepth 100000 in
lemma requestRegistrations_nodup : (requestRegistrations.map Prod.fst).Nodup := by
  decide

lemma mem_registrationCalls_response {a : ClientOpcode} {f : Handler}
    (h : Registration.response a f ∈ registrationCalls) : (a, f) ∈ responseRegistrations := by
  unfold registrationCalls at h
  rcases List.mem_append.1 h with h | h
  · obtain ⟨r, hr, e⟩ := List.mem_map.1 h
    cases e
    exact hr
  · obtain ⟨r, _, e⟩ := List.mem_map.1 h
    cases e

lemma mem_registrationCalls_request {a : ClientOpcode} {f : Handler}
    (h : Registration.request a f ∈ registrationCalls) : (a, f) ∈ requestRegistrations := by
  unfold registrationCalls at h
  rcases List.mem_append.1 h with h | h
  · obtain ⟨r, _, e⟩ := List.mem_map.1 h
    cases e
  · obtain ⟨r, hr, e⟩ := List.mem_map.1 h
    cases e
    exact hr

lemma registrationCalls_comm (opcodeValue : ClientOpcode → Fin 256)
    (hinj : Function.Injective opcodeValue) (x : Registration) (hx : x ∈ registrationCalls)
    (y : Registration) (hy : y ∈ registrationCalls) (z : Tables) :
    Registration.apply opcodeValue (Registration.apply opcodeValue z x) y
      = Registration.apply opcodeValue (Registration.apply opcodeValue z y) x := by
  cases x with
  | response a f =>
    cases y with
    | response b g =>
      by_cases h : opcodeValue a = opcodeValue b
      · have e := List.inj_on_of_nodup_map responseRegistrations_nodup
          (mem_registrationCalls_response hx) (mem_registrationCalls_response hy) (hinj h)
        cases e
        rfl
      · exact setup_response_handler_comm opcodeValue z a b f g h
    | request b g => rfl
  | request a f =>
    cases y with
    | response b g => rfl
    | request b g =>
      by_cases h : opcodeValue a = opcodeValue b
      · have e := List.inj_on_of_nodup_map requestRegistrations_nodup
          (mem_registrationCalls_request hx) (mem_registrationCalls_request hy) (hinj h)
        cases e
        rfl
      · exact setup_handler_comm opcodeValue z a b f g h

lemma sampleOpcodeValue_injective : Function.Injective sampleOpcodeValue := by
  intro a b h
  have ha : a.toCtorIdx < 256 := by cases a <;> decide
  have hb : b.toCtorIdx < 256 := by cases b <;> decide
  have h1 : a.toCtorIdx = b.toCtorIdx := by
    have := congrArg Fin.val h
    simpa [sampleOpcodeValue, Fin.ofNat, Nat.mod_eq_of_lt ha, Nat.mod_eq_of_lt hb] using this
  have ea := ClientOpcode.ofNat_toCtorIdx a
  have eb := ClientOpcode.ofNat_toCtorIdx b
  rw [← ea, ← eb, h1]

/-- C23: `initialize_mbcp_lookup_map` passes no opcode twice to
`setup_response_handler` and none twice to `setup_handler`, and, the opcodes
having distinct byte values, the registration calls made in any order after the
default fill of the request table leave the two tables that
`initialize_mbcp_lookup_map` leaves. -/
theorem initialize_mbcp_lookup_map_order_independent (opcodeValue : ClientOpcode → Fin 256)
    (hinj : Function.Injective opcodeValue) (t : Tables) :
    (responseRegistrations.map Prod.fst).Nodup ∧
    (requestRegistrations.map Prod.fst).Nodup ∧
    ∀ calls : List Registration, calls.Perm registrationCalls →
      calls.foldl (Registration.apply opcodeValue) (defaultFill t)
        = initialize_mbcp_lookup_map opcodeValue t := by
  refine ⟨responseRegistrations_nodup, requestRegistrations_nodup, ?_⟩
  intro calls hperm
  rw [initialize_mbcp_lookup_map_eq_foldl]
  exact (List.Perm.foldl_eq' hperm.symm
    (fun x hx y hy z => registrationCalls_comm opcodeValue hinj x hx y hy z) _).symm

/-- Witness of C23: with the sample numbering, the registration calls made in
the reverse of the source order build the same tables. -/
theorem initialize_mbcp_lookup_map_order_independent_witness :
    Function.Injective sampleOpcodeValue ∧
    registrationCalls.reverse.foldl (Registration.apply sampleOpcodeValue)
        (defaultFill staticTables)
      = initialize_mbcp_lookup_map sampleOpcodeValue staticTables :=
  ⟨sampleOpcodeValue_injective,
   (initialize_mbcp_lookup_map_order_independent sampleOpcodeValue sampleOpcodeValue_injective
      staticTables).2.2 registrationCalls.reverse (List.reverse_perm _)⟩

/-! ### The collections manager -/

lemma foldl_collection_visitBucket_success (env : ManagerEnv) (vbs : List VBucket)
    (visitor : CollectionDetailedVBucketVisitor) (h : visitor.success = true) :
    (vbs.foldl (CollectionDetailedVBucketVisitor.visitBucket env) visitor).success = true := by
  induction vbs generalizing visitor with
  | nil => exact h
  | cons vb rest ih =>
    rw [List.foldl_cons]
    apply ih
    simp [CollectionDetailedVBucketVisitor.visitBucket, h]

lemma foldl_scope_visitBucket_success (env : ManagerEnv) (vbs : List VBucket)
    (visitor : ScopeDetailedVBucketVisitor) (h : visitor.success = true) :
    (vbs.foldl (ScopeDetailedVBucketVisitor.visitBucket env) visitor).success = true := by
  induction vbs generalizing visitor with
  | nil => exact h
  | cons vb rest ih =>
    rw [List.foldl_cons]
    apply ih
    simp [ScopeDetailedVBucketVisitor.visitBucket, h]

/-- C29: after any sequence of visited vbuckets, whatever the per-vbucket
statistics calls returned, `getSuccess` of a `CollectionDetailedVBucketVisitor`
and of a `ScopeDetailedVBucketVisitor` is `true`; so `doCollectionDetailStats`
and `doScopeDetailStats` without a vbucket argument return `success` for every
bucket. -/
theorem detailed_visitors_always_succeed (env : ManagerEnv) (bucket : KVBucket)
    (vbs : List VBucket) :
    (vbs.foldl (CollectionDetailedVBucketVisitor.visitBucket env)
      CollectionDetailedVBucketVisitor.create).getSuccess = true ∧
    (vbs.foldl (ScopeDetailedVBucketVisitor.visitBucket env)
      ScopeDetailedVBucketVisitor.create).getSuccess = true ∧
    doCollectionDetailStats env bucket none = engine_errc.success ∧
    doScopeDetailStats env bucket none = engine_errc.success := by
  refine ⟨foldl_collection_visitBucket_success env vbs _ rfl,
    foldl_scope_visitBucket_success env vbs _ rfl, ?_, ?_⟩
  · have h := foldl_collection_visitBucket_success env (env.visit bucket)
      CollectionDetailedVBucketVisitor.create rfl
    simp [doCollectionDetailStats, CollectionDetailedVBucketVisitor.getSuccess, h]
  · have h := foldl_scope_visitBucket_success env (env.visit bucket)
      ScopeDetailedVBucketVisitor.create rfl
    simp [doScopeDetailStats, ScopeDetailedVBucketVisitor.getSuccess, h]

/-! ### The replication throttle -/

lemma updateAllVBuckets_loop_eq (env : ManagerEnv) (bucket : KVBucket) (newManifest : Manifest)
    (hsize : bucket.getSize ≤ 65535) (n : Nat) :
    ∀ (i fuel : Nat) (updated : List Nat), i + n = bucket.getSize → n < fuel →
      updateAllVBuckets_loop env bucket newManifest fuel i updated
        = some (updateInOrder env bucket newManifest (List.range' i n) updated) := by
  induction n with
  | zero =>
    intro i fuel updated hi hfuel
    cases fuel with
    | zero => omega
    | succ f =>
      have hlt : ¬ i < bucket.getSize := by omega
      simp [updateAllVBuckets_loop, updateInOrder, hlt]
  | succ n ih =>
    intro i fuel updated hi hfuel
    cases fuel with
    | zero => omega
    | succ f =>
      have hlt : i < bucket.getSize := by omega
      have hw : (i + 1) % 65536 = i + 1 := Nat.mod_eq_of_lt (by omega)
      have hrec := fun u => ih (i + 1) f u (by omega) (by omega)
      simp only [updateAllVBuckets_loop, updateInOrder, List.range', hlt, if_true, hw]
      cases hb : bucket.getBucket i with
      | none => simp only [hrec]
      | some vb =>
        simp only []
        by_cases ha : vb.getState = vbucket_state_t.vbucket_state_active
        · simp only [ha, if_true]
          cases hs : env.updateFromManifest vb newManifest <;> simp [hrec]
        · simp only [ha, if_false, hrec]

lemma updateInOrder_none_iff (env : ManagerEnv) (bucket : KVBucket) (newManifest : Manifest)
    (ids : List Nat) :
    ∀ updated : List Nat,
      (updateInOrder env bucket newManifest ids updated).1 = none ↔
        ∀ i ∈ ids, ∀ vb, bucket.getBucket i = some vb →
          vb.getState = vbucket_state_t.vbucket_state_active →
          env.updateFromManifest vb newManifest
            ≠ ManifestUpdateStatus.EqualUidWithDifferences := by
  induction ids with
  | nil => intro updated; simp [updateInOrder]
  | cons i rest ih =>
    intro updated
    simp only [updateInOrder, List.mem_cons, forall_eq_or_imp]
    cases hb : bucket.getBucket i with
    | none => simp [ih]
    | some vb =>
      by_cases ha : vb.getState = vbucket_state_t.vbucket_state_active
      · by_cases hs : env.updateFromManifest vb newManifest
            = ManifestUpdateStatus.EqualUidWithDifferences
        · simp [ha, hs]
        · simp [ha, hs, ih]
      · simp [ha, ih]

lemma updateAllVBuckets_eq (env : ManagerEnv) (fuel : Nat) (bucket : KVBucket)
    (newManifest : Manifest) (hsize : bucket.getSize ≤ 65535) (hfuel : bucket.getSize < fuel) :
    updateAllVBuckets env fuel bucket newManifest
      = some (updateInOrder env bucket newManifest (List.range bucket.getSize) []) := by
  unfold updateAllVBuckets
  rw [updateAllVBuckets_loop_eq env bucket newManifest hsize bucket.getSize 0 fuel []
    (by omega) hfuel, List.range_eq_range']

lemma applyNewManifest_cases (env : ManagerEnv) (fuel : Nat) (self : Manager) (bucket : KVBucket)
    (newManifest : Manifest) (hsize : bucket.getSize ≤ 65535) (hfuel : bucket.getSize < fuel) :
    ∃ out, applyNewManifest env fuel self bucket newManifest = some out ∧
      out.bucket = bucket ∧
      out.manager.updateInProgress = self.updateInProgress ∧
      (∀ c, ManagerEffect.setUpdateInProgress c ∉ out.effects) ∧
      ((updateInOrder env bucket newManifest (List.range bucket.getSize) []).1 = none →
        out.code = engine_errc.success ∧
        out.manager = { self with currentManifest := newManifest }) ∧
      ((updateInOrder env bucket newManifest (List.range bucket.getSize) []).1 ≠ none →
        out.code = engine_errc.cannot_apply_collections_manifest ∧ out.manager = self) := by
  unfold applyNewManifest
  rw [updateAllVBuckets_eq env fuel bucket newManifest hsize hfuel]
  rcases hres : updateInOrder env bucket newManifest (List.range bucket.getSize) []
    with ⟨res, updated⟩
  cases res with
  | none => simp
  | some id => simp

/-- C28: on a bucket of at most 65535 vbuckets and with enough fuel,
`updateAllVBuckets` returns what the walk over the positions
`0, 1, ..., getSize - 1` in increasing order returns, which updates the active
vbuckets only and stops at the first whose status is
`EqualUidWithDifferences`; it returns no id exactly when no active vbucket has
that status (a `Behind` status does not stop it); and `applyNewManifest`
returns `success` with the new manifest as the current one in that case, and
`cannot_apply_collections_manifest` with the manager unchanged otherwise. -/
theorem applyNewManifest_all_or_nothing (env : ManagerEnv) (fuel : Nat) (self : Manager)
    (bucket : KVBucket) (newManifest : Manifest)
    (hsize : bucket.getSize ≤ 65535) (hfuel : bucket.getSize < fuel) :
    updateAllVBuckets env fuel bucket newManifest
      = some (updateInOrder env bucket newManifest (List.range bucket.getSize) []) ∧
    ((updateInOrder env bucket newManifest (List.range bucket.getSize) []).1 = none ↔
      ∀ i < bucket.getSize, ∀ vb, bucket.getBucket i = some vb →
        vb.getState = vbucket_state_t.vbucket_state_active →
        env.updateFromManifest vb newManifest
          ≠ ManifestUpdateStatus.EqualUidWithDifferences) ∧
    ∃ out, applyNewManifest env fuel self bucket newManifest = some out ∧
      ((updateInOrder env bucket newManifest (List.range bucket.getSize) []).1 = none →
        out.code = engine_errc.success ∧
        out.manager = { self with currentManifest := newManifest }) ∧
      ((updateInOrder env bucket newManifest (List.range bucket.getSize) []).1 ≠ none →
        out.code = engine_errc.cannot_apply_collections_manifest ∧ out.manager = self) := by
  refine ⟨updateAllVBuckets_eq env fuel bucket newManifest hsize hfuel, ?_, ?_⟩
  · rw [updateInOrder_none_iff]
    simp only [List.mem_range]
  · obtain ⟨out, h, _, _, _, h1, h2⟩ :=
      applyNewManifest_cases env fuel self bucket newManifest hsize hfuel
    exact ⟨out, h, h1, h2⟩

/-- Witness of C28: of four vbuckets, 0 is active and behind, 1 is a replica,
2 is active and reports `EqualUidWithDifferences`: positions 0 and 2 are
updated, 3 is not reached, and the id 2 is returned. -/
theorem applyNewManifest_all_or_nothing_witness :
    (sampleBucket 4).getSize ≤ 65535 ∧ (sampleBucket 4).getSize < 5 ∧
    updateAllVBuckets (sampleManagerEnv false) 5 (sampleBucket 4)
      { uid := 2, isForcedUpdate := false } = some (some 2, [0, 2]) :=
  ⟨by decide, by decide,
   (applyNewManifest_all_or_nothing (sampleManagerEnv false) 5 busyManager (sampleBucket 4)
      { uid := 2, isForcedUpdate := false } (by decide) (by decide)).1.trans (by decide)⟩

/-- C27: on a bucket of at most 65535 vbuckets, with enough fuel and an
`isSuccessor` that never answers `would_block`: while `updateInProgress` holds
another cookie, `update` returns `too_busy` and changes neither the manager
(`updateInProgress`, the current manifest) nor the engine-specific slots;
`update` assigns the caller's cookie to `updateInProgress` exactly when it
returns `would_block`; and the call of the cookie in flight whose slot holds a
manifest leaves `updateInProgress` and that slot cleared, whether the manifest
is applied (`success`) or not (`cannot_apply_collections_manifest`). -/
theorem update_one_in_flight (env : ManagerEnv) (fuel : Nat) (self : Manager)
    (bucket : KVBucket) (manifestString : String) (cookie : Nat)
    (hsize : bucket.getSize ≤ 65535) (hfuel : bucket.getSize < fuel)
    (hsucc : ∀ current next, env.isSuccessor current next ≠ engine_errc.would_block) :
    (self.updateInProgress ≠ 0 → self.updateInProgress ≠ cookie →
      ∃ out, Manager.update env fuel self bucket manifestString cookie = some out ∧
        out.code = engine_errc.too_busy ∧ out.manager = self ∧
        out.bucket.getEngineSpecific = bucket.getEngineSpecific ∧ out.effects = []) ∧
    (∃ out, Manager.update env fuel self bucket manifestString cookie = some out ∧
      (ManagerEffect.setUpdateInProgress cookie ∈ out.effects ↔
        out.code = engine_errc.would_block) ∧
      (out.code = engine_errc.would_block → out.manager.updateInProgress = cookie) ∧
      (out.code ≠ engine_errc.would_block →
        out.manager.updateInProgress = self.updateInProgress ∨
        out.manager.updateInProgress = 0)) ∧
    (self.updateInProgress = cookie → cookie ≠ 0 →
      (bucket.getEngineSpecific cookie).isSome = true →
      ∃ out, Manager.update env fuel self bucket manifestString cookie = some out ∧
        out.manager.updateInProgress = 0 ∧ out.bucket.getEngineSpecific cookie = none ∧
        (out.code = engine_errc.success ∨
          out.code = engine_errc.cannot_apply_collections_manifest)) := by
  refine ⟨?_, ?_, ?_⟩
  · intro h0 hc
    unfold Manager.update
    rw [if_pos ⟨h0, hc⟩]
    exact ⟨_, rfl, rfl, rfl, rfl, rfl⟩
  · unfold Manager.update
    by_cases hbusy : self.updateInProgress ≠ 0 ∧ self.updateInProgress ≠ cookie
    · rw [if_pos hbusy]
      exact ⟨_, rfl, by simp, by simp, by simp⟩
    · rw [if_neg hbusy]
      cases hslot : bucket.getEngineSpecific cookie with
      | some manifest =>
        simp only []
        by_cases hz : self.updateInProgress = 0
        · rw [if_pos hz]
          exact ⟨_, rfl, by simp, by simp, by simp⟩
        · rw [if_neg hz]
          have hcookie : cookie ≠ 0 := by
            intro e
            apply hbusy
            exact ⟨hz, by rw [e]; exact hz⟩
          obtain ⟨out, hout, _, huip, hnot, h1, h2⟩ := applyNewManifest_cases env fuel
            { self with updateInProgress := 0 }
            { bucket with getEngineSpecific :=
                fun c => if c = cookie then none else bucket.getEngineSpecific c }
            manifest hsize hfuel
          have hcode : out.code ≠ engine_errc.would_block := by
            by_cases hn : (updateInOrder env
                { bucket with getEngineSpecific :=
                    fun c => if c = cookie then none else bucket.getEngineSpecific c }
                manifest (List.range bucket.getSize) []).1 = none
            · rw [(h1 hn).1]; decide
            · rw [(h2 hn).1]; decide
          refine ⟨UpdateOutcome.after [ManagerEffect.setUpdateInProgress 0,
            ManagerEffect.storeEngineSpecific cookie none] out, ?_, ?_, ?_, ?_⟩
          · simp only [updateFromIOComplete, hout, Option.map_some']
          · constructor
            · intro h
              rcases List.mem_append.1 h with h | h
              · simp at h
                exact absurd h hcookie
              · exact absurd h (hnot cookie)
            · intro h
              exact absurd h hcode
          · intro h
            exact absurd h hcode
          · intro _
            right
            exact huip
      | none =>
        simp only []
        cases hm : env.makeManifest manifestString with
        | none => exact ⟨_, rfl, by simp, by simp, by simp⟩
        | some newManifest =>
          simp only []
          by_cases hs : env.isSuccessor self.currentManifest newManifest ≠ engine_errc.success
          · rw [if_pos hs]
            have hw := hsucc self.currentManifest newManifest
            exact ⟨_, rfl, by simp [hw], by simp [hw], by simp⟩
          · rw [if_neg hs]
            by_cases hp : (env.maybeScheduleManifestPersistence bucket cookie newManifest).1
                = true
            · rw [if_neg (not_not.2 hp)]
              exact ⟨_, rfl, by simp, by simp, by simp⟩
            · rw [if_pos hp]
              obtain ⟨out, hout, _, huip, hnot, h1, h2⟩ := applyNewManifest_cases env fuel self
                { bucket with getEngineSpecific :=
                    (env.maybeScheduleManifestPersistence bucket cookie newManifest).2 }
                newManifest hsize hfuel
              have hcode : out.code ≠ engine_errc.would_block := by
                by_cases hn : (updateInOrder env
                    { bucket with getEngineSpecific :=
                        (env.maybeScheduleManifestPersistence bucket cookie newManifest).2 }
                    newManifest (List.range bucket.getSize) []).1 = none
                · rw [(h1 hn).1]; decide
                · rw [(h2 hn).1]; decide
              refine ⟨out, hout, ?_, ?_, ?_⟩
              · exact ⟨fun h => absurd h (hnot cookie), fun h => absurd h hcode⟩
              · intro h
                exact absurd h hcode
              · intro _
                left
                exact huip
  · intro hself hcookie hsome
    unfold Manager.update
    have hbusy : ¬ (self.updateInProgress ≠ 0 ∧ self.updateInProgress ≠ cookie) :=
      fun h => h.2 hself
    rw [if_neg hbusy]
    cases hslot : bucket.getEngineSpecific cookie with
    | none => rw [hslot] at hsome; exact absurd hsome (by decide)
    | some manifest =>
      simp only []
      have hz : ¬ self.updateInProgress = 0 := by rw [hself]; exact hcookie
      rw [if_neg hz]
      obtain ⟨out, hout, hb, huip, _, h1, h2⟩ := applyNewManifest_cases env fuel
        { self with updateInProgress := 0 }
        { bucket with getEngineSpecific :=
            fun c => if c = cookie then none else bucket.getEngineSpecific c }
        manifest hsize hfuel
      refine ⟨UpdateOutcome.after [ManagerEffect.setUpdateInProgress 0,
        ManagerEffect.storeEngineSpecific cookie none] out, ?_, ?_, ?_, ?_⟩
      · simp only [updateFromIOComplete, hout, Option.map_some']
      · exact huip
      · show out.bucket.getEngineSpecific cookie = none
        rw [hb]
        simp
      · by_cases hn : (updateInOrder env
            { bucket with getEngineSpecific :=
                fun c => if c = cookie then none else bucket.getEngineSpecific c }
            manifest (List.range bucket.getSize) []).1 = none
        · exact Or.inl (h1 hn).1
        · exact Or.inr (h2 hn).1

lemma sampleManagerEnv_isSuccessor (persistent : Bool) (current next : Manifest) :
    (sampleManagerEnv persistent).isSuccessor current next ≠ engine_errc.would_block := by
  unfold sampleManagerEnv
  simp only []
  split <;> decide

/-- Witness of C27: with an update in flight for the cookie 7, the call of the
cookie 9 is turned away, and the call of the cookie 7, whose slot holds a
manifest, clears `updateInProgress` and the slot. -/
theorem update_one_in_flight_witness :
    (∃ out, Manager.update (sampleManagerEnv true) 5 busyManager (sampleBucket 4) "abc" 9
        = some out ∧
      out.code = engine_errc.too_busy ∧ out.manager = busyManager ∧
      out.bucket.getEngineSpecific = (sampleBucket 4).getEngineSpecific ∧ out.effects = []) ∧
    (∃ out, Manager.update (sampleManagerEnv true) 5 busyManager (sampleBucket 4) "abc" 7
        = some out ∧
      out.manager.updateInProgress = 0 ∧ out.bucket.getEngineSpecific 7 = none ∧
      (out.code = engine_errc.success ∨
        out.code = engine_errc.cannot_apply_collections_manifest)) :=
  ⟨(update_one_in_flight (sampleManagerEnv true) 5 busyManager (sampleBucket 4) "abc" 9
      (by decide) (by decide) (sampleManagerEnv_isSuccessor true)).1 (by decide) (by decide),
   (update_one_in_flight (sampleManagerEnv true) 5 busyManager (sampleBucket 4) "abc" 7
      (by decide) (by decide) (sampleManagerEnv_isSuccessor true)).2.2 rfl (by decide)
      (by decide)⟩

/-! ### The configuration parser -/

/-- C25 on the entry `key = value`: for the entry `key = value` and the
stop character `=`, `trim_copy` returns 0 and leaves the four characters
`key ` in `dest`, the blank before the stop character included. -/
theorem trim_copy_keeps_blank_before_stop :
    (trim_copy (cstring "key = value") 32 (List.replicate 80 0) 80 0 61 []).map
        (fun r => (r.ret, cstr r.buffer, r.endp))
      = some (0, bytesOf "key ", 4) ∧
    bytesOf "key " ≠ bytesOf "key" := by
  decide

set_option maxRecDepth 1000000 in
/-- C24 on the strings `a=1` and `a=1 `: no item has the key `a`; for the
string `a=1` `parse_config` returns 1, but for `a=1 `, the same entry followed
by a blank, it returns 0, and so it does for the string that includes the
file `f` whose only line is `a=1` and a newline. -/
theorem parse_config_end_of_parameters_returns_zero :
    find_item (bytesOf "a") sampleItems 0 = none ∧
    (parse_config sampleConfigEnv 32 1 (cstring "a=1") sampleItems).map (fun r => r.ret)
      = some 1 ∧
    (parse_config sampleConfigEnv 32 1 (cstring "a=1 ") sampleItems).map (fun r => r.ret)
      = some 0 ∧
    (parse_config sampleConfigEnv 32 2 (cstring "config_file=f") sampleItems).map
        (fun r => r.ret)
      = some 0 := by
  decide

set_option maxRecDepth 1000000 in
/-- C26 on the string `a` and on 80 backslashes: the string `a` occupies the addresses
0 and 1, and `parse_config` reads the addresses 2 and 3; on a string of 80
backslashes `trim_copy` with a buffer of 80 bytes writes one byte in front of
the buffer and leaves no NUL in a buffer that held none. -/
theorem parse_config_reads_past_terminator :
    (cstringZero "a").bytes.length = 1 ∧
    (parse_config sampleConfigEnv 32 1 (cstringZero "a") sampleItems).map
        (fun r => (r.ret, r.outside))
      = some (1, [2, 2, 2, 3, 3]) ∧
    (trim_copy backslashes 100 (List.replicate 80 1) 80 0 61 []).map
        (fun r => (r.ret, r.badWrites, decide (0 ∈ r.buffer)))
      = some (-1, [-1], false) := by
  decide

end KvEngine
